import Mathlib

/-
Verification of the tcode-api client library against its natural-language
specification.

Shallow embedding conventions:
- Python floats are modelled as rationals (Rat); the spec examples use only
  finite decimal values, and JSON number round-trips are exact at this level.
- JSON documents (the output of pydantic model_dump_json and the input of
  model_validate_json) are modelled by the inductive type Json below, with
  integer-form and float-form numbers kept distinct exactly as the JSON
  grammar and the Python json parser keep them distinct.
- Python exceptions are modelled by Except with explicit error inductives.
- The pint unit registry wrapped by the missing module tcode_api.units is
  modelled from the spec (section 4.1): a finite registry mapping a unit
  string to a dimension vector and a conversion factor into coherent base
  units.  Conversion, addition in the left operand units, and comparison
  after conversion follow the documented contract.
-/

/-- JSON value, the common representation of pydantic model dumps.  Integer
literals and float literals are distinct constructors because the Python json
parser distinguishes them (3 parses as int, 3.0 parses as float). -/
inductive Json where
  | null : Json
  | bool (b : Bool) : Json
  | int (n : Int) : Json
  | float (q : Rat) : Json
  | str (s : String) : Json
  | arr (xs : List Json) : Json
  | obj (fields : List (String × Json)) : Json

/-- Field access on a JSON object: first binding of the key wins, mirroring
the Python dict produced by the json parser. -/
def Json.getField (j : Json) (name : String) : Option Json :=
  match j with
  | .obj fields => fields.lookup name
  | _ => none

/-- Error raised by pydantic validation (model construction or
model_validate_json with bad data). -/
inductive PErr where
  | validation : PErr
  deriving DecidableEq, Repr

/-- Sequencing of pydantic field validations: the first failure aborts. -/
def pBind {α β : Type} (x : Except PErr α) (f : α → Except PErr β) : Except PErr β :=
  match x with
  | .ok a => f a
  | .error e => .error e

@[simp]
theorem pBind_ok {α β : Type} (a : α) (f : α → Except PErr β) : pBind (.ok a) f = f a := rfl

@[simp]
theorem pBind_error {α β : Type} (e : PErr) (f : α → Except PErr β) :
    pBind (Except.error e) f = .error e := rfl

/-- Validation guard: the Bool condition must hold. -/
def pGuard (c : Bool) : Except PErr Unit :=
  if c then .ok () else .error .validation

@[simp]
theorem pGuard_true : pGuard true = .ok () := rfl

/-- Read a required field; pydantic raises a missing-field validation error
when the key is absent. -/
def reqField (j : Json) (name : String) : Except PErr Json :=
  match j.getField name with
  | some v => .ok v
  | none => .error .validation

/-- A present JSON null reads back as None. -/
def nullToNone : Json → Option Json
  | .null => none
  | v => some v

/-- Read an Option-typed field: both an absent key (pydantic default None)
and an explicit JSON null give none. -/
def optField (j : Json) (name : String) : Option Json :=
  match j.getField name with
  | some w => nullToNone w
  | none => none

/-- Read a field with a non-None pydantic default: an absent key produces
the default, a present value is validated. -/
def fieldOr {α : Type} (j : Json) (name : String) (dflt : α)
    (p : Json → Except PErr α) : Except PErr α :=
  match j.getField name with
  | some v => p v
  | none => .ok dflt

/-- Strict string validation. -/
def Json.asStr : Json → Except PErr String
  | .str s => .ok s
  | _ => .error .validation

/-- Strict bool validation. -/
def Json.asBool : Json → Except PErr Bool
  | .bool b => .ok b
  | _ => .error .validation

/-- Strict int validation (JSON integer form only). -/
def Json.asInt : Json → Except PErr Int
  | .int n => .ok n
  | _ => .error .validation

/-- Float validation: pydantic accepts both JSON float form and JSON integer
form for a float field. -/
def Json.asFloat : Json → Except PErr Rat
  | .float q => .ok q
  | .int n => .ok (n : Rat)
  | _ => .error .validation

/-- Array validation. -/
def Json.asArr : Json → Except PErr (List Json)
  | .arr xs => .ok xs
  | _ => .error .validation

/-- Object validation, producing the field list. -/
def Json.asObjFields : Json → Except PErr (List (String × Json))
  | .obj fields => .ok fields
  | _ => .error .validation

/-- Validate each element of a JSON array. -/
def parseList {α : Type} (p : Json → Except PErr α) : List Json → Except PErr (List α)
  | [] => .ok []
  | x :: xs => pBind (p x) fun a => pBind (parseList p xs) fun as => .ok (a :: as)

/-- If the element validator inverts the element dump, list validation
inverts the list dump. -/
theorem parseList_map {α : Type} (p : Json → Except PErr α) (d : α → Json)
    (xs : List α) (h : ∀ a ∈ xs, p (d a) = .ok a) :
    parseList p (xs.map d) = .ok xs := by
  induction xs with
  | nil => rfl
  | cons x xs ih =>
    simp only [List.map_cons, parseList, h x (by simp)]
    rw [ih (fun a ha => h a (by simp [ha]))]
    rfl

/-- Validate each entry of a JSON object viewed as a string-keyed map. -/
def parseEntries {α : Type} (p : Json → Except PErr α) :
    List (String × Json) → Except PErr (List (String × α))
  | [] => .ok []
  | (k, v) :: rest =>
    pBind (p v) fun a => pBind (parseEntries p rest) fun as => .ok ((k, a) :: as)

/-- Entry-wise inverse for string-keyed maps. -/
theorem parseEntries_map {α : Type} (p : Json → Except PErr α) (d : α → Json)
    (xs : List (String × α)) (h : ∀ kv ∈ xs, p (d kv.2) = .ok kv.2) :
    parseEntries p (xs.map (fun kv => (kv.1, d kv.2))) = .ok xs := by
  induction xs with
  | nil => rfl
  | cons x xs ih =>
    simp only [List.map_cons, parseEntries, h x (by simp)]
    rw [ih (fun a ha => h a (by simp [ha]))]
    rfl

/-
Dimensional-analysis model of the pint unit registry.

Modelled from the spec: the module tcode_api.units, which configures the
pint registry and exposes the quantity constructor Q_, is not present under
src/ (only its importers are).  Section 4.1 of the spec documents the
contract: conversion via dimensional analysis, arithmetic converting the
right operand into the left operand units with result units equal to the
left operand units, comparisons converting before comparing, and a
dimensionality failure between incompatible dimensions (e.g. mass vs
length).
-/

/-- Exponent vector over the base dimensions used by the repository
(length, mass, time); volumes are length cubed. -/
structure Dimension where
  length : Int
  mass : Int
  time : Int
  deriving DecidableEq, Repr

/-- The unit registry: unit string, dimension, factor into coherent base
units.  Covers the unit spellings used in the repository and the spec. -/
def unitRegistry : List (String × Dimension × Rat) :=
  [ ("m", ⟨1, 0, 0⟩, 1)
  , ("mm", ⟨1, 0, 0⟩, 1/1000)
  , ("cm", ⟨1, 0, 0⟩, 1/100)
  , ("kg", ⟨0, 1, 0⟩, 1)
  , ("g", ⟨0, 1, 0⟩, 1/1000)
  , ("s", ⟨0, 0, 1⟩, 1)
  , ("seconds", ⟨0, 0, 1⟩, 1)
  , ("L", ⟨3, 0, 0⟩, 1/1000)
  , ("mL", ⟨3, 0, 0⟩, 1/1000000)
  , ("uL", ⟨3, 0, 0⟩, 1/1000000000)
  , ("microliters", ⟨3, 0, 0⟩, 1/1000000000)
  , ("uL/s", ⟨3, 0, -1⟩, 1/1000000000)
  , ("microliters/second", ⟨3, 0, -1⟩, 1/1000000000)
  , ("rad", ⟨0, 0, 0⟩, 1)
  , ("radians", ⟨0, 0, 0⟩, 1)
  ]

/-- Resolve a unit string in the registry. -/
def unitTable (u : String) : Option (Dimension × Rat) :=
  (unitRegistry.find? (fun e => e.1 = u)).map (fun e => e.2)

/-- Every registered conversion factor is positive. -/
theorem unitTable_factor_pos (u : String) (d : Dimension) (f : Rat)
    (h : unitTable u = some (d, f)) : 0 < f := by
  unfold unitTable at h
  cases hf : unitRegistry.find? (fun e => e.1 = u) with
  | none => rw [hf] at h; cases h
  | some e =>
    rw [hf] at h
    simp only [Option.map] at h
    have h2 : e.2 = (d, f) := Option.some.inj h
    have he : e ∈ unitRegistry := List.mem_of_find?_eq_some hf
    have hpos : ∀ x ∈ unitRegistry, (0 : Rat) < x.2.2 := by
      intro x hx
      fin_cases hx <;> norm_num
    have hef := hpos e he
    rw [h2] at hef
    exact hef

/-- Errors raised by pint itself. -/
inductive PintError where
  | dimensionality : PintError
  | undefinedUnit : PintError
  deriving DecidableEq, Repr

/-- Quantity conversion, Q_(mag, src).to(dst): defined when both units
resolve and share a dimension; the magnitude is scaled through base units. -/
def pintConvert (mag : Rat) (src dst : String) : Except PintError Rat :=
  match unitTable src, unitTable dst with
  | some (d1, f1), some (d2, f2) =>
    if d1 = d2 then .ok (mag * f1 / f2) else .error .dimensionality
  | _, _ => .error .undefinedUnit

/-- Q_ addition: pint converts the right operand into the left operand
units; the result units are the left operand units. -/
def pintAdd (m1 : Rat) (u1 : String) (m2 : Rat) (u2 : String) :
    Except PintError (Rat × String) :=
  match pintConvert m2 u2 u1 with
  | .ok m2c => .ok (m1 + m2c, u1)
  | .error e => .error e

/-- Q_ subtraction, same conversion discipline as addition. -/
def pintSub (m1 : Rat) (u1 : String) (m2 : Rat) (u2 : String) :
    Except PintError (Rat × String) :=
  match pintConvert m2 u2 u1 with
  | .ok m2c => .ok (m1 - m2c, u1)
  | .error e => .error e

/-- Quantity.check(other_units): raises for an unknown unit, otherwise
reports whether the dimensions agree. -/
def pintCheck (src dst : String) : Except PintError Bool :=
  match unitTable src, unitTable dst with
  | some (d1, _), some (d2, _) => .ok (decide (d1 = d2))
  | _, _ => .error .undefinedUnit

/-- Q_ equality: pint compares after conversion when dimensions agree and
pythonically answers false between incompatible dimensions. -/
def pintEq (m1 : Rat) (u1 : String) (m2 : Rat) (u2 : String) :
    Except PintError Bool :=
  match unitTable u1, unitTable u2 with
  | some (d1, f1), some (d2, f2) =>
    if d1 = d2 then .ok (decide (m1 * f1 = m2 * f2)) else .ok false
  | _, _ => .error .undefinedUnit

/-- Q_ strict order: pint raises a dimensionality error between
incompatible dimensions. -/
def pintLt (m1 : Rat) (u1 : String) (m2 : Rat) (u2 : String) :
    Except PintError Bool :=
  match unitTable u1, unitTable u2 with
  | some (d1, f1), some (d2, f2) =>
    if d1 = d2 then .ok (decide (m1 * f1 < m2 * f2)) else .error .dimensionality
  | _, _ => .error .undefinedUnit

/-- Q_ non-strict order. -/
def pintLe (m1 : Rat) (u1 : String) (m2 : Rat) (u2 : String) :
    Except PintError Bool :=
  match unitTable u1, unitTable u2 with
  | some (d1, f1), some (d2, f2) =>
    if d1 = d2 then .ok (decide (m1 * f1 ≤ m2 * f2)) else .error .dimensionality
  | _, _ => .error .undefinedUnit

/-- Q_ greater-than comparison. -/
def pintGt (m1 : Rat) (u1 : String) (m2 : Rat) (u2 : String) :
    Except PintError Bool :=
  match unitTable u1, unitTable u2 with
  | some (d1, f1), some (d2, f2) =>
    if d1 = d2 then .ok (decide (m2 * f2 < m1 * f1)) else .error .dimensionality
  | _, _ => .error .undefinedUnit

/-- Q_ greater-or-equal comparison. -/
def pintGe (m1 : Rat) (u1 : String) (m2 : Rat) (u2 : String) :
    Except PintError Bool :=
  match unitTable u1, unitTable u2 with
  | some (d1, f1), some (d2, f2) =>
    if d1 = d2 then .ok (decide (m2 * f2 ≤ m1 * f1)) else .error .dimensionality
  | _, _ => .error .undefinedUnit

/-- The magnitude+units record shared by both ValueWithUnits classes
(tcode_api/schemas/common/value_with_units.py and tcode_api/api/core.py);
both declare exactly the fields magnitude: float and units: str plus a
constant type tag. -/
structure ValueWithUnits where
  magnitude : Rat
  units : String
  deriving DecidableEq, Repr

/-- Error outcomes of a ValueWithUnits operation, distinguishing the
UnitsError raised by the repository from the pint errors it may let
propagate. -/
inductive UnitsOpError where
  | unitsError : UnitsOpError
  | dimensionality : UnitsOpError
  | undefinedUnit : UnitsOpError
  deriving DecidableEq, Repr

/-- An uncaught pint error propagating out of a ValueWithUnits operation. -/
def liftPint : PintError → UnitsOpError
  | .dimensionality => .dimensionality
  | .undefinedUnit => .undefinedUnit

/-
ValueWithUnits from tcode_api/schemas/common/value_with_units.py
(the schema implementation).  Operation prefixes: schemas_.
-/

/-- schemas ValueWithUnits.to: structural copy on a string-identical target
(the two string comparisons in the source coincide for a string argument);
otherwise pint conversion with pint errors propagating uncaught. -/
def schemas_to (a : ValueWithUnits) (units : String) : Except UnitsOpError ValueWithUnits :=
  if units = a.units then .ok a
  else
    match pintConvert a.magnitude a.units units with
    | .ok m => .ok ⟨m, units⟩
    | .error e => .error (liftPint e)

/-- schemas ValueWithUnits scalar multiplication. -/
def schemas_mul (a : ValueWithUnits) (other : Rat) : ValueWithUnits :=
  ⟨a.magnitude * other, a.units⟩

/-- schemas ValueWithUnits negation. -/
def schemas_neg (a : ValueWithUnits) : ValueWithUnits :=
  ⟨-a.magnitude, a.units⟩

/-- schemas ValueWithUnits addition: fast path on identical unit strings,
otherwise pint addition with DimensionalityError re-raised as UnitsError. -/
def schemas_add (a b : ValueWithUnits) : Except UnitsOpError ValueWithUnits :=
  if b.units = a.units then .ok ⟨a.magnitude + b.magnitude, a.units⟩
  else
    match pintAdd a.magnitude a.units b.magnitude b.units with
    | .ok (m, u) => .ok ⟨m, u⟩
    | .error .dimensionality => .error .unitsError
    | .error .undefinedUnit => .error .undefinedUnit

/-- schemas ValueWithUnits subtraction, same shape as addition. -/
def schemas_sub (a b : ValueWithUnits) : Except UnitsOpError ValueWithUnits :=
  if b.units = a.units then .ok ⟨a.magnitude - b.magnitude, a.units⟩
  else
    match pintSub a.magnitude a.units b.magnitude b.units with
    | .ok (m, u) => .ok ⟨m, u⟩
    | .error .dimensionality => .error .unitsError
    | .error .undefinedUnit => .error .undefinedUnit

/-- schemas ValueWithUnits equality: fast path on identical unit strings;
otherwise an explicit check raises UnitsError between incompatible
dimensions before pint equality is consulted. -/
def schemas_eq (a b : ValueWithUnits) : Except UnitsOpError Bool :=
  if b.units = a.units then .ok (decide (a.magnitude = b.magnitude))
  else
    match pintCheck a.units b.units with
    | .ok true =>
      match pintEq a.magnitude a.units b.magnitude b.units with
      | .ok r => .ok r
      | .error e => .error (liftPint e)
    | .ok false => .error .unitsError
    | .error e => .error (liftPint e)

/-- schemas ValueWithUnits less-than: fast path, then pint comparison with
DimensionalityError re-raised as UnitsError. -/
def schemas_lt (a b : ValueWithUnits) : Except UnitsOpError Bool :=
  if b.units = a.units then .ok (decide (a.magnitude < b.magnitude))
  else
    match pintLt a.magnitude a.units b.magnitude b.units with
    | .ok r => .ok r
    | .error .dimensionality => .error .unitsError
    | .error .undefinedUnit => .error .undefinedUnit

/-- schemas ValueWithUnits less-or-equal. -/
def schemas_le (a b : ValueWithUnits) : Except UnitsOpError Bool :=
  if b.units = a.units then .ok (decide (a.magnitude ≤ b.magnitude))
  else
    match pintLe a.magnitude a.units b.magnitude b.units with
    | .ok r => .ok r
    | .error .dimensionality => .error .unitsError
    | .error .undefinedUnit => .error .undefinedUnit

/-- schemas ValueWithUnits greater-than. -/
def schemas_gt (a b : ValueWithUnits) : Except UnitsOpError Bool :=
  if b.units = a.units then .ok (decide (b.magnitude < a.magnitude))
  else
    match pintGt a.magnitude a.units b.magnitude b.units with
    | .ok r => .ok r
    | .error .dimensionality => .error .unitsError
    | .error .undefinedUnit => .error .undefinedUnit

/-- schemas ValueWithUnits greater-or-equal. -/
def schemas_ge (a b : ValueWithUnits) : Except UnitsOpError Bool :=
  if b.units = a.units then .ok (decide (b.magnitude ≤ a.magnitude))
  else
    match pintGe a.magnitude a.units b.magnitude b.units with
    | .ok r => .ok r
    | .error .dimensionality => .error .unitsError
    | .error .undefinedUnit => .error .undefinedUnit

/-
ValueWithUnits from tcode_api/api/core.py (the api implementation).
Same fast paths, but no except clause anywhere: pint errors propagate, and
pint equality between incompatible dimensions pythonically returns False.
Operation prefixes: core_.
-/

/-- core ValueWithUnits.to, textually identical to the schemas version. -/
def core_to (a : ValueWithUnits) (units : String) : Except UnitsOpError ValueWithUnits :=
  if units = a.units then .ok a
  else
    match pintConvert a.magnitude a.units units with
    | .ok m => .ok ⟨m, units⟩
    | .error e => .error (liftPint e)

/-- core ValueWithUnits scalar multiplication. -/
def core_mul (a : ValueWithUnits) (other : Rat) : ValueWithUnits :=
  ⟨a.magnitude * other, a.units⟩

/-- core ValueWithUnits negation. -/
def core_neg (a : ValueWithUnits) : ValueWithUnits :=
  ⟨-a.magnitude, a.units⟩

/-- core ValueWithUnits addition: no except clause, pint errors propagate. -/
def core_add (a b : ValueWithUnits) : Except UnitsOpError ValueWithUnits :=
  if b.units = a.units then .ok ⟨a.magnitude + b.magnitude, a.units⟩
  else
    match pintAdd a.magnitude a.units b.magnitude b.units with
    | .ok (m, u) => .ok ⟨m, u⟩
    | .error e => .error (liftPint e)

/-- core ValueWithUnits subtraction. -/
def core_sub (a b : ValueWithUnits) : Except UnitsOpError ValueWithUnits :=
  if b.units = a.units then .ok ⟨a.magnitude - b.magnitude, a.units⟩
  else
    match pintSub a.magnitude a.units b.magnitude b.units with
    | .ok (m, u) => .ok ⟨m, u⟩
    | .error e => .error (liftPint e)

/-- core ValueWithUnits equality: delegates to pint, which returns False
between incompatible dimensions instead of raising. -/
def core_eq (a b : ValueWithUnits) : Except UnitsOpError Bool :=
  if b.units = a.units then .ok (decide (a.magnitude = b.magnitude))
  else
    match pintEq a.magnitude a.units b.magnitude b.units with
    | .ok r => .ok r
    | .error e => .error (liftPint e)

/-- core ValueWithUnits less-than: pint DimensionalityError propagates. -/
def core_lt (a b : ValueWithUnits) : Except UnitsOpError Bool :=
  if b.units = a.units then .ok (decide (a.magnitude < b.magnitude))
  else
    match pintLt a.magnitude a.units b.magnitude b.units with
    | .ok r => .ok r
    | .error e => .error (liftPint e)

/-- core ValueWithUnits less-or-equal. -/
def core_le (a b : ValueWithUnits) : Except UnitsOpError Bool :=
  if b.units = a.units then .ok (decide (a.magnitude ≤ b.magnitude))
  else
    match pintLe a.magnitude a.units b.magnitude b.units with
    | .ok r => .ok r
    | .error e => .error (liftPint e)

/-- core ValueWithUnits greater-than. -/
def core_gt (a b : ValueWithUnits) : Except UnitsOpError Bool :=
  if b.units = a.units then .ok (decide (b.magnitude < a.magnitude))
  else
    match pintGt a.magnitude a.units b.magnitude b.units with
    | .ok r => .ok r
    | .error e => .error (liftPint e)

/-- core ValueWithUnits greater-or-equal. -/
def core_ge (a b : ValueWithUnits) : Except UnitsOpError Bool :=
  if b.units = a.units then .ok (decide (b.magnitude ≤ a.magnitude))
  else
    match pintGe a.magnitude a.units b.magnitude b.units with
    | .ok r => .ok r
    | .error e => .error (liftPint e)

/-- Two unit strings resolving to distinct dimensions are distinct strings,
so no identical-units fast path applies to them. -/
theorem units_neq_of_dim_neq {a b : ValueWithUnits} {d1 d2 : Dimension} {f1 f2 : Rat}
    (h1 : unitTable a.units = some (d1, f1)) (h2 : unitTable b.units = some (d2, f2))
    (hne : d1 ≠ d2) : ¬ b.units = a.units := by
  intro hu
  rw [hu, h1] at h2
  have hd : d1 = d2 := congrArg Prod.fst (Option.some.inj h2)
  exact hne hd

/-- schemas addition on dimensionally compatible operands: the right
magnitude is converted into the left operand units and the result keeps the
left operand units. -/
theorem schemas_add_compatible (a b : ValueWithUnits) (d : Dimension) (f1 f2 : Rat)
    (h1 : unitTable a.units = some (d, f1)) (h2 : unitTable b.units = some (d, f2)) :
    schemas_add a b = .ok ⟨a.magnitude + b.magnitude * f2 / f1, a.units⟩ := by
  by_cases hu : b.units = a.units
  · rw [hu] at h2
    rw [h1] at h2
    have hf : f1 = f2 := congrArg Prod.snd (Option.some.inj h2)
    have hpos := unitTable_factor_pos a.units d f1 h1
    have hne : f1 ≠ 0 := ne_of_gt hpos
    subst hf
    simp [schemas_add, hu, mul_div_assoc, div_self hne]
  · simp [schemas_add, hu, pintAdd, pintConvert, h1, h2]

/-- schemas subtraction on dimensionally compatible operands. -/
theorem schemas_sub_compatible (a b : ValueWithUnits) (d : Dimension) (f1 f2 : Rat)
    (h1 : unitTable a.units = some (d, f1)) (h2 : unitTable b.units = some (d, f2)) :
    schemas_sub a b = .ok ⟨a.magnitude - b.magnitude * f2 / f1, a.units⟩ := by
  by_cases hu : b.units = a.units
  · rw [hu] at h2
    rw [h1] at h2
    have hf : f1 = f2 := congrArg Prod.snd (Option.some.inj h2)
    have hpos := unitTable_factor_pos a.units d f1 h1
    have hne : f1 ≠ 0 := ne_of_gt hpos
    subst hf
    simp [schemas_sub, hu, mul_div_assoc, div_self hne]
  · simp [schemas_sub, hu, pintSub, pintConvert, h1, h2]

/-- schemas comparisons on dimensionally compatible operands compare the
magnitudes after conversion into common base units. -/
theorem schemas_cmp_compatible (a b : ValueWithUnits) (d : Dimension) (f1 f2 : Rat)
    (h1 : unitTable a.units = some (d, f1)) (h2 : unitTable b.units = some (d, f2)) :
    schemas_eq a b = .ok (decide (a.magnitude * f1 = b.magnitude * f2)) ∧
    schemas_lt a b = .ok (decide (a.magnitude * f1 < b.magnitude * f2)) ∧
    schemas_le a b = .ok (decide (a.magnitude * f1 ≤ b.magnitude * f2)) ∧
    schemas_gt a b = .ok (decide (b.magnitude * f2 < a.magnitude * f1)) ∧
    schemas_ge a b = .ok (decide (b.magnitude * f2 ≤ a.magnitude * f1)) := by
  by_cases hu : b.units = a.units
  · rw [hu] at h2
    rw [h1] at h2
    have hf : f1 = f2 := congrArg Prod.snd (Option.some.inj h2)
    have hpos := unitTable_factor_pos a.units d f1 h1
    subst hf
    refine ⟨?_, ?_, ?_, ?_, ?_⟩
    · simp [schemas_eq, hu, mul_left_inj' (ne_of_gt hpos)]
    · simp [schemas_lt, hu, mul_lt_mul_right hpos]
    · simp [schemas_le, hu, mul_le_mul_right hpos]
    · simp [schemas_gt, hu, mul_lt_mul_right hpos]
    · simp [schemas_ge, hu, mul_le_mul_right hpos]
  · refine ⟨?_, ?_, ?_, ?_, ?_⟩ <;>
      simp [schemas_eq, schemas_lt, schemas_le, schemas_gt, schemas_ge, hu,
        pintCheck, pintEq, pintLt, pintLe, pintGt, pintGe, h1, h2]

/-- schemas operations on dimensionally incompatible operands all raise
UnitsError. -/
theorem schemas_incompat_ops (a b : ValueWithUnits) (d1 d2 : Dimension) (f1 f2 : Rat)
    (h1 : unitTable a.units = some (d1, f1)) (h2 : unitTable b.units = some (d2, f2))
    (hne : d1 ≠ d2) :
    schemas_add a b = .error .unitsError ∧
    schemas_sub a b = .error .unitsError ∧
    schemas_eq a b = .error .unitsError ∧
    schemas_lt a b = .error .unitsError ∧
    schemas_le a b = .error .unitsError ∧
    schemas_gt a b = .error .unitsError ∧
    schemas_ge a b = .error .unitsError := by
  have hu := units_neq_of_dim_neq h1 h2 hne
  refine ⟨?_, ?_, ?_, ?_, ?_, ?_, ?_⟩ <;>
    simp [schemas_add, schemas_sub, schemas_eq, schemas_lt, schemas_le, schemas_gt,
      schemas_ge, pintAdd, pintSub, pintCheck, pintEq, pintLt, pintLe, pintGt, pintGe,
      pintConvert, h1, h2, hne, Ne.symm hne, hu]

/-- core operations on dimensionally incompatible operands: the pint
DimensionalityError propagates from arithmetic and ordering, while pint
equality answers false. -/
theorem core_incompat_ops (a b : ValueWithUnits) (d1 d2 : Dimension) (f1 f2 : Rat)
    (h1 : unitTable a.units = some (d1, f1)) (h2 : unitTable b.units = some (d2, f2))
    (hne : d1 ≠ d2) :
    core_add a b = .error .dimensionality ∧
    core_sub a b = .error .dimensionality ∧
    core_eq a b = .ok false ∧
    core_lt a b = .error .dimensionality ∧
    core_le a b = .error .dimensionality ∧
    core_gt a b = .error .dimensionality ∧
    core_ge a b = .error .dimensionality := by
  have hu := units_neq_of_dim_neq h1 h2 hne
  refine ⟨?_, ?_, ?_, ?_, ?_, ?_, ?_⟩ <;>
    simp [core_add, core_sub, core_eq, core_lt, core_le, core_gt, core_ge,
      pintAdd, pintSub, pintEq, pintLt, pintLe, pintGt, pintGe, pintConvert,
      liftPint, h1, h2, hne, Ne.symm hne, hu]

/-- The two implementations coincide on every operation when the operand
units are dimensionally compatible. -/
theorem core_schemas_agree_compatible (a b : ValueWithUnits) (d : Dimension) (f1 f2 : Rat)
    (h1 : unitTable a.units = some (d, f1)) (h2 : unitTable b.units = some (d, f2)) :
    core_add a b = schemas_add a b ∧
    core_sub a b = schemas_sub a b ∧
    core_eq a b = schemas_eq a b ∧
    core_lt a b = schemas_lt a b ∧
    core_le a b = schemas_le a b ∧
    core_gt a b = schemas_gt a b ∧
    core_ge a b = schemas_ge a b := by
  by_cases hu : b.units = a.units
  · refine ⟨?_, ?_, ?_, ?_, ?_, ?_, ?_⟩ <;>
      simp [core_add, schemas_add, core_sub, schemas_sub, core_eq, schemas_eq,
        core_lt, schemas_lt, core_le, schemas_le, core_gt, schemas_gt,
        core_ge, schemas_ge, hu]
  · refine ⟨?_, ?_, ?_, ?_, ?_, ?_, ?_⟩ <;>
      simp [core_add, schemas_add, core_sub, schemas_sub, core_eq, schemas_eq,
        core_lt, schemas_lt, core_le, schemas_le, core_gt, schemas_gt,
        core_ge, schemas_ge, hu, pintAdd, pintSub, pintCheck, pintEq, pintLt,
        pintLe, pintGt, pintGe, pintConvert, liftPint, h1, h2]

/-- The outcome-agreement relation asserted by the refinement claim: the two
implementations either return the same value or fail with the same error
kind. -/
def sameOutcome {α : Type} (x y : Except UnitsOpError α) : Prop :=
  (∃ v, x = .ok v ∧ y = .ok v) ∨ (∃ e, x = .error e ∧ y = .error e)

/-- C7: for dimensionally compatible operands a + b returns a quantity whose
magnitude is the left magnitude plus the right magnitude converted into the
left operand units, with the units field equal to the left operand units
string; in particular 5 mm + 0.01 m = 15 mm. -/
theorem vwu_add_converts_right_operand (a b : ValueWithUnits) (d : Dimension) (f1 f2 : Rat)
    (h1 : unitTable a.units = some (d, f1)) (h2 : unitTable b.units = some (d, f2)) :
    schemas_add a b = .ok ⟨a.magnitude + b.magnitude * f2 / f1, a.units⟩ ∧
    schemas_add ⟨5, "mm"⟩ ⟨1/100, "m"⟩ = .ok ⟨15, "mm"⟩ := by
  refine ⟨schemas_add_compatible a b d f1 f2 h1 h2, ?_⟩
  simp [schemas_add, pintAdd, pintConvert, unitTable, unitRegistry, List.find?]
  norm_num

/-- C7 witness: the addition theorem applied to the concrete operands 5 mm
and 0.01 m. -/
theorem vwu_add_converts_right_operand_witness :
    schemas_add ⟨5, "mm"⟩ ⟨1/100, "m"⟩ =
      .ok ⟨(5 : Rat) + (1/100) * 1 / (1/1000), "mm"⟩ :=
  (vwu_add_converts_right_operand ⟨5, "mm"⟩ ⟨1/100, "m"⟩ ⟨1, 0, 0⟩ (1/1000) 1
    (by simp [unitTable, unitRegistry, List.find?])
    (by simp [unitTable, unitRegistry, List.find?])).1

/-- C8: every arithmetic or comparison operation between dimensionally
incompatible quantities raises UnitsError; on compatible quantities the
operations never raise and comparisons compare after converting into common
base units, so 0.01 m == 10 mm holds. -/
theorem vwu_incompatible_ops_raise_unitsError :
    (∀ (a b : ValueWithUnits) (d1 d2 : Dimension) (f1 f2 : Rat),
      unitTable a.units = some (d1, f1) → unitTable b.units = some (d2, f2) → d1 ≠ d2 →
        schemas_add a b = .error .unitsError ∧
        schemas_sub a b = .error .unitsError ∧
        schemas_eq a b = .error .unitsError ∧
        schemas_lt a b = .error .unitsError ∧
        schemas_le a b = .error .unitsError ∧
        schemas_gt a b = .error .unitsError ∧
        schemas_ge a b = .error .unitsError) ∧
    (∀ (a b : ValueWithUnits) (d : Dimension) (f1 f2 : Rat),
      unitTable a.units = some (d, f1) → unitTable b.units = some (d, f2) →
        schemas_add a b = .ok ⟨a.magnitude + b.magnitude * f2 / f1, a.units⟩ ∧
        schemas_sub a b = .ok ⟨a.magnitude - b.magnitude * f2 / f1, a.units⟩ ∧
        schemas_eq a b = .ok (decide (a.magnitude * f1 = b.magnitude * f2)) ∧
        schemas_lt a b = .ok (decide (a.magnitude * f1 < b.magnitude * f2)) ∧
        schemas_le a b = .ok (decide (a.magnitude * f1 ≤ b.magnitude * f2)) ∧
        schemas_gt a b = .ok (decide (b.magnitude * f2 < a.magnitude * f1)) ∧
        schemas_ge a b = .ok (decide (b.magnitude * f2 ≤ a.magnitude * f1))) ∧
    schemas_eq ⟨1/100, "m"⟩ ⟨10, "mm"⟩ = .ok true ∧
    schemas_add ⟨0, "kg"⟩ ⟨0, "m"⟩ = .error .unitsError := by
  refine ⟨?_, ?_, ?_, ?_⟩
  · intro a b d1 d2 f1 f2 h1 h2 hne
    exact schemas_incompat_ops a b d1 d2 f1 f2 h1 h2 hne
  · intro a b d f1 f2 h1 h2
    obtain ⟨he, hlt, hle, hgt, hge⟩ := schemas_cmp_compatible a b d f1 f2 h1 h2
    exact ⟨schemas_add_compatible a b d f1 f2 h1 h2,
      schemas_sub_compatible a b d f1 f2 h1 h2, he, hlt, hle, hgt, hge⟩
  · simp [schemas_eq, pintCheck, pintEq, unitTable, unitRegistry, List.find?]
    norm_num
  · simp [schemas_add, pintAdd, pintConvert, unitTable, unitRegistry, List.find?]

/-- C8 witness: the incompatible clause applied to 0 kg and 0 m, and the
compatible clause applied to 0.01 m and 10 mm. -/
theorem vwu_incompatible_ops_raise_unitsError_witness :
    schemas_add ⟨0, "kg"⟩ ⟨0, "m"⟩ = .error .unitsError ∧
    schemas_add ⟨1/100, "m"⟩ ⟨10, "mm"⟩ =
      .ok ⟨(1/100 : Rat) + 10 * (1/1000) / 1, "m"⟩ := by
  refine ⟨?_, ?_⟩
  · exact (vwu_incompatible_ops_raise_unitsError.1 ⟨0, "kg"⟩ ⟨0, "m"⟩
      ⟨0, 1, 0⟩ ⟨1, 0, 0⟩ 1 1
      (by simp [unitTable, unitRegistry, List.find?])
      (by simp [unitTable, unitRegistry, List.find?])
      (by decide)).1
  · exact (vwu_incompatible_ops_raise_unitsError.2.1 ⟨1/100, "m"⟩ ⟨10, "mm"⟩
      ⟨1, 0, 0⟩ 1 (1/1000)
      (by simp [unitTable, unitRegistry, List.find?])
      (by simp [unitTable, unitRegistry, List.find?])).1

/-- C10 counterexample: at magnitude 0 of kg versus m, equality returns
False in the api implementation but raises UnitsError in the schemas
implementation, so the two implementations are not extensionally equal. -/
theorem vwu_core_schemas_eq_divergence :
    core_eq ⟨0, "kg"⟩ ⟨0, "m"⟩ = .ok false ∧
    schemas_eq ⟨0, "kg"⟩ ⟨0, "m"⟩ = .error .unitsError ∧
    ¬ sameOutcome (core_eq ⟨0, "kg"⟩ ⟨0, "m"⟩) (schemas_eq ⟨0, "kg"⟩ ⟨0, "m"⟩) := by
  have hc : core_eq ⟨0, "kg"⟩ ⟨0, "m"⟩ = .ok false := by
    simp [core_eq, pintEq, unitTable, unitRegistry, List.find?]
  have hs : schemas_eq ⟨0, "kg"⟩ ⟨0, "m"⟩ = .error .unitsError := by
    simp [schemas_eq, pintCheck, unitTable, unitRegistry, List.find?]
  refine ⟨hc, hs, ?_⟩
  rw [hc, hs]
  rintro (⟨v, hv, hv2⟩ | ⟨e, he, he2⟩)
  · cases hv2
  · cases he

/-- C10 amended: the two ValueWithUnits implementations agree on every
operation whenever units are dimensionally compatible (and on to, scalar
multiplication, and negation unconditionally); on incompatible units the
api implementation propagates pint DimensionalityError from arithmetic and
ordering and returns False from equality, while the schemas implementation
raises UnitsError from all seven operations. -/
theorem vwu_core_schemas_agree_on_compatible :
    (∀ (a : ValueWithUnits) (u : String), core_to a u = schemas_to a u) ∧
    (∀ (a : ValueWithUnits) (r : Rat), core_mul a r = schemas_mul a r) ∧
    (∀ a : ValueWithUnits, core_neg a = schemas_neg a) ∧
    (∀ (a b : ValueWithUnits) (d : Dimension) (f1 f2 : Rat),
      unitTable a.units = some (d, f1) → unitTable b.units = some (d, f2) →
        core_add a b = schemas_add a b ∧
        core_sub a b = schemas_sub a b ∧
        core_eq a b = schemas_eq a b ∧
        core_lt a b = schemas_lt a b ∧
        core_le a b = schemas_le a b ∧
        core_gt a b = schemas_gt a b ∧
        core_ge a b = schemas_ge a b) ∧
    (∀ (a b : ValueWithUnits) (d1 d2 : Dimension) (f1 f2 : Rat),
      unitTable a.units = some (d1, f1) → unitTable b.units = some (d2, f2) → d1 ≠ d2 →
        core_add a b = .error .dimensionality ∧
        core_sub a b = .error .dimensionality ∧
        core_eq a b = .ok false ∧
        core_lt a b = .error .dimensionality ∧
        core_le a b = .error .dimensionality ∧
        core_gt a b = .error .dimensionality ∧
        core_ge a b = .error .dimensionality ∧
        schemas_add a b = .error .unitsError ∧
        schemas_eq a b = .error .unitsError) := by
  refine ⟨fun a u => rfl, fun a r => rfl, fun a => rfl, ?_, ?_⟩
  · intro a b d f1 f2 h1 h2
    exact core_schemas_agree_compatible a b d f1 f2 h1 h2
  · intro a b d1 d2 f1 f2 h1 h2 hne
    obtain ⟨ca, cs, ce, cl, cle, cg, cge⟩ := core_incompat_ops a b d1 d2 f1 f2 h1 h2 hne
    obtain ⟨sa, _, se, _, _, _, _⟩ := schemas_incompat_ops a b d1 d2 f1 f2 h1 h2 hne
    exact ⟨ca, cs, ce, cl, cle, cg, cge, sa, se⟩

/-- C10 amended witness: agreement at 5 mm versus 0.01 m, and divergence at
0 kg versus 0 m. -/
theorem vwu_core_schemas_agree_on_compatible_witness :
    core_add ⟨5, "mm"⟩ ⟨1/100, "m"⟩ = schemas_add ⟨5, "mm"⟩ ⟨1/100, "m"⟩ ∧
    core_eq ⟨0, "kg"⟩ ⟨0, "m"⟩ = .ok false := by
  refine ⟨?_, ?_⟩
  · exact (vwu_core_schemas_agree_on_compatible.2.2.2.1 ⟨5, "mm"⟩ ⟨1/100, "m"⟩
      ⟨1, 0, 0⟩ (1/1000) 1
      (by simp [unitTable, unitRegistry, List.find?])
      (by simp [unitTable, unitRegistry, List.find?])).1
  · exact (vwu_core_schemas_agree_on_compatible.2.2.2.2 ⟨0, "kg"⟩ ⟨0, "m"⟩
      ⟨0, 1, 0⟩ ⟨1, 0, 0⟩ 1 1
      (by simp [unitTable, unitRegistry, List.find?])
      (by simp [unitTable, unitRegistry, List.find?])
      (by decide)).2.2.1

/-
Script builder (tcode_api/script.py, class TCodeScriptBuilder) together with
the Location model it constructs (tcode_api/api.py).  The builder mirrors
fleet registries locally: robots (each carrying its tools), labware, and
pipette tip groups.  Only the id fields (and, for robots, the tool list)
are consulted by the registration and lookup logic, so the entity records
carry exactly those fields.  Registration methods are modelled as state
transformers returning the possibly-unchanged ast together with an optional
raised error, mirroring the mutation points of the Python methods.
-/

/-- Tool record as consulted by the builder (id only). -/
structure Tool where
  id : String
  deriving DecidableEq, Repr

/-- Robot record as consulted by the builder: id plus its tool registry. -/
structure Robot where
  id : String
  tools : List Tool
  deriving DecidableEq, Repr

/-- Labware record as consulted by the builder (id only). -/
structure Labware where
  id : String
  deriving DecidableEq, Repr

/-- Pipette tip group record as constructed by the builder. -/
structure PipetteTipGroup where
  id : String
  row_count : Int
  column_count : Int
  deriving DecidableEq, Repr

/-- The fleet registries held in the builder ast. -/
structure Fleet where
  robots : List Robot
  labware : List Labware
  deriving DecidableEq, Repr

/-- The builder state: ast.fleet plus the ast.pipette_tips registry that the
builder reads and appends (metadata and the emitted command list are not
consulted by the registration logic). -/
structure BuilderAst where
  fleet : Fleet
  pipette_tips : List PipetteTipGroup
  deriving DecidableEq, Repr

/-- Errors raised by the builder: IdNotFoundError and IdExistsError from
tcode_api/error.py, the AssertionError of _find_model_by_id on a duplicated
registry, the NotImplementedError of add_robot, and the pydantic
ValidationError of a model constructor call missing a required field. -/
inductive BuilderError where
  | idNotFound (id : String) : BuilderError
  | idExists (id : String) : BuilderError
  | assertionError : BuilderError
  | notImplementedError : BuilderError
  | validationError : BuilderError
  deriving DecidableEq, Repr

/-- TCodeScriptBuilder._find_model_by_id: exactly one match returns it, zero
matches raise IdNotFoundError, several matches raise AssertionError. -/
def _find_model_by_id {α : Type} (model_id : String) (model_list : List α)
    (getId : α → String) : Except BuilderError α :=
  match model_list.filter (fun m => getId m = model_id) with
  | [m] => .ok m
  | [] => .error (.idNotFound model_id)
  | _ => .error .assertionError

/-- TCodeScriptBuilder._find_labware_by_id. -/
def _find_labware_by_id (ast : BuilderAst) (labware_id : String) : Except BuilderError Labware :=
  _find_model_by_id labware_id ast.fleet.labware (fun l => l.id)

/-- TCodeScriptBuilder._find_robot_by_id. -/
def _find_robot_by_id (ast : BuilderAst) (robot_id : String) : Except BuilderError Robot :=
  _find_model_by_id robot_id ast.fleet.robots (fun r => r.id)

/-- TCodeScriptBuilder._find_tool_by_id: searches the tools of every robot. -/
def _find_tool_by_id (ast : BuilderAst) (tool_id : String) : Except BuilderError Tool :=
  _find_model_by_id tool_id (ast.fleet.robots.map (fun r => r.tools)).flatten (fun t => t.id)

/-- TCodeScriptBuilder._find_pipette_tip_group_by_id. -/
def _find_pipette_tip_group_by_id (ast : BuilderAst) (gid : String) :
    Except BuilderError PipetteTipGroup :=
  _find_model_by_id gid ast.pipette_tips (fun g => g.id)

/-- TCodeScriptBuilder.add_labware: a resolvable id raises IdExistsError
before any mutation; only the IdNotFoundError branch appends. -/
def add_labware (ast : BuilderAst) (labware : Labware) : BuilderAst × Option BuilderError :=
  match _find_labware_by_id ast labware.id with
  | .ok _ => (ast, some (.idExists labware.id))
  | .error (.idNotFound _) =>
    ({ ast with fleet := { ast.fleet with labware := ast.fleet.labware ++ [labware] } }, none)
  | .error e => (ast, some e)

/-- TCodeScriptBuilder.add_robot: rejects robots that already carry tools,
then the same duplicate-id discipline as add_labware. -/
def add_robot (ast : BuilderAst) (robot : Robot) : BuilderAst × Option BuilderError :=
  if robot.tools.length > 0 then (ast, some .notImplementedError)
  else
    match _find_robot_by_id ast robot.id with
    | .ok _ => (ast, some (.idExists robot.id))
    | .error (.idNotFound _) =>
      ({ ast with fleet := { ast.fleet with robots := ast.fleet.robots ++ [robot] } }, none)
    | .error e => (ast, some e)

/-- TCodeScriptBuilder.add_tool: duplicate tool ids raise IdExistsError; in
the IdNotFoundError branch the owning robot is resolved (IdNotFoundError
propagating when absent) and the tool is appended to that robot.  The Python
code appends to the single object returned by the robot lookup; the map
below updates exactly that robot, because a multiply-registered robot id
already raises AssertionError inside the lookup. -/
def add_tool (ast : BuilderAst) (robot_id : String) (tool : Tool) :
    BuilderAst × Option BuilderError :=
  match _find_tool_by_id ast tool.id with
  | .ok _ => (ast, some (.idExists tool.id))
  | .error (.idNotFound _) =>
    match _find_robot_by_id ast robot_id with
    | .ok _ =>
      let robots2 := ast.fleet.robots.map (fun r =>
        if r.id = robot_id then { r with tools := r.tools ++ [tool] } else r)
      ({ ast with fleet := { ast.fleet with robots := robots2 } }, none)
    | .error e => (ast, some e)
  | .error e => (ast, some e)

/-- TCodeScriptBuilder.add_pipette_tip_group. -/
def add_pipette_tip_group (ast : BuilderAst) (group : PipetteTipGroup) :
    BuilderAst × Option BuilderError :=
  match _find_pipette_tip_group_by_id ast group.id with
  | .ok _ => (ast, some (.idExists group.id))
  | .error (.idNotFound _) => ({ ast with pipette_tips := ast.pipette_tips ++ [group] }, none)
  | .error e => (ast, some e)

/-- A uniquely registered id makes _find_model_by_id succeed. -/
theorem find_model_ok_of_count_one {α : Type} (id : String) (xs : List α) (getId : α → String)
    (h : (xs.filter (fun m => getId m = id)).length = 1) :
    ∃ m, _find_model_by_id id xs getId = .ok m := by
  obtain ⟨m, hm⟩ := List.length_eq_one.mp h
  exact ⟨m, by simp [_find_model_by_id, hm]⟩

/-- C4: for each entity kind, a registration call whose id is already
registered (and, for robots, whose argument is otherwise acceptable) raises
IdExistsError and leaves every builder registry unchanged; the call never
succeeds silently. -/
theorem builder_duplicate_id_raises_idExists (ast : BuilderAst)
    (l : Labware) (r : Robot) (t : Tool) (g : PipetteTipGroup) (robot_id : String)
    (hl : (ast.fleet.labware.filter (fun x => x.id = l.id)).length = 1)
    (hr : (ast.fleet.robots.filter (fun x => x.id = r.id)).length = 1)
    (hrt : r.tools = [])
    (ht : (((ast.fleet.robots.map (fun x => x.tools)).flatten.filter
      (fun x => x.id = t.id)).length = 1))
    (hg : (ast.pipette_tips.filter (fun x => x.id = g.id)).length = 1) :
    add_labware ast l = (ast, some (.idExists l.id)) ∧
    add_robot ast r = (ast, some (.idExists r.id)) ∧
    add_tool ast robot_id t = (ast, some (.idExists t.id)) ∧
    add_pipette_tip_group ast g = (ast, some (.idExists g.id)) := by
  obtain ⟨ml, hml⟩ := find_model_ok_of_count_one l.id ast.fleet.labware (fun x => x.id) hl
  obtain ⟨mr, hmr⟩ := find_model_ok_of_count_one r.id ast.fleet.robots (fun x => x.id) hr
  obtain ⟨mt, hmt⟩ := find_model_ok_of_count_one t.id
    (ast.fleet.robots.map (fun x => x.tools)).flatten (fun x => x.id) ht
  obtain ⟨mg, hmg⟩ := find_model_ok_of_count_one g.id ast.pipette_tips (fun x => x.id) hg
  refine ⟨?_, ?_, ?_, ?_⟩
  · simp [add_labware, _find_labware_by_id, hml]
  · simp [add_robot, hrt, _find_robot_by_id, hmr]
  · simp [add_tool, _find_tool_by_id, hmt]
  · simp [add_pipette_tip_group, _find_pipette_tip_group_by_id, hmg]

/-- C4 witness: duplicate registrations against a builder holding robot R0
with tool T0, labware L0, and tip group G0. -/
theorem builder_duplicate_id_raises_idExists_witness :
    add_labware ⟨⟨[⟨"R0", [⟨"T0"⟩]⟩], [⟨"L0"⟩]⟩, [⟨"G0", 1, 1⟩]⟩ ⟨"L0"⟩ =
      (⟨⟨[⟨"R0", [⟨"T0"⟩]⟩], [⟨"L0"⟩]⟩, [⟨"G0", 1, 1⟩]⟩, some (.idExists "L0")) ∧
    add_robot ⟨⟨[⟨"R0", [⟨"T0"⟩]⟩], [⟨"L0"⟩]⟩, [⟨"G0", 1, 1⟩]⟩ ⟨"R0", []⟩ =
      (⟨⟨[⟨"R0", [⟨"T0"⟩]⟩], [⟨"L0"⟩]⟩, [⟨"G0", 1, 1⟩]⟩, some (.idExists "R0")) ∧
    add_tool ⟨⟨[⟨"R0", [⟨"T0"⟩]⟩], [⟨"L0"⟩]⟩, [⟨"G0", 1, 1⟩]⟩ "R0" ⟨"T0"⟩ =
      (⟨⟨[⟨"R0", [⟨"T0"⟩]⟩], [⟨"L0"⟩]⟩, [⟨"G0", 1, 1⟩]⟩, some (.idExists "T0")) ∧
    add_pipette_tip_group ⟨⟨[⟨"R0", [⟨"T0"⟩]⟩], [⟨"L0"⟩]⟩, [⟨"G0", 1, 1⟩]⟩ ⟨"G0", 2, 2⟩ =
      (⟨⟨[⟨"R0", [⟨"T0"⟩]⟩], [⟨"L0"⟩]⟩, [⟨"G0", 1, 1⟩]⟩, some (.idExists "G0")) :=
  builder_duplicate_id_raises_idExists ⟨⟨[⟨"R0", [⟨"T0"⟩]⟩], [⟨"L0"⟩]⟩, [⟨"G0", 1, 1⟩]⟩
    ⟨"L0"⟩ ⟨"R0", []⟩ ⟨"T0"⟩ ⟨"G0", 2, 2⟩ "R0"
    (by simp [List.filter]) (by simp [List.filter]) rfl
    (by simp [List.filter]) (by simp [List.filter])

/-- The api.py Location variant constructed by the builder: labware_id,
location_index, and well_part are all required fields (well_part carries no
default in the model at tcode_api/api.py lines 82-88). -/
structure LocationAsLabwareIndex where
  labware_id : String
  location_index : Int
  well_part : String
  deriving DecidableEq, Repr

/-- The pydantic constructor call for LocationAsLabwareIndex: omitting any
required keyword raises ValidationError before an instance exists. -/
def mkLocationAsLabwareIndex (labware_id : Option String) (location_index : Option Int)
    (well_part : Option String) : Except BuilderError LocationAsLabwareIndex :=
  match labware_id, location_index, well_part with
  | some lid, some idx, some wp => .ok ⟨lid, idx, wp⟩
  | _, _, _ => .error .validationError

/-- TCodeScriptBuilder._location_as_labware_index (script.py lines 106-111):
resolves the labware id first, then calls the constructor passing only
labware_id and location_index - the required well_part argument is not
passed. -/
def _location_as_labware_index (ast : BuilderAst) (labware_id : String) (index : Int) :
    Except BuilderError LocationAsLabwareIndex :=
  match _find_labware_by_id ast labware_id with
  | .ok _ => mkLocationAsLabwareIndex (some labware_id) (some index) none
  | .error e => .error e

/-- C5: an unregistered labware id always raises IdNotFoundError (no index
check precedes it), but for a registered id the construction does not
succeed either: the builder omits the required well_part field of the
api.py LocationAsLabwareIndex model, so pydantic raises ValidationError for
every registered id and every index - the registered-id half of the claim
fails on this code. -/
theorem builder_labware_index_location_behaviour :
    (∀ (ast : BuilderAst) (labware_id : String) (index : Int),
      ast.fleet.labware.filter (fun x => x.id = labware_id) = [] →
      _location_as_labware_index ast labware_id index = .error (.idNotFound labware_id)) ∧
    (∀ (ast : BuilderAst) (labware_id : String) (index : Int) (m : Labware),
      ast.fleet.labware.filter (fun x => x.id = labware_id) = [m] →
      _location_as_labware_index ast labware_id index = .error .validationError) ∧
    _location_as_labware_index ⟨⟨[], [⟨"L0"⟩]⟩, []⟩ "L0" 0 = .error .validationError ∧
    _location_as_labware_index ⟨⟨[], [⟨"L0"⟩]⟩, []⟩ "L1" 7 = .error (.idNotFound "L1") := by
  refine ⟨?_, ?_, ?_, ?_⟩
  · intro ast lid index h
    simp [_location_as_labware_index, _find_labware_by_id, _find_model_by_id, h]
  · intro ast lid index m h
    simp [_location_as_labware_index, _find_labware_by_id, _find_model_by_id, h,
      mkLocationAsLabwareIndex]
  · simp [_location_as_labware_index, _find_labware_by_id, _find_model_by_id,
      mkLocationAsLabwareIndex, List.filter]
  · simp [_location_as_labware_index, _find_labware_by_id, _find_model_by_id,
      mkLocationAsLabwareIndex, List.filter]

/-- C5 witness: the two quantified clauses applied to a concrete builder
holding only labware L0. -/
theorem builder_labware_index_location_behaviour_witness :
    _location_as_labware_index ⟨⟨[], [⟨"L0"⟩]⟩, []⟩ "L2" 3 = .error (.idNotFound "L2") ∧
    _location_as_labware_index ⟨⟨[], [⟨"L0"⟩]⟩, []⟩ "L0" 3 = .error .validationError := by
  refine ⟨?_, ?_⟩
  · exact builder_labware_index_location_behaviour.1 ⟨⟨[], [⟨"L0"⟩]⟩, []⟩ "L2" 3
      (by simp [List.filter])
  · exact builder_labware_index_location_behaviour.2.1 ⟨⟨[], [⟨"L0"⟩]⟩, []⟩ "L0" 3 ⟨"L0"⟩
      (by simp [List.filter])

/-
Servicer client (tcode_api/servicer/client.py).  The HTTP surface is
abstracted as a mock servicer: execute_run_loop polls a status stream
indexed by poll number, and run_script receives the Result of the n-th
scheduled command from a result stream indexed by command number.  Every
method invocation on the servicer is recorded in an explicit call trace.
-/

/-- Result object of servicer responses (servicer_api.py): the client logic
consults success and message (details only feeds debug logging). -/
structure Result where
  success : Bool
  code : String
  message : Option String
  deriving DecidableEq, Repr

/-- GetStatusResponse (servicer_api.py). -/
structure GetStatusResponse where
  command_id : Option String
  operation_count : Int
  run_state : Bool
  result : Result
  deriving DecidableEq, Repr

/-- One servicer invocation issued by the client, identified by endpoint;
scheduled commands are identified by their position in the script. -/
inductive ServicerCall where
  | setRunState (state : Bool) : ServicerCall
  | getStatus : ServicerCall
  | clearSchedule : ServicerCall
  | clearLabware : ServicerCall
  | clearTcodeResolution : ServicerCall
  | clearTfTreeHistory : ServicerCall
  | discoverFleet : ServicerCall
  | scheduleCommand (index : Nat) : ServicerCall
  | scheduleCommands (indices : List Nat) : ServicerCall
  | executeRunLoopEntered : ServicerCall
  deriving DecidableEq, Repr

/-- How a run loop invocation ended. -/
inductive RunOutcome where
  | drained : RunOutcome
  | failed (msg : String) : RunOutcome
  | cancelled : RunOutcome
  deriving DecidableEq, Repr

/-- A completed run loop: number of get_status polls issued, outcome, and
the full servicer call trace. -/
structure RunLoopResult where
  polls : Nat
  outcome : RunOutcome
  calls : List ServicerCall
  deriving DecidableEq, Repr

/-- The fatal message logged by execute_run_loop on a failed Result. -/
def failMessage (status : GetStatusResponse) : String :=
  "tcode service hit Runtime error on command(id=" ++
    (match status.command_id with | some c => c | none => "None") ++ "): " ++
    (match status.result.message with | some m => m | none => "None") ++
    " (see debug logs for stacktrace)"

/-- Decision of one execution of the loop body. -/
inductive LoopStep where
  | exitDrained : LoopStep
  | exitFailed (msg : String) : LoopStep
  | continueLoop : LoopStep
  deriving DecidableEq, Repr

/-- The loop body of execute_run_loop (client.py lines 214-230) for one
polled status: the operation_count == 0 check runs first, the
result.success check second. -/
def loopStep (status : GetStatusResponse) : LoopStep :=
  if status.operation_count = 0 then .exitDrained
  else if status.result.success = false then .exitFailed (failMessage status)
  else .continueLoop

/-- The while-loop of execute_run_loop run for at most the given number of
polls. statuses gives the mock servicer status for each poll index;
interrupt optionally names the poll during whose sleep a KeyboardInterrupt
arrives (inside the try, so the except clause handles it).  none means the
loop is still running after the allotted polls. -/
def runLoopGo (statuses : Nat → GetStatusResponse) (interrupt : Option Nat)
    (i : Nat) (acc : List ServicerCall) : Nat → Option RunLoopResult
  | 0 => none
  | fuel + 1 =>
    if interrupt = some i then
      some ⟨i, .cancelled, acc ++ [.setRunState false, .clearTcodeResolution, .clearLabware]⟩
    else
      match loopStep (statuses i) with
      | .exitDrained => some ⟨i + 1, .drained, acc ++ [.getStatus, .setRunState false]⟩
      | .exitFailed msg => some ⟨i + 1, .failed msg, acc ++ [.getStatus, .setRunState false]⟩
      | .continueLoop => runLoopGo statuses interrupt (i + 1) (acc ++ [.getStatus]) fuel

/-- execute_run_loop (client.py lines 206-236): set_run_state(True), then
the polling loop. -/
def execute_run_loop (statuses : Nat → GetStatusResponse) (interrupt : Option Nat)
    (maxPolls : Nat) : Option RunLoopResult :=
  runLoopGo statuses interrupt 0 [.setRunState true] maxPolls

/-- The RuntimeError message raised by run_script when serial scheduling
receives a failed Result. -/
def serialFailMessage (res : Result) : String :=
  "tcode service schedule_command unsuccessful: " ++
    (match res.message with | some m => m | none => "None") ++
    " (see debug logs for stacktrace)"

/-- The RuntimeError message raised by run_script when a batched response
contains a failed Result. -/
def batchFailMessage (res : Result) : String :=
  "tcode service schedule_commands unsuccessful: " ++
    (match res.message with | some m => m | none => "None") ++
    " (see debug logs for stacktrace)"

/-- The batch size hardcoded in run_script. -/
def batchSize : Nat := 100

/-- itertools.batched at the hardcoded batch size. -/
def batched {α : Type} (l : List α) : List (List α) :=
  match l with
  | [] => []
  | x :: xs => ((x :: xs).take batchSize) :: batched ((x :: xs).drop batchSize)
  termination_by l.length
  decreasing_by simp [batchSize]; omega

/-- Serial scheduling loop of run_script: one schedule_command call per
command; a failed Result raises immediately, scheduling nothing further. -/
def scheduleSerial {α : Type} (results : Nat → Result) :
    List α → Nat → List ServicerCall → List ServicerCall × Option String
  | [], _, acc => (acc, none)
  | _ :: rest, i, acc =>
    let acc2 := acc ++ [.scheduleCommand i]
    if (results i).success then scheduleSerial results rest (i + 1) acc2
    else (acc2, some (serialFailMessage (results i)))

/-- The scan over a batch response list: the first failed Result raises. -/
def firstFailure (results : Nat → Result) : Nat → Nat → Option String
  | _, 0 => none
  | offset, len + 1 =>
    if (results offset).success then firstFailure results (offset + 1) len
    else some (batchFailMessage (results offset))

/-- Batched scheduling loop of run_script: one schedule_commands call per
batch; the first failed Result in a response list raises, scheduling no
further batch. -/
def scheduleBatches {α : Type} (results : Nat → Result) :
    List (List α) → Nat → List ServicerCall → List ServicerCall × Option String
  | [], _, acc => (acc, none)
  | b :: rest, offset, acc =>
    let acc2 := acc ++ [.scheduleCommands ((List.range b.length).map (offset + ·))]
    match firstFailure results offset b.length with
    | some msg => (acc2, some msg)
    | none => scheduleBatches results rest (offset + b.length) acc2

/-- The calls issued by run_script(clean_environment=...) before scheduling. -/
def cleanPrefix (clean_environment : Bool) : List ServicerCall :=
  if clean_environment then
    [.clearSchedule, .clearLabware, .clearTcodeResolution, .clearTfTreeHistory, .discoverFleet]
  else []

/-- run_script (client.py lines 238-287): optional environment cleaning,
then serial or batched scheduling of the script commands; a failed Result
raises RuntimeError (second component some message), otherwise
execute_run_loop is entered, recorded as a trace marker. -/
def run_script {α : Type} (commands : List α) (results : Nat → Result)
    (clean_environment batch_process : Bool) : List ServicerCall × Option String :=
  let sched :=
    if batch_process = false then
      scheduleSerial results commands 0 (cleanPrefix clean_environment)
    else
      scheduleBatches results (batched commands) 0 (cleanPrefix clean_environment)
  match sched.2 with
  | some msg => (sched.1, some msg)
  | none => (sched.1 ++ [.executeRunLoopEntered], none)

/-- The expected trace entries of the batches scheduled from the given
chunks starting at the given command offset. -/
def batchCallTrace {α : Type} : List (List α) → Nat → List ServicerCall
  | [], _ => []
  | b :: rest, offset =>
    .scheduleCommands ((List.range b.length).map (offset + ·)) ::
      batchCallTrace rest (offset + b.length)

/-- The last element of a list extended by one element. -/
theorem getLast?_append_singleton {α : Type} (l : List α) (a : α) :
    (l ++ [a]).getLast? = some a := by
  rw [List.getLast?_append_cons]
  rfl

/-- A continuing poll advances the loop to the next poll index. -/
theorem runLoopGo_step (statuses : Nat → GetStatusResponse) (interrupt : Option Nat)
    (i : Nat) (acc : List ServicerCall) (fuel : Nat)
    (hni : ¬ interrupt = some i) (hs : loopStep (statuses i) = .continueLoop) :
    runLoopGo statuses interrupt i acc (fuel + 1) =
      runLoopGo statuses interrupt (i + 1) (acc ++ [.getStatus]) fuel := by
  simp [runLoopGo, hni, hs]

/-- If the status polled n steps ahead is drained, the uninterrupted loop
returns within n more polls, ending its trace with set_run_state(false). -/
theorem runLoopGo_exits_within (statuses : Nat → GetStatusResponse) :
    ∀ (n i : Nat) (acc : List ServicerCall),
    (statuses (i + n)).operation_count = 0 →
    ∃ r, runLoopGo statuses none i acc (n + 1) = some r ∧ r.polls ≤ i + n + 1 ∧
      r.calls.getLast? = some (.setRunState false) ∧
      (r.outcome = .drained ∨ ∃ msg, r.outcome = .failed msg) := by
  intro n
  induction n with
  | zero =>
    intro i acc h
    rw [Nat.add_zero] at h
    refine ⟨⟨i + 1, .drained, acc ++ [.getStatus, .setRunState false]⟩, ?_, ?_, ?_, ?_⟩
    · simp [runLoopGo, loopStep, h]
    · show i + 1 ≤ i + 0 + 1
      omega
    · have hsplit : acc ++ [ServicerCall.getStatus, ServicerCall.setRunState false] =
        (acc ++ [ServicerCall.getStatus]) ++ [ServicerCall.setRunState false] := by simp
      rw [hsplit, getLast?_append_singleton]
    · exact Or.inl rfl
  | succ n ih =>
    intro i acc h
    cases hs : loopStep (statuses i) with
    | exitDrained =>
      refine ⟨⟨i + 1, .drained, acc ++ [.getStatus, .setRunState false]⟩, ?_, ?_, ?_, ?_⟩
      · simp [runLoopGo, hs]
      · show i + 1 ≤ i + (n + 1) + 1
        omega
      · have hsplit : acc ++ [ServicerCall.getStatus, ServicerCall.setRunState false] =
          (acc ++ [ServicerCall.getStatus]) ++ [ServicerCall.setRunState false] := by simp
        rw [hsplit, getLast?_append_singleton]
      · exact Or.inl rfl
    | exitFailed msg =>
      refine ⟨⟨i + 1, .failed msg, acc ++ [.getStatus, .setRunState false]⟩, ?_, ?_, ?_, ?_⟩
      · simp [runLoopGo, hs]
      · show i + 1 ≤ i + (n + 1) + 1
        omega
      · have hsplit : acc ++ [ServicerCall.getStatus, ServicerCall.setRunState false] =
          (acc ++ [ServicerCall.getStatus]) ++ [ServicerCall.setRunState false] := by simp
        rw [hsplit, getLast?_append_singleton]
      · exact Or.inr ⟨msg, rfl⟩
    | continueLoop =>
      have h2 : (statuses (i + 1 + n)).operation_count = 0 := by
        rw [show i + 1 + n = i + (n + 1) by omega]
        exact h
      obtain ⟨r, hr, hp, hl, ho⟩ := ih (i + 1) (acc ++ [.getStatus]) h2
      refine ⟨r, ?_, by omega, hl, ho⟩
      rw [runLoopGo_step statuses none i acc (n + 1) (by simp) hs]
      exact hr

/-- A cancellation arriving at poll index i+n, with every earlier poll
continuing, ends the loop with the pause and the two clearing calls. -/
theorem runLoopGo_cancelled (statuses : Nat → GetStatusResponse) :
    ∀ (n i : Nat) (acc : List ServicerCall),
    (∀ m, m < n → loopStep (statuses (i + m)) = .continueLoop) →
    runLoopGo statuses (some (i + n)) i acc (n + 1) =
      some ⟨i + n, .cancelled,
        acc ++ List.replicate n .getStatus ++
          [.setRunState false, .clearTcodeResolution, .clearLabware]⟩ := by
  intro n
  induction n with
  | zero =>
    intro i acc h
    simp [runLoopGo]
  | succ n ih =>
    intro i acc h
    have hne : ¬ (some (i + (n + 1)) : Option Nat) = some i := by
      intro hc
      rw [Option.some.injEq] at hc
      omega
    have h0 : loopStep (statuses i) = .continueLoop := by
      have := h 0 (by omega)
      simpa using this
    have ihr := ih (i + 1) (acc ++ [.getStatus]) (fun m hm => by
      have hmm := h (m + 1) (by omega)
      rw [show i + (m + 1) = i + 1 + m by omega] at hmm
      exact hmm)
    rw [runLoopGo_step statuses (some (i + (n + 1))) i acc (n + 1) hne h0]
    rw [show i + (n + 1) = i + 1 + n by omega]
    rw [ihr]
    rw [show i + 1 + n = i + (n + 1) by omega]
    simp [List.replicate_succ, List.append_assoc]

/-- C1: if the status polled at index k is drained, the uninterrupted run
loop returns within k+1 polls with set_run_state(false) as its final call;
if the first poll reports a failed Result on a nonzero operation_count, it
returns after exactly one poll having issued only the initial resume, the
poll, and the pause, with no clearing or scheduling call; a cancellation at
poll j (all earlier polls continuing) returns after issuing the pause,
clear_tcode_resolution, and clear_labware. -/
theorem execute_run_loop_terminates :
    (∀ (statuses : Nat → GetStatusResponse) (k : Nat),
      (statuses k).operation_count = 0 →
      ∃ r, execute_run_loop statuses none (k + 1) = some r ∧ r.polls ≤ k + 1 ∧
        r.calls.getLast? = some (.setRunState false)) ∧
    (∀ statuses : Nat → GetStatusResponse,
      (statuses 0).operation_count ≠ 0 → (statuses 0).result.success = false →
      execute_run_loop statuses none 1 =
        some ⟨1, .failed (failMessage (statuses 0)),
          [.setRunState true, .getStatus, .setRunState false]⟩) ∧
    (∀ (statuses : Nat → GetStatusResponse) (j : Nat),
      (∀ m, m < j → loopStep (statuses m) = .continueLoop) →
      execute_run_loop statuses (some j) (j + 1) =
        some ⟨j, .cancelled,
          [.setRunState true] ++ List.replicate j .getStatus ++
            [.setRunState false, .clearTcodeResolution, .clearLabware]⟩) := by
  refine ⟨?_, ?_, ?_⟩
  · intro statuses k h
    obtain ⟨r, hr, hp, hl, _⟩ := runLoopGo_exits_within statuses k 0 [.setRunState true]
      (by simpa using h)
    exact ⟨r, hr, by omega, hl⟩
  · intro statuses h1 h2
    simp [execute_run_loop, runLoopGo, loopStep, h1, h2]
  · intro statuses j h
    have := runLoopGo_cancelled statuses j 0 [.setRunState true] (by simpa using h)
    simpa using this

/-- C1 witness: a mock servicer drained at the third poll, one failing at
the first poll, and one cancelled at the second poll. -/
theorem execute_run_loop_terminates_witness :
    (∃ r, execute_run_loop
        (fun i => if i < 2 then ⟨some "c", 3, true, ⟨true, "success", none⟩⟩
          else ⟨none, 0, true, ⟨true, "success", none⟩⟩) none 3 = some r ∧
        r.polls ≤ 3 ∧ r.calls.getLast? = some (.setRunState false)) ∧
    execute_run_loop (fun _ => ⟨some "c", 5, true, ⟨false, "internal_error", some "boom"⟩⟩)
        none 1 =
      some ⟨1, .failed (failMessage ⟨some "c", 5, true, ⟨false, "internal_error", some "boom"⟩⟩),
        [.setRunState true, .getStatus, .setRunState false]⟩ ∧
    execute_run_loop (fun _ => ⟨some "c", 3, true, ⟨true, "success", none⟩⟩) (some 1) 2 =
      some ⟨1, .cancelled,
        [.setRunState true] ++ List.replicate 1 .getStatus ++
          [.setRunState false, .clearTcodeResolution, .clearLabware]⟩ := by
  refine ⟨?_, ?_, ?_⟩
  · exact execute_run_loop_terminates.1
      (fun i => if i < 2 then ⟨some "c", 3, true, ⟨true, "success", none⟩⟩
        else ⟨none, 0, true, ⟨true, "success", none⟩⟩) 2 (by simp)
  · exact execute_run_loop_terminates.2.1
      (fun _ => ⟨some "c", 5, true, ⟨false, "internal_error", some "boom"⟩⟩)
      (by simp) rfl
  · exact execute_run_loop_terminates.2.2
      (fun _ => ⟨some "c", 3, true, ⟨true, "success", none⟩⟩) 1
      (fun m _ => by simp [loopStep])

/-- C9: the drained check shadows the failure check: any status with
operation_count = 0 exits by the success path even when its Result is
failed, and a failure exit is only possible from a status with nonzero
operation_count and a failed Result. -/
theorem run_loop_drained_check_shadows_failure :
    (∀ status : GetStatusResponse, status.operation_count = 0 →
      loopStep status = .exitDrained) ∧
    (∀ (status : GetStatusResponse) (msg : String), loopStep status = .exitFailed msg →
      status.operation_count ≠ 0 ∧ status.result.success = false) ∧
    (∀ statuses : Nat → GetStatusResponse, (statuses 0).operation_count = 0 →
      execute_run_loop statuses none 1 =
        some ⟨1, .drained, [.setRunState true, .getStatus, .setRunState false]⟩) := by
  refine ⟨?_, ?_, ?_⟩
  · intro st h
    simp [loopStep, h]
  · intro st msg h
    by_cases h0 : st.operation_count = 0
    · simp [loopStep, h0] at h
    · by_cases h1 : st.result.success = false
      · exact ⟨h0, h1⟩
      · simp [loopStep, h0, h1] at h
  · intro statuses h
    simp [execute_run_loop, runLoopGo, loopStep, h]

/-- C9 witness: a status that is simultaneously drained and failed exits by
the success path. -/
theorem run_loop_drained_check_shadows_failure_witness :
    execute_run_loop (fun _ => ⟨some "c", 0, true, ⟨false, "internal_error", some "boom"⟩⟩)
        none 1 =
      some ⟨1, .drained, [.setRunState true, .getStatus, .setRunState false]⟩ :=
  run_loop_drained_check_shadows_failure.2.2
    (fun _ => ⟨some "c", 0, true, ⟨false, "internal_error", some "boom"⟩⟩) rfl


/-- Serial scheduling from position i schedules exactly the commands up to
and including the first failure and raises its message. -/
theorem scheduleSerial_first_failure {α : Type} (results : Nat → Result) :
    ∀ (j : Nat) (commands : List α) (i : Nat) (acc : List ServicerCall),
    j < commands.length →
    (∀ m, m < j → (results (i + m)).success = true) →
    (results (i + j)).success = false →
    scheduleSerial results commands i acc =
      (acc ++ (List.range (j + 1)).map (fun m => .scheduleCommand (i + m)),
       some (serialFailMessage (results (i + j)))) := by
  intro j
  induction j with
  | zero =>
    intro commands i acc hlen hpre hfail
    cases commands with
    | nil => simp at hlen
    | cons c rest =>
      rw [Nat.add_zero] at hfail
      have hr1 : List.range 1 = [0] := rfl
      simp [scheduleSerial, hfail, hr1]
  | succ j ih =>
    intro commands i acc hlen hpre hfail
    cases commands with
    | nil => simp at hlen
    | cons c rest =>
      have h0 : (results i).success = true := by
        have := hpre 0 (by omega)
        simpa using this
      have hr := ih rest (i + 1) (acc ++ [.scheduleCommand i])
        (by simp at hlen; omega)
        (fun m hm => by
          have := hpre (m + 1) (by omega)
          rwa [show i + (m + 1) = i + 1 + m by omega] at this)
        (by rwa [show i + (j + 1) = i + 1 + j by omega] at hfail)
      have hmap : (List.range (j + 1 + 1)).map
            (fun m => ServicerCall.scheduleCommand (i + m)) =
          ServicerCall.scheduleCommand i ::
            (List.range (j + 1)).map (fun m => ServicerCall.scheduleCommand (i + 1 + m)) := by
        rw [List.range_succ_eq_map]
        simp only [List.map_cons, List.map_map, Nat.add_zero]
        refine congrArg₂ _ rfl ?_
        refine List.map_congr_left (fun m _ => ?_)
        simp [Function.comp]
        omega
      simp only [scheduleSerial, h0, if_true]
      rw [hr, hmap]
      rw [show i + (j + 1) = i + 1 + j by omega]
      simp [List.append_assoc]

/-- A batch response list with no failed Result raises nothing. -/
theorem firstFailure_none (results : Nat → Result) :
    ∀ (len offset : Nat),
    (∀ m, m < len → (results (offset + m)).success = true) →
    firstFailure results offset len = none := by
  intro len
  induction len with
  | zero => intro offset h; rfl
  | succ len ih =>
    intro offset h
    have h0 : (results offset).success = true := by simpa using h 0 (by omega)
    simp only [firstFailure, h0, if_true]
    exact ih (offset + 1) (fun m hm => by
      have := h (m + 1) (by omega)
      rwa [show offset + (m + 1) = offset + 1 + m by omega] at this)

/-- The scan of a batch response list raises the message of the first
failed Result. -/
theorem firstFailure_finds (results : Nat → Result) :
    ∀ (j len offset : Nat), j < len →
    (∀ m, m < j → (results (offset + m)).success = true) →
    (results (offset + j)).success = false →
    firstFailure results offset len = some (batchFailMessage (results (offset + j))) := by
  intro j
  induction j with
  | zero =>
    intro len offset hlen hpre hfail
    rw [Nat.add_zero] at hfail
    cases len with
    | zero => omega
    | succ len => simp [firstFailure, hfail]
  | succ j ih =>
    intro len offset hlen hpre hfail
    cases len with
    | zero => omega
    | succ len =>
      have h0 : (results offset).success = true := by simpa using hpre 0 (by omega)
      simp only [firstFailure, h0, if_true]
      have := ih len (offset + 1) (by omega)
        (fun m hm => by
          have := hpre (m + 1) (by omega)
          rwa [show offset + (m + 1) = offset + 1 + m by omega] at this)
        (by rwa [show offset + (j + 1) = offset + 1 + j by omega] at hfail)
      rw [this]
      rw [show offset + 1 + j = offset + (j + 1) by omega]

/-- Batched scheduling transmits exactly the batches up to and including
the one containing the first failing command, then raises its message. -/
theorem scheduleBatches_first_failure {α : Type} (results : Nat → Result) :
    ∀ (l : List α) (offset j : Nat) (acc : List ServicerCall),
    j < l.length →
    (∀ m, m < j → (results (offset + m)).success = true) →
    (results (offset + j)).success = false →
    scheduleBatches results (batched l) offset acc =
      (acc ++ batchCallTrace ((batched l).take (j / batchSize + 1)) offset,
       some (batchFailMessage (results (offset + j)))) := by
  intro l
  induction l using batched.induct with
  | case1 =>
    intro offset j acc hlen hpre hfail
    simp at hlen
  | case2 x xs ih =>
    intro offset j acc hlen hpre hfail
    have hb : batched (x :: xs) =
        ((x :: xs).take batchSize) :: batched ((x :: xs).drop batchSize) := by
      rw [batched]
    by_cases hj : j < ((x :: xs).take batchSize).length
    · have hjlt : j < batchSize := by
        have hle := List.length_take_le batchSize (x :: xs)
        omega
      have hdiv : j / batchSize = 0 := Nat.div_eq_of_lt hjlt
      rw [hb, hdiv]
      have hff := firstFailure_finds results j ((x :: xs).take batchSize).length offset
        hj hpre hfail
      simp only [scheduleBatches, hff, List.take_succ_cons, List.take_zero, batchCallTrace]
    · push_neg at hj
      have htlen : ((x :: xs).take batchSize).length = batchSize := by
        rw [List.length_take]
        rw [List.length_take] at hj
        omega
      rw [htlen] at hj
      have hok : firstFailure results offset ((x :: xs).take batchSize).length = none := by
        apply firstFailure_none
        intro m hm
        rw [htlen] at hm
        exact hpre m (by omega)
      have hstep := ih (offset + batchSize) (j - batchSize)
        (acc ++ [.scheduleCommands ((List.range batchSize).map (offset + ·))])
        (by rw [List.length_drop]; omega)
        (fun m hm => by
          have hp := hpre (batchSize + m) (by omega)
          rwa [show offset + (batchSize + m) = offset + batchSize + m by omega] at hp)
        (by
          rw [show offset + batchSize + (j - batchSize) = offset + j by omega]
          exact hfail)
      rw [htlen] at hok
      have hdiv : j / batchSize = (j - batchSize) / batchSize + 1 :=
        Nat.div_eq_sub_div (by decide) hj
      rw [hb, hdiv]
      simp only [scheduleBatches, htlen, hok, List.take_succ_cons, batchCallTrace]
      rw [hstep]
      rw [show offset + batchSize + (j - batchSize) = offset + j by omega]
      simp [List.append_assoc]

/-- The batched scheduling phase consists only of schedule_commands calls:
no clearing or rollback call appears among them. -/
theorem batchCallTrace_only_schedules {α : Type} :
    ∀ (chunks : List (List α)) (offset : Nat) (c : ServicerCall),
    c ∈ batchCallTrace chunks offset → ∃ idxs, c = .scheduleCommands idxs := by
  intro chunks
  induction chunks with
  | nil =>
    intro offset c hc
    simp [batchCallTrace] at hc
  | cons b rest ih =>
    intro offset c hc
    simp only [batchCallTrace, List.mem_cons] at hc
    rcases hc with hc | hc
    · exact ⟨_, hc⟩
    · exact ih _ c hc

/-- The failing command appears exactly once in the serial trace: it is
never retried. -/
theorem count_scheduleCommand_in_trace (clean : Bool) (j : Nat) :
    ((cleanPrefix clean ++ (List.range (j + 1)).map
        (fun m => ServicerCall.scheduleCommand m)).count
      (ServicerCall.scheduleCommand j)) = 1 := by
  rw [List.count_append]
  have h1 : (cleanPrefix clean).count (ServicerCall.scheduleCommand j) = 0 := by
    cases clean <;> simp [cleanPrefix, List.count_cons]
  have hnd : ((List.range (j + 1)).map (fun m => ServicerCall.scheduleCommand m)).Nodup := by
    refine List.Nodup.map ?_ (List.nodup_range (j + 1))
    intro a b hab
    simpa using hab
  have hmem : ServicerCall.scheduleCommand j ∈
      (List.range (j + 1)).map (fun m => ServicerCall.scheduleCommand m) :=
    List.mem_map_of_mem _ (List.mem_range.mpr (by omega))
  rw [h1, List.count_eq_one_of_mem hnd hmem]

/-- C2: if the j-th command is the first whose Result fails, serial
run_script schedules exactly commands 0..j (the failing command exactly
once, so no retry), raises RuntimeError, and never reaches the run loop;
batched run_script transmits exactly the batches through the one containing
command j, raises RuntimeError, and its scheduling phase contains only
schedule_commands calls - in particular no rollback or clearing call for
earlier successful batches. -/
theorem run_script_fails_fast_no_retry_no_rollback :
    (∀ {α : Type} (commands : List α) (results : Nat → Result) (clean : Bool) (j : Nat),
      j < commands.length →
      (∀ m, m < j → (results m).success = true) →
      (results j).success = false →
      run_script commands results clean false =
        (cleanPrefix clean ++ (List.range (j + 1)).map (fun m => .scheduleCommand m),
         some (serialFailMessage (results j))) ∧
      (run_script commands results clean false).1.count (.scheduleCommand j) = 1 ∧
      run_script commands results clean true =
        (cleanPrefix clean ++ batchCallTrace ((batched commands).take (j / batchSize + 1)) 0,
         some (batchFailMessage (results j)))) ∧
    (∀ {α : Type} (chunks : List (List α)) (offset : Nat) (c : ServicerCall),
      c ∈ batchCallTrace chunks offset → ∃ idxs, c = .scheduleCommands idxs) := by
  constructor
  · intro α commands results clean j hj hpre hfail
    have hs := scheduleSerial_first_failure results j commands 0 (cleanPrefix clean) hj
      (fun m hm => by simpa using hpre m hm) (by simpa using hfail)
    simp only [Nat.zero_add] at hs
    have hbatch := scheduleBatches_first_failure results commands 0 j (cleanPrefix clean) hj
      (fun m hm => by simpa using hpre m hm) (by simpa using hfail)
    simp only [Nat.zero_add] at hbatch
    refine ⟨?_, ?_, ?_⟩
    · simp [run_script, hs]
    · have htr : (run_script commands results clean false).1 =
          cleanPrefix clean ++ (List.range (j + 1)).map
            (fun m => ServicerCall.scheduleCommand m) := by
        simp [run_script, hs]
      rw [htr]
      exact count_scheduleCommand_in_trace clean j
    · simp [run_script, hbatch]
  · intro α chunks offset c hc
    exact batchCallTrace_only_schedules chunks offset c hc

/-- C2 witness: a three-command script whose second command fails, run both
serially and batched with environment cleaning. -/
theorem run_script_fails_fast_no_retry_no_rollback_witness :
    run_script [0, 1, 2]
        (fun n => if n = 1 then ⟨false, "internal_error", some "bad volume"⟩
          else ⟨true, "success", none⟩) true false =
      (cleanPrefix true ++ (List.range 2).map (fun m => .scheduleCommand m),
       some (serialFailMessage ⟨false, "internal_error", some "bad volume"⟩)) ∧
    run_script [0, 1, 2]
        (fun n => if n = 1 then ⟨false, "internal_error", some "bad volume"⟩
          else ⟨true, "success", none⟩) true true =
      (cleanPrefix true ++
        batchCallTrace ((batched [0, 1, 2]).take 1) 0,
       some (batchFailMessage ⟨false, "internal_error", some "bad volume"⟩)) := by
  have h := run_script_fails_fast_no_retry_no_rollback.1 [0, 1, 2]
    (fun n => if n = 1 then ⟨false, "internal_error", some "bad volume"⟩
      else ⟨true, "success", none⟩) true 1
    (by simp)
    (fun m hm => by
      have hm0 : m = 0 := by omega
      subst hm0
      rfl)
    rfl
  exact ⟨h.1, h.2.2⟩

/-
Schema-versioned data model (src/tcode_api/schemas/...).  Each pydantic
model becomes a structure holding its non-constant fields; the constant
Literal type and schema_version discriminators are emitted by the dump and
checked by the parse.  model_dump_json is modelled by toJson, and
model_validate_json by parse.  Models with PositiveInt fields carry a
decidable validb predicate mirroring the pydantic validators.
-/

/-- Dump of an Option-typed field: None serializes as JSON null. -/
def dumpOpt {α : Type} (d : α → Json) : Option α → Json
  | some a => d a
  | none => .null

/-- Validation of the value of an Option-typed field. -/
def parseOptVal {α : Type} (p : Json → Except PErr α) : Option Json → Except PErr (Option α)
  | none => .ok none
  | some v => pBind (p v) fun a => .ok (some a)

/-- Validation of an Option-typed field. -/
def parseOptJson {α : Type} (p : Json → Except PErr α) (j : Json) (name : String) :
    Except PErr (Option α) :=
  parseOptVal p (optField j name)

/-- The dump of a present optional value is never the null literal, so it
reads back as present. -/
theorem nullToNone_dumpOpt {α : Type} (d : α → Json) (v : Option α)
    (hd : ∀ a, d a ≠ .null) :
    nullToNone (dumpOpt d v) = v.map d := by
  cases v with
  | none => rfl
  | some a =>
    show nullToNone (d a) = some (d a)
    cases hda : d a with
    | null => exact absurd hda (hd a)
    | bool b => rfl
    | int n => rfl
    | float q => rfl
    | str s => rfl
    | arr xs => rfl
    | obj fields => rfl

/-- Value-level inverse for Option-typed fields. -/
theorem parseOptVal_map {α : Type} (p : Json → Except PErr α) (d : α → Json)
    (v : Option α) (hp : ∀ a, p (d a) = .ok a) :
    parseOptVal p (v.map d) = .ok v := by
  cases v <;> simp [parseOptVal, hp]

/-- Membership-relative variant of parseOptVal_map, for elements whose own
inverse carries a validity hypothesis. -/
theorem parseOptVal_map_of {α : Type} (p : Json → Except PErr α) (d : α → Json)
    (v : Option α) (hp : ∀ a ∈ v, p (d a) = .ok a) :
    parseOptVal p (v.map d) = .ok v := by
  cases v with
  | none => rfl
  | some a => simp [parseOptVal, hp a (by simp)]

/-- Dump of a list-valued field. -/
def dumpList {α : Type} (d : α → Json) (xs : List α) : Json :=
  .arr (xs.map d)

/-- Validation of a required list-valued field. -/
def parseListField {α : Type} (p : Json → Except PErr α) (j : Json) (name : String) :
    Except PErr (List α) :=
  pBind (reqField j name) fun v => pBind v.asArr (parseList p)

/-- Field-level inverse for required list fields. -/
theorem parseListField_ok {α : Type} (p : Json → Except PErr α) (d : α → Json)
    (j : Json) (name : String) (xs : List α)
    (hj : j.getField name = some (dumpList d xs))
    (hp : ∀ a ∈ xs, p (d a) = .ok a) :
    parseListField p j name = .ok xs := by
  simp [parseListField, reqField, hj, dumpList, Json.asArr, parseList_map p d xs hp]

/-- Validation of a list-valued field with default_factory=list. -/
def parseListFieldDflt {α : Type} (p : Json → Except PErr α) (j : Json) (name : String) :
    Except PErr (List α) :=
  match j.getField name with
  | none => .ok []
  | some v => pBind v.asArr (parseList p)

/-- Field-level inverse for defaulted list fields (the dump always writes
the field). -/
theorem parseListFieldDflt_ok {α : Type} (p : Json → Except PErr α) (d : α → Json)
    (j : Json) (name : String) (xs : List α)
    (hj : j.getField name = some (dumpList d xs))
    (hp : ∀ a ∈ xs, p (d a) = .ok a) :
    parseListFieldDflt p j name = .ok xs := by
  simp [parseListFieldDflt, hj, dumpList, Json.asArr, parseList_map p d xs hp]

/-- Dump of a dict-valued field. -/
def dumpEntries {α : Type} (d : α → Json) (xs : List (String × α)) : Json :=
  .obj (xs.map (fun kv => (kv.1, d kv.2)))

/-- Validation of a dict-valued field with default_factory=dict. -/
def parseEntriesFieldDflt {α : Type} (p : Json → Except PErr α) (j : Json) (name : String) :
    Except PErr (List (String × α)) :=
  match j.getField name with
  | none => .ok []
  | some v => pBind v.asObjFields (parseEntries p)

/-- Field-level inverse for defaulted dict fields. -/
theorem parseEntriesFieldDflt_ok {α : Type} (p : Json → Except PErr α) (d : α → Json)
    (j : Json) (name : String) (xs : List (String × α))
    (hj : j.getField name = some (dumpEntries d xs))
    (hp : ∀ kv ∈ xs, p (d kv.2) = .ok kv.2) :
    parseEntriesFieldDflt p j name = .ok xs := by
  simp [parseEntriesFieldDflt, hj, dumpEntries, Json.asObjFields,
    parseEntries_map p d xs hp]

/-- Validation of a required scalar field. -/
def parseField {α : Type} (p : Json → Except PErr α) (j : Json) (name : String) :
    Except PErr α :=
  pBind (reqField j name) p

/-- Field-level inverse for required fields. -/
theorem parseField_ok {α : Type} (p : Json → Except PErr α) (d : α → Json)
    (j : Json) (name : String) (v : α)
    (hj : j.getField name = some (d v)) (hp : p (d v) = .ok v) :
    parseField p j name = .ok v := by
  simp [parseField, reqField, hj, hp]

/-- Validation of a field with a non-None scalar default. -/
def parseFieldDflt {α : Type} (p : Json → Except PErr α) (j : Json) (name : String)
    (dflt : α) : Except PErr α :=
  match j.getField name with
  | none => .ok dflt
  | some v => p v

/-- Field-level inverse for defaulted fields (the dump always writes). -/
theorem parseFieldDflt_ok {α : Type} (p : Json → Except PErr α) (d : α → Json)
    (j : Json) (name : String) (v dflt : α)
    (hj : j.getField name = some (d v)) (hp : p (d v) = .ok v) :
    parseFieldDflt p j name dflt = .ok v := by
  simp [parseFieldDflt, hj, hp]

/-- The constant string Literal check (type tags): a present value must
match; an absent field takes the pydantic default. -/
def checkLitStr (j : Json) (name v : String) : Except PErr Unit :=
  match j.getField name with
  | some (.str w) => if w = v then .ok () else .error .validation
  | some _ => .error .validation
  | none => .ok ()

/-- The constant integer Literal check (schema_version fields). -/
def checkLitInt (j : Json) (name : String) (v : Int) : Except PErr Unit :=
  match j.getField name with
  | some (.int w) => if w = v then .ok () else .error .validation
  | some _ => .error .validation
  | none => .ok ()

/-- A named-tag value (tcode_api/types.py NamedTags values:
str | int | float | bool). -/
inductive TagValue where
  | s (v : String) : TagValue
  | i (n : Int) : TagValue
  | f (q : Rat) : TagValue
  | b (v : Bool) : TagValue
  deriving DecidableEq, Repr

/-- Dump of a named-tag value. -/
def TagValue.toJson : TagValue → Json
  | .s v => .str v
  | .i n => .int n
  | .f q => .float q
  | .b v => .bool v

/-- Validation of a named-tag value along the str | int | float | bool
union. -/
def TagValue.parse : Json → Except PErr TagValue
  | .str v => .ok (.s v)
  | .int n => .ok (.i n)
  | .float q => .ok (.f q)
  | .bool v => .ok (.b v)
  | _ => .error .validation

@[simp]
theorem tagValue_rt (v : TagValue) : TagValue.parse v.toJson = .ok v := by
  cases v <;> rfl

/-- Tags (a list of strings). -/
abbrev Tags : Type := List String

/-- NamedTags (an insertion-ordered string map of tag values). -/
abbrev NamedTags : Type := List (String × TagValue)

/-- The 4x4 row-major transform matrix of tcode_api/types.py (named
TcMatrix here because Mathlib already declares Matrix). -/
abbrev TcMatrix : Type := List (List Rat)

/-- identity_transform from tcode_api/types.py. -/
def identity_transform : TcMatrix :=
  [[1, 0, 0, 0], [0, 1, 0, 0], [0, 0, 1, 0], [0, 0, 0, 1]]

/-- Dump of a matrix. -/
def dumpMatrix (m : TcMatrix) : Json :=
  .arr (m.map (fun row => .arr (row.map Json.float)))

/-- Validation of one matrix row. -/
def parseRow (j : Json) : Except PErr (List Rat) :=
  pBind j.asArr (parseList Json.asFloat)

/-- Validation of a matrix. -/
def parseMatrix (j : Json) : Except PErr TcMatrix :=
  pBind j.asArr (parseList parseRow)

@[simp]
theorem matrix_rt (m : TcMatrix) : parseMatrix (dumpMatrix m) = .ok m := by
  simp only [parseMatrix, dumpMatrix, Json.asArr, pBind_ok]
  refine parseList_map _ _ _ (fun row _ => ?_)
  simp only [parseRow, Json.asArr, pBind_ok]
  exact parseList_map _ _ _ (fun q _ => rfl)

/-- Dump of the schemas ValueWithUnits model. -/
def ValueWithUnits.toJson (v : ValueWithUnits) : Json :=
  .obj [("type", .str "ValueWithUnits"), ("magnitude", .float v.magnitude),
    ("units", .str v.units)]

/-- Validation of the schemas ValueWithUnits model. -/
def ValueWithUnits.parse (j : Json) : Except PErr ValueWithUnits :=
  pBind (checkLitStr j "type" "ValueWithUnits") fun _ =>
  pBind (parseField Json.asFloat j "magnitude") fun magnitude =>
  pBind (parseField Json.asStr j "units") fun units =>
  .ok ⟨magnitude, units⟩

@[simp]
theorem valueWithUnits_rt (v : ValueWithUnits) : ValueWithUnits.parse v.toJson = .ok v := rfl

/-- The dump of a ValueWithUnits is never null (used for optional fields). -/
@[simp]
theorem valueWithUnits_toJson_ne_null (v : ValueWithUnits) : v.toJson ≠ .null := by
  simp [ValueWithUnits.toJson]

/-- CircleDescriptionV1 (descriptions/circle/v1.py). -/
structure CircleDescriptionV1 where
  diameter : ValueWithUnits
  deriving DecidableEq, Repr

/-- CircleDescriptorV1. -/
structure CircleDescriptorV1 where
  diameter : Option ValueWithUnits
  deriving DecidableEq, Repr

def CircleDescriptionV1.toJson (x : CircleDescriptionV1) : Json :=
  .obj [("schema_version", .int 1), ("type", .str "Circle"),
    ("diameter", x.diameter.toJson)]

def CircleDescriptionV1.parse (j : Json) : Except PErr CircleDescriptionV1 :=
  pBind (checkLitStr j "type" "Circle") fun _ =>
  pBind (checkLitInt j "schema_version" 1) fun _ =>
  pBind (parseField ValueWithUnits.parse j "diameter") fun diameter =>
  .ok ⟨diameter⟩

@[simp]
theorem circleDescriptionV1_rt (x : CircleDescriptionV1) :
    CircleDescriptionV1.parse x.toJson = .ok x := rfl

@[simp]
theorem circleDescriptionV1_tag (x : CircleDescriptionV1) :
    x.toJson.getField "type" = some (.str "Circle") := rfl

def CircleDescriptorV1.toJson (x : CircleDescriptorV1) : Json :=
  .obj [("type", .str "Circle"), ("schema_version", .int 1),
    ("diameter", dumpOpt ValueWithUnits.toJson x.diameter)]

def CircleDescriptorV1.parse (j : Json) : Except PErr CircleDescriptorV1 :=
  pBind (checkLitStr j "type" "Circle") fun _ =>
  pBind (checkLitInt j "schema_version" 1) fun _ =>
  pBind (parseOptJson ValueWithUnits.parse j "diameter") fun diameter =>
  .ok ⟨diameter⟩

@[simp]
theorem circleDescriptorV1_rt (x : CircleDescriptorV1) :
    CircleDescriptorV1.parse x.toJson = .ok x := by
  simp [CircleDescriptorV1.parse, CircleDescriptorV1.toJson, checkLitStr, checkLitInt,
    Json.getField, List.lookup, parseOptJson, optField,
    nullToNone_dumpOpt ValueWithUnits.toJson, valueWithUnits_toJson_ne_null,
    parseOptVal_map ValueWithUnits.parse ValueWithUnits.toJson, valueWithUnits_rt]

@[simp]
theorem circleDescriptorV1_tag (x : CircleDescriptorV1) :
    x.toJson.getField "type" = some (.str "Circle") := rfl

/-- AxisAlignedRectangleDescriptionV1 (descriptions/axis_aligned_rectangle/v1.py). -/
structure AxisAlignedRectangleDescriptionV1 where
  x_length : ValueWithUnits
  y_length : ValueWithUnits
  deriving DecidableEq, Repr

/-- AxisAlignedRectangleDescriptorV1. -/
structure AxisAlignedRectangleDescriptorV1 where
  x_length : Option ValueWithUnits
  y_length : Option ValueWithUnits
  deriving DecidableEq, Repr

def AxisAlignedRectangleDescriptionV1.toJson (x : AxisAlignedRectangleDescriptionV1) : Json :=
  .obj [("schema_version", .int 1), ("type", .str "AxisAlignedRectangle"),
    ("x_length", x.x_length.toJson), ("y_length", x.y_length.toJson)]

def AxisAlignedRectangleDescriptionV1.parse (j : Json) :
    Except PErr AxisAlignedRectangleDescriptionV1 :=
  pBind (checkLitStr j "type" "AxisAlignedRectangle") fun _ =>
  pBind (checkLitInt j "schema_version" 1) fun _ =>
  pBind (parseField ValueWithUnits.parse j "x_length") fun x_length =>
  pBind (parseField ValueWithUnits.parse j "y_length") fun y_length =>
  .ok ⟨x_length, y_length⟩

@[simp]
theorem axisAlignedRectangleDescriptionV1_rt (x : AxisAlignedRectangleDescriptionV1) :
    AxisAlignedRectangleDescriptionV1.parse x.toJson = .ok x := rfl

@[simp]
theorem axisAlignedRectangleDescriptionV1_tag (x : AxisAlignedRectangleDescriptionV1) :
    x.toJson.getField "type" = some (.str "AxisAlignedRectangle") := rfl

def AxisAlignedRectangleDescriptorV1.toJson (x : AxisAlignedRectangleDescriptorV1) : Json :=
  .obj [("type", .str "AxisAlignedRectangle"), ("schema_version", .int 1),
    ("x_length", dumpOpt ValueWithUnits.toJson x.x_length),
    ("y_length", dumpOpt ValueWithUnits.toJson x.y_length)]

def AxisAlignedRectangleDescriptorV1.parse (j : Json) :
    Except PErr AxisAlignedRectangleDescriptorV1 :=
  pBind (checkLitStr j "type" "AxisAlignedRectangle") fun _ =>
  pBind (checkLitInt j "schema_version" 1) fun _ =>
  pBind (parseOptJson ValueWithUnits.parse j "x_length") fun x_length =>
  pBind (parseOptJson ValueWithUnits.parse j "y_length") fun y_length =>
  .ok ⟨x_length, y_length⟩

@[simp]
theorem axisAlignedRectangleDescriptorV1_rt (x : AxisAlignedRectangleDescriptorV1) :
    AxisAlignedRectangleDescriptorV1.parse x.toJson = .ok x := by
  simp [AxisAlignedRectangleDescriptorV1.parse, AxisAlignedRectangleDescriptorV1.toJson,
    checkLitStr, checkLitInt, Json.getField, List.lookup, parseOptJson, optField,
    nullToNone_dumpOpt ValueWithUnits.toJson, valueWithUnits_toJson_ne_null,
    parseOptVal_map ValueWithUnits.parse ValueWithUnits.toJson, valueWithUnits_rt]

@[simp]
theorem axisAlignedRectangleDescriptorV1_tag (x : AxisAlignedRectangleDescriptorV1) :
    x.toJson.getField "type" = some (.str "AxisAlignedRectangle") := rfl

/-- WellShapeDescription union (descriptions/union.py). -/
inductive WellShapeDescription where
  | circle (c : CircleDescriptionV1) : WellShapeDescription
  | rect (r : AxisAlignedRectangleDescriptionV1) : WellShapeDescription
  deriving DecidableEq, Repr

def WellShapeDescription.toJson : WellShapeDescription → Json
  | .circle c => c.toJson
  | .rect r => r.toJson

def WellShapeDescription.parse (j : Json) : Except PErr WellShapeDescription :=
  match j.getField "type" with
  | some (.str "Circle") => pBind (CircleDescriptionV1.parse j) fun c => .ok (.circle c)
  | some (.str "AxisAlignedRectangle") =>
    pBind (AxisAlignedRectangleDescriptionV1.parse j) fun r => .ok (.rect r)
  | _ => .error .validation

@[simp]
theorem wellShapeDescription_rt (x : WellShapeDescription) :
    WellShapeDescription.parse x.toJson = .ok x := by
  cases x <;> simp [WellShapeDescription.parse, WellShapeDescription.toJson]

@[simp]
theorem wellShapeDescription_ne_null (x : WellShapeDescription) : x.toJson ≠ .null := by
  cases x <;> simp [WellShapeDescription.toJson, CircleDescriptionV1.toJson,
    AxisAlignedRectangleDescriptionV1.toJson]

/-- WellShapeDescriptor union. -/
inductive WellShapeDescriptor where
  | circle (c : CircleDescriptorV1) : WellShapeDescriptor
  | rect (r : AxisAlignedRectangleDescriptorV1) : WellShapeDescriptor
  deriving DecidableEq, Repr

def WellShapeDescriptor.toJson : WellShapeDescriptor → Json
  | .circle c => c.toJson
  | .rect r => r.toJson

def WellShapeDescriptor.parse (j : Json) : Except PErr WellShapeDescriptor :=
  match j.getField "type" with
  | some (.str "Circle") => pBind (CircleDescriptorV1.parse j) fun c => .ok (.circle c)
  | some (.str "AxisAlignedRectangle") =>
    pBind (AxisAlignedRectangleDescriptorV1.parse j) fun r => .ok (.rect r)
  | _ => .error .validation

@[simp]
theorem wellShapeDescriptor_rt (x : WellShapeDescriptor) :
    WellShapeDescriptor.parse x.toJson = .ok x := by
  cases x <;> simp [WellShapeDescriptor.parse, WellShapeDescriptor.toJson]

@[simp]
theorem wellShapeDescriptor_ne_null (x : WellShapeDescriptor) : x.toJson ≠ .null := by
  cases x <;> simp [WellShapeDescriptor.toJson, CircleDescriptorV1.toJson,
    AxisAlignedRectangleDescriptorV1.toJson]

/-- ConicalBottomDescriptionV1 (descriptions/well_bottom/conical_bottom/v1.py). -/
structure ConicalBottomDescriptionV1 where
  offset : ValueWithUnits
  deriving DecidableEq, Repr

/-- ConicalBottomDescriptorV1. -/
structure ConicalBottomDescriptorV1 where
  offset : Option ValueWithUnits
  deriving DecidableEq, Repr

/-- The direction Literal of a V-bottom well. -/
inductive VBottomDirection where
  | xAxis : VBottomDirection
  | yAxis : VBottomDirection
  deriving DecidableEq, Repr

def VBottomDirection.toStr : VBottomDirection → String
  | .xAxis => "x-axis"
  | .yAxis => "y-axis"

def VBottomDirection.parse : Json → Except PErr VBottomDirection
  | .str "x-axis" => .ok .xAxis
  | .str "y-axis" => .ok .yAxis
  | _ => .error .validation

@[simp]
theorem vBottomDirection_rt (d : VBottomDirection) :
    VBottomDirection.parse (.str d.toStr) = .ok d := by
  cases d <;> rfl

/-- VBottomDescriptionV1 (descriptions/well_bottom/v_bottom/v1.py). -/
structure VBottomDescriptionV1 where
  direction : VBottomDirection
  offset : ValueWithUnits
  deriving DecidableEq, Repr

/-- VBottomDescriptorV1. -/
structure VBottomDescriptorV1 where
  direction : Option VBottomDirection
  offset : Option ValueWithUnits
  deriving DecidableEq, Repr

/-- WellBottomShapeDescription union (descriptions/well_bottom/union.py);
the Flat and Round members carry no fields beyond their literals. -/
inductive WellBottomShapeDescription where
  | conical (c : ConicalBottomDescriptionV1) : WellBottomShapeDescription
  | flat : WellBottomShapeDescription
  | round : WellBottomShapeDescription
  | vshape (v : VBottomDescriptionV1) : WellBottomShapeDescription
  deriving DecidableEq, Repr

def WellBottomShapeDescription.toJson : WellBottomShapeDescription → Json
  | .conical c => .obj [("schema_version", .int 1), ("type", .str "Conical"),
      ("offset", c.offset.toJson)]
  | .flat => .obj [("schema_version", .int 1), ("type", .str "Flat")]
  | .round => .obj [("schema_version", .int 1), ("type", .str "Round")]
  | .vshape v => .obj [("schema_version", .int 1), ("type", .str "V-Shape"),
      ("direction", .str v.direction.toStr), ("offset", v.offset.toJson)]

def WellBottomShapeDescription.parse (j : Json) : Except PErr WellBottomShapeDescription :=
  match j.getField "type" with
  | some (.str "Conical") =>
    pBind (checkLitInt j "schema_version" 1) fun _ =>
    pBind (parseField ValueWithUnits.parse j "offset") fun offset =>
    .ok (.conical ⟨offset⟩)
  | some (.str "Flat") =>
    pBind (checkLitInt j "schema_version" 1) fun _ => .ok .flat
  | some (.str "Round") =>
    pBind (checkLitInt j "schema_version" 1) fun _ => .ok .round
  | some (.str "V-Shape") =>
    pBind (checkLitInt j "schema_version" 1) fun _ =>
    pBind (parseField VBottomDirection.parse j "direction") fun direction =>
    pBind (parseField ValueWithUnits.parse j "offset") fun offset =>
    .ok (.vshape ⟨direction, offset⟩)
  | _ => .error .validation

@[simp]
theorem wellBottomShapeDescription_rt (x : WellBottomShapeDescription) :
    WellBottomShapeDescription.parse x.toJson = .ok x := by
  cases x with
  | conical c => rfl
  | flat => rfl
  | round => rfl
  | vshape v =>
    simp [WellBottomShapeDescription.parse, WellBottomShapeDescription.toJson,
      checkLitInt, parseField, reqField, Json.getField, List.lookup, valueWithUnits_rt]

@[simp]
theorem wellBottomShapeDescription_ne_null (x : WellBottomShapeDescription) :
    x.toJson ≠ .null := by
  cases x <;> simp [WellBottomShapeDescription.toJson]

/-- WellBottomShapeDescriptor union. -/
inductive WellBottomShapeDescriptor where
  | conical (c : ConicalBottomDescriptorV1) : WellBottomShapeDescriptor
  | flat : WellBottomShapeDescriptor
  | round : WellBottomShapeDescriptor
  | vshape (v : VBottomDescriptorV1) : WellBottomShapeDescriptor
  deriving DecidableEq, Repr

def WellBottomShapeDescriptor.toJson : WellBottomShapeDescriptor → Json
  | .conical c => .obj [("schema_version", .int 1), ("type", .str "Conical"),
      ("offset", dumpOpt ValueWithUnits.toJson c.offset)]
  | .flat => .obj [("schema_version", .int 1), ("type", .str "Flat")]
  | .round => .obj [("schema_version", .int 1), ("type", .str "Round")]
  | .vshape v => .obj [("schema_version", .int 1), ("type", .str "V-Shape"),
      ("direction", dumpOpt (fun d => .str d.toStr) v.direction),
      ("offset", dumpOpt ValueWithUnits.toJson v.offset)]

def WellBottomShapeDescriptor.parse (j : Json) : Except PErr WellBottomShapeDescriptor :=
  match j.getField "type" with
  | some (.str "Conical") =>
    pBind (checkLitInt j "schema_version" 1) fun _ =>
    pBind (parseOptJson ValueWithUnits.parse j "offset") fun offset =>
    .ok (.conical ⟨offset⟩)
  | some (.str "Flat") =>
    pBind (checkLitInt j "schema_version" 1) fun _ => .ok .flat
  | some (.str "Round") =>
    pBind (checkLitInt j "schema_version" 1) fun _ => .ok .round
  | some (.str "V-Shape") =>
    pBind (checkLitInt j "schema_version" 1) fun _ =>
    pBind (parseOptJson VBottomDirection.parse j "direction") fun direction =>
    pBind (parseOptJson ValueWithUnits.parse j "offset") fun offset =>
    .ok (.vshape ⟨direction, offset⟩)
  | _ => .error .validation

@[simp]
theorem wellBottomShapeDescriptor_rt (x : WellBottomShapeDescriptor) :
    WellBottomShapeDescriptor.parse x.toJson = .ok x := by
  cases x with
  | conical c =>
    simp [WellBottomShapeDescriptor.parse, WellBottomShapeDescriptor.toJson,
      checkLitInt, Json.getField, List.lookup, parseOptJson, optField,
      nullToNone_dumpOpt ValueWithUnits.toJson, valueWithUnits_toJson_ne_null,
      parseOptVal_map ValueWithUnits.parse ValueWithUnits.toJson, valueWithUnits_rt]
  | flat => rfl
  | round => rfl
  | vshape v =>
    simp [WellBottomShapeDescriptor.parse, WellBottomShapeDescriptor.toJson,
      checkLitInt, Json.getField, List.lookup, parseOptJson, optField,
      nullToNone_dumpOpt ValueWithUnits.toJson, valueWithUnits_toJson_ne_null,
      parseOptVal_map ValueWithUnits.parse ValueWithUnits.toJson, valueWithUnits_rt,
      nullToNone_dumpOpt (fun d : VBottomDirection => Json.str d.toStr),
      parseOptVal_map VBottomDirection.parse (fun d => Json.str d.toStr)]

@[simp]
theorem wellBottomShapeDescriptor_ne_null (x : WellBottomShapeDescriptor) :
    x.toJson ≠ .null := by
  cases x <;> simp [WellBottomShapeDescriptor.toJson]

/-- String-list round trip (Tags fields). -/
@[simp]
theorem parseList_str (xs : List String) :
    parseList Json.asStr (xs.map Json.str) = .ok xs :=
  parseList_map _ _ _ (fun _ _ => rfl)

/-- Named-tag map round trip (NamedTags fields). -/
@[simp]
theorem parseEntries_tagValue (xs : List (String × TagValue)) :
    parseEntries TagValue.parse (xs.map (fun kv => (kv.1, TagValue.toJson kv.2))) = .ok xs :=
  parseEntries_map _ _ _ (fun kv _ => tagValue_rt kv.2)

/-- ValueWithUnits-list round trip (joint_positions fields). -/
@[simp]
theorem parseList_vwu (xs : List ValueWithUnits) :
    parseList ValueWithUnits.parse (xs.map ValueWithUnits.toJson) = .ok xs :=
  parseList_map _ _ _ (fun a _ => valueWithUnits_rt a)

/-- Int-list round trip (pipette tip layout rows). -/
@[simp]
theorem parseList_int (xs : List Int) :
    parseList Json.asInt (xs.map Json.int) = .ok xs :=
  parseList_map _ _ _ (fun _ _ => rfl)

/-- asArr on a literal array. -/
@[simp]
theorem asArr_arr (xs : List Json) : (Json.arr xs).asArr = .ok xs := rfl

/-- asObjFields on a literal object. -/
@[simp]
theorem asObjFields_obj (xs : List (String × Json)) :
    (Json.obj xs).asObjFields = .ok xs := rfl

/-- Strict positive-int validation (pydantic PositiveInt). -/
def Json.asPosInt : Json → Except PErr Int
  | .int n => if 0 < n then .ok n else .error .validation
  | _ => .error .validation

/-- GridDescriptionV1 (descriptions/grid/v1.py); row_count and column_count
are PositiveInt. -/
structure GridDescriptionV1 where
  row_count : Int
  column_count : Int
  row_pitch : ValueWithUnits
  column_pitch : ValueWithUnits
  row_offset : ValueWithUnits
  column_offset : ValueWithUnits
  deriving DecidableEq, Repr

/-- The PositiveInt validators of GridDescriptionV1. -/
def GridDescriptionV1.validb (x : GridDescriptionV1) : Bool :=
  decide (0 < x.row_count) && decide (0 < x.column_count)

def GridDescriptionV1.toJson (x : GridDescriptionV1) : Json :=
  .obj [("schema_version", .int 1), ("type", .str "Grid"),
    ("row_count", .int x.row_count), ("column_count", .int x.column_count),
    ("row_pitch", x.row_pitch.toJson), ("column_pitch", x.column_pitch.toJson),
    ("row_offset", x.row_offset.toJson), ("column_offset", x.column_offset.toJson)]

def GridDescriptionV1.parse (j : Json) : Except PErr GridDescriptionV1 :=
  pBind (checkLitStr j "type" "Grid") fun _ =>
  pBind (checkLitInt j "schema_version" 1) fun _ =>
  pBind (parseField Json.asPosInt j "row_count") fun row_count =>
  pBind (parseField Json.asPosInt j "column_count") fun column_count =>
  pBind (parseField ValueWithUnits.parse j "row_pitch") fun row_pitch =>
  pBind (parseField ValueWithUnits.parse j "column_pitch") fun column_pitch =>
  pBind (parseField ValueWithUnits.parse j "row_offset") fun row_offset =>
  pBind (parseField ValueWithUnits.parse j "column_offset") fun column_offset =>
  .ok ⟨row_count, column_count, row_pitch, column_pitch, row_offset, column_offset⟩

@[simp]
theorem gridDescriptionV1_rt (x : GridDescriptionV1) (hv : x.validb = true) :
    GridDescriptionV1.parse x.toJson = .ok x := by
  rw [GridDescriptionV1.validb, Bool.and_eq_true, decide_eq_true_eq, decide_eq_true_eq] at hv
  simp [GridDescriptionV1.parse, GridDescriptionV1.toJson, checkLitStr, checkLitInt,
    parseField, reqField, Json.getField, List.lookup, Json.asPosInt, hv.1, hv.2]

@[simp]
theorem gridDescriptionV1_ne_null (x : GridDescriptionV1) : x.toJson ≠ .null := by
  simp [GridDescriptionV1.toJson]

/-- GridDescriptorV1: every field optional, counts positive when present. -/
structure GridDescriptorV1 where
  row_count : Option Int
  column_count : Option Int
  row_pitch : Option ValueWithUnits
  column_pitch : Option ValueWithUnits
  row_offset : Option ValueWithUnits
  column_offset : Option ValueWithUnits
  deriving DecidableEq, Repr

/-- The PositiveInt validators of GridDescriptorV1, applied when present. -/
def GridDescriptorV1.validb (x : GridDescriptorV1) : Bool :=
  (match x.row_count with | none => true | some n => decide (0 < n)) &&
  (match x.column_count with | none => true | some n => decide (0 < n))

def GridDescriptorV1.toJson (x : GridDescriptorV1) : Json :=
  .obj [("type", .str "Grid"), ("schema_version", .int 1),
    ("row_count", dumpOpt Json.int x.row_count),
    ("column_count", dumpOpt Json.int x.column_count),
    ("row_pitch", dumpOpt ValueWithUnits.toJson x.row_pitch),
    ("column_pitch", dumpOpt ValueWithUnits.toJson x.column_pitch),
    ("row_offset", dumpOpt ValueWithUnits.toJson x.row_offset),
    ("column_offset", dumpOpt ValueWithUnits.toJson x.column_offset)]

def GridDescriptorV1.parse (j : Json) : Except PErr GridDescriptorV1 :=
  pBind (checkLitStr j "type" "Grid") fun _ =>
  pBind (checkLitInt j "schema_version" 1) fun _ =>
  pBind (parseOptJson Json.asPosInt j "row_count") fun row_count =>
  pBind (parseOptJson Json.asPosInt j "column_count") fun column_count =>
  pBind (parseOptJson ValueWithUnits.parse j "row_pitch") fun row_pitch =>
  pBind (parseOptJson ValueWithUnits.parse j "column_pitch") fun column_pitch =>
  pBind (parseOptJson ValueWithUnits.parse j "row_offset") fun row_offset =>
  pBind (parseOptJson ValueWithUnits.parse j "column_offset") fun column_offset =>
  .ok ⟨row_count, column_count, row_pitch, column_pitch, row_offset, column_offset⟩

@[simp]
theorem gridDescriptorV1_rt (x : GridDescriptorV1) (hv : x.validb = true) :
    GridDescriptorV1.parse x.toJson = .ok x := by
  rw [GridDescriptorV1.validb, Bool.and_eq_true] at hv
  have hr : ∀ n ∈ x.row_count, Json.asPosInt (Json.int n) = .ok n := by
    cases h : x.row_count <;> simp_all [Json.asPosInt]
  have hc : ∀ n ∈ x.column_count, Json.asPosInt (Json.int n) = .ok n := by
    cases h : x.column_count <;> simp_all [Json.asPosInt]
  simp [GridDescriptorV1.parse, GridDescriptorV1.toJson, checkLitStr, checkLitInt,
    Json.getField, List.lookup, parseOptJson, optField,
    nullToNone_dumpOpt Json.int, nullToNone_dumpOpt ValueWithUnits.toJson,
    valueWithUnits_toJson_ne_null,
    parseOptVal_map_of Json.asPosInt Json.int x.row_count hr,
    parseOptVal_map_of Json.asPosInt Json.int x.column_count hc,
    parseOptVal_map ValueWithUnits.parse ValueWithUnits.toJson, valueWithUnits_rt]

@[simp]
theorem gridDescriptorV1_ne_null (x : GridDescriptorV1) : x.toJson ≠ .null := by
  simp [GridDescriptorV1.toJson]

@[simp]
theorem gridDescriptorV1_tag (x : GridDescriptorV1) :
    x.toJson.getField "type" = some (.str "Grid") := rfl

/-- PipetteTipLayoutV1 (schemas/pipette_tip_layout/v1.py): a grid of 0/1
slot markers. -/
structure PipetteTipLayoutV1 where
  layout : List (List Int)
  deriving DecidableEq, Repr

/-- PipetteTipLayoutV1.empty: all slots 0. -/
def PipetteTipLayoutV1.empty (row_count column_count : Nat) : PipetteTipLayoutV1 :=
  ⟨List.replicate row_count (List.replicate column_count 0)⟩

/-- PipetteTipLayoutV1.full: all slots 1. -/
def PipetteTipLayoutV1.full (row_count column_count : Nat) : PipetteTipLayoutV1 :=
  ⟨List.replicate row_count (List.replicate column_count 1)⟩

def PipetteTipLayoutV1.toJson (x : PipetteTipLayoutV1) : Json :=
  .obj [("schema_version", .int 1), ("type", .str "PipetteTipLayout"),
    ("layout", .arr (x.layout.map (fun row => .arr (row.map Json.int))))]

def PipetteTipLayoutV1.parse (j : Json) : Except PErr PipetteTipLayoutV1 :=
  pBind (checkLitStr j "type" "PipetteTipLayout") fun _ =>
  pBind (checkLitInt j "schema_version" 1) fun _ =>
  pBind (parseField (fun v => pBind v.asArr
    (parseList (fun r => pBind r.asArr (parseList Json.asInt)))) j "layout") fun layout =>
  .ok ⟨layout⟩

@[simp]
theorem pipetteTipLayoutV1_rt (x : PipetteTipLayoutV1) :
    PipetteTipLayoutV1.parse x.toJson = .ok x := by
  simp [PipetteTipLayoutV1.parse, PipetteTipLayoutV1.toJson, checkLitStr, checkLitInt,
    parseField, reqField, Json.getField, List.lookup,
    parseList_map (fun r => pBind r.asArr (parseList Json.asInt))
      (fun row => Json.arr (row.map Json.int)) x.layout
      (fun row _ => by simp [Json.asArr])]

@[simp]
theorem pipetteTipLayoutV1_ne_null (x : PipetteTipLayoutV1) : x.toJson ≠ .null := by
  simp [PipetteTipLayoutV1.toJson]

/-- WellDescriptionV1 (descriptions/well/v1.py); extends
BaseDescriberWithTags, so it carries tags and named_tags. -/
structure WellDescriptionV1 where
  tags : Tags
  named_tags : NamedTags
  depth : ValueWithUnits
  shape : WellShapeDescription
  bottom_shape : WellBottomShapeDescription
  min_volume : ValueWithUnits
  max_volume : ValueWithUnits
  deriving DecidableEq, Repr

def WellDescriptionV1.toJson (x : WellDescriptionV1) : Json :=
  .obj [("type", .str "Well"), ("schema_version", .int 1),
    ("tags", dumpList Json.str x.tags),
    ("named_tags", dumpEntries TagValue.toJson x.named_tags),
    ("depth", x.depth.toJson), ("shape", x.shape.toJson),
    ("bottom_shape", x.bottom_shape.toJson),
    ("min_volume", x.min_volume.toJson), ("max_volume", x.max_volume.toJson)]

def WellDescriptionV1.parse (j : Json) : Except PErr WellDescriptionV1 :=
  pBind (checkLitStr j "type" "Well") fun _ =>
  pBind (checkLitInt j "schema_version" 1) fun _ =>
  pBind (parseListFieldDflt Json.asStr j "tags") fun tags =>
  pBind (parseEntriesFieldDflt TagValue.parse j "named_tags") fun named_tags =>
  pBind (parseField ValueWithUnits.parse j "depth") fun depth =>
  pBind (parseField WellShapeDescription.parse j "shape") fun shape =>
  pBind (parseField WellBottomShapeDescription.parse j "bottom_shape") fun bottom_shape =>
  pBind (parseField ValueWithUnits.parse j "min_volume") fun min_volume =>
  pBind (parseField ValueWithUnits.parse j "max_volume") fun max_volume =>
  .ok ⟨tags, named_tags, depth, shape, bottom_shape, min_volume, max_volume⟩

@[simp]
theorem wellDescriptionV1_rt (x : WellDescriptionV1) :
    WellDescriptionV1.parse x.toJson = .ok x := by
  simp [WellDescriptionV1.parse, WellDescriptionV1.toJson, checkLitStr, checkLitInt,
    parseField, reqField, parseListFieldDflt, parseEntriesFieldDflt,
    Json.getField, List.lookup, dumpList, dumpEntries]

@[simp]
theorem wellDescriptionV1_ne_null (x : WellDescriptionV1) : x.toJson ≠ .null := by
  simp [WellDescriptionV1.toJson]

/-- WellDescriptorV1: the data fields become optional; tags and named_tags
keep their empty defaults. -/
structure WellDescriptorV1 where
  tags : Tags
  named_tags : NamedTags
  depth : Option ValueWithUnits
  shape : Option WellShapeDescriptor
  bottom_shape : Option WellBottomShapeDescriptor
  min_volume : Option ValueWithUnits
  max_volume : Option ValueWithUnits
  deriving DecidableEq, Repr

def WellDescriptorV1.toJson (x : WellDescriptorV1) : Json :=
  .obj [("type", .str "Well"), ("schema_version", .int 1),
    ("tags", dumpList Json.str x.tags),
    ("named_tags", dumpEntries TagValue.toJson x.named_tags),
    ("depth", dumpOpt ValueWithUnits.toJson x.depth),
    ("shape", dumpOpt WellShapeDescriptor.toJson x.shape),
    ("bottom_shape", dumpOpt WellBottomShapeDescriptor.toJson x.bottom_shape),
    ("min_volume", dumpOpt ValueWithUnits.toJson x.min_volume),
    ("max_volume", dumpOpt ValueWithUnits.toJson x.max_volume)]

def WellDescriptorV1.parse (j : Json) : Except PErr WellDescriptorV1 :=
  pBind (checkLitStr j "type" "Well") fun _ =>
  pBind (checkLitInt j "schema_version" 1) fun _ =>
  pBind (parseListFieldDflt Json.asStr j "tags") fun tags =>
  pBind (parseEntriesFieldDflt TagValue.parse j "named_tags") fun named_tags =>
  pBind (parseOptJson ValueWithUnits.parse j "depth") fun depth =>
  pBind (parseOptJson WellShapeDescriptor.parse j "shape") fun shape =>
  pBind (parseOptJson WellBottomShapeDescriptor.parse j "bottom_shape") fun bottom_shape =>
  pBind (parseOptJson ValueWithUnits.parse j "min_volume") fun min_volume =>
  pBind (parseOptJson ValueWithUnits.parse j "max_volume") fun max_volume =>
  .ok ⟨tags, named_tags, depth, shape, bottom_shape, min_volume, max_volume⟩

@[simp]
theorem wellDescriptorV1_rt (x : WellDescriptorV1) :
    WellDescriptorV1.parse x.toJson = .ok x := by
  simp [WellDescriptorV1.parse, WellDescriptorV1.toJson, checkLitStr, checkLitInt,
    parseListFieldDflt, parseEntriesFieldDflt, Json.getField, List.lookup,
    dumpList, dumpEntries, parseOptJson, optField,
    nullToNone_dumpOpt ValueWithUnits.toJson,
    nullToNone_dumpOpt WellShapeDescriptor.toJson,
    nullToNone_dumpOpt WellBottomShapeDescriptor.toJson,
    parseOptVal_map ValueWithUnits.parse ValueWithUnits.toJson,
    parseOptVal_map WellShapeDescriptor.parse WellShapeDescriptor.toJson,
    parseOptVal_map WellBottomShapeDescriptor.parse WellBottomShapeDescriptor.toJson]

@[simp]
theorem wellDescriptorV1_ne_null (x : WellDescriptorV1) : x.toJson ≠ .null := by
  simp [WellDescriptorV1.toJson]

/-- PipetteTipDescriptionV1 (descriptions/pipette_tip/v1.py). -/
structure PipetteTipDescriptionV1 where
  tags : Tags
  named_tags : NamedTags
  has_filter : Bool
  height : ValueWithUnits
  flange_height : ValueWithUnits
  max_volume : ValueWithUnits
  min_volume : ValueWithUnits
  deriving DecidableEq, Repr

def PipetteTipDescriptionV1.toJson (x : PipetteTipDescriptionV1) : Json :=
  .obj [("type", .str "PipetteTip"), ("schema_version", .int 1),
    ("tags", dumpList Json.str x.tags),
    ("named_tags", dumpEntries TagValue.toJson x.named_tags),
    ("has_filter", .bool x.has_filter),
    ("height", x.height.toJson), ("flange_height", x.flange_height.toJson),
    ("max_volume", x.max_volume.toJson), ("min_volume", x.min_volume.toJson)]

def PipetteTipDescriptionV1.parse (j : Json) : Except PErr PipetteTipDescriptionV1 :=
  pBind (checkLitStr j "type" "PipetteTip") fun _ =>
  pBind (checkLitInt j "schema_version" 1) fun _ =>
  pBind (parseListFieldDflt Json.asStr j "tags") fun tags =>
  pBind (parseEntriesFieldDflt TagValue.parse j "named_tags") fun named_tags =>
  pBind (parseField Json.asBool j "has_filter") fun has_filter =>
  pBind (parseField ValueWithUnits.parse j "height") fun height =>
  pBind (parseField ValueWithUnits.parse j "flange_height") fun flange_height =>
  pBind (parseField ValueWithUnits.parse j "max_volume") fun max_volume =>
  pBind (parseField ValueWithUnits.parse j "min_volume") fun min_volume =>
  .ok ⟨tags, named_tags, has_filter, height, flange_height, max_volume, min_volume⟩

@[simp]
theorem pipetteTipDescriptionV1_rt (x : PipetteTipDescriptionV1) :
    PipetteTipDescriptionV1.parse x.toJson = .ok x := by
  simp [PipetteTipDescriptionV1.parse, PipetteTipDescriptionV1.toJson, checkLitStr,
    checkLitInt, parseField, reqField, parseListFieldDflt, parseEntriesFieldDflt,
    Json.getField, List.lookup, dumpList, dumpEntries, Json.asBool]

@[simp]
theorem pipetteTipDescriptionV1_ne_null (x : PipetteTipDescriptionV1) :
    x.toJson ≠ .null := by
  simp [PipetteTipDescriptionV1.toJson]

/-- PipetteTipDescriptorV1: data fields optional. -/
structure PipetteTipDescriptorV1 where
  tags : Tags
  named_tags : NamedTags
  has_filter : Option Bool
  height : Option ValueWithUnits
  flange_height : Option ValueWithUnits
  max_volume : Option ValueWithUnits
  min_volume : Option ValueWithUnits
  deriving DecidableEq, Repr

def PipetteTipDescriptorV1.toJson (x : PipetteTipDescriptorV1) : Json :=
  .obj [("type", .str "PipetteTip"), ("schema_version", .int 1),
    ("tags", dumpList Json.str x.tags),
    ("named_tags", dumpEntries TagValue.toJson x.named_tags),
    ("has_filter", dumpOpt Json.bool x.has_filter),
    ("height", dumpOpt ValueWithUnits.toJson x.height),
    ("flange_height", dumpOpt ValueWithUnits.toJson x.flange_height),
    ("max_volume", dumpOpt ValueWithUnits.toJson x.max_volume),
    ("min_volume", dumpOpt ValueWithUnits.toJson x.min_volume)]

def PipetteTipDescriptorV1.parse (j : Json) : Except PErr PipetteTipDescriptorV1 :=
  pBind (checkLitStr j "type" "PipetteTip") fun _ =>
  pBind (checkLitInt j "schema_version" 1) fun _ =>
  pBind (parseListFieldDflt Json.asStr j "tags") fun tags =>
  pBind (parseEntriesFieldDflt TagValue.parse j "named_tags") fun named_tags =>
  pBind (parseOptJson Json.asBool j "has_filter") fun has_filter =>
  pBind (parseOptJson ValueWithUnits.parse j "height") fun height =>
  pBind (parseOptJson ValueWithUnits.parse j "flange_height") fun flange_height =>
  pBind (parseOptJson ValueWithUnits.parse j "max_volume") fun max_volume =>
  pBind (parseOptJson ValueWithUnits.parse j "min_volume") fun min_volume =>
  .ok ⟨tags, named_tags, has_filter, height, flange_height, max_volume, min_volume⟩

@[simp]
theorem pipetteTipDescriptorV1_rt (x : PipetteTipDescriptorV1) :
    PipetteTipDescriptorV1.parse x.toJson = .ok x := by
  simp [PipetteTipDescriptorV1.parse, PipetteTipDescriptorV1.toJson, checkLitStr,
    checkLitInt, parseListFieldDflt, parseEntriesFieldDflt, Json.getField, List.lookup,
    dumpList, dumpEntries, parseOptJson, optField,
    nullToNone_dumpOpt Json.bool, nullToNone_dumpOpt ValueWithUnits.toJson,
    parseOptVal_map Json.asBool Json.bool,
    parseOptVal_map ValueWithUnits.parse ValueWithUnits.toJson, Json.asBool]

@[simp]
theorem pipetteTipDescriptorV1_ne_null (x : PipetteTipDescriptorV1) :
    x.toJson ≠ .null := by
  simp [PipetteTipDescriptorV1.toJson]

/-- TubeDescriptionV1 (descriptions/tube/v1.py). -/
structure TubeDescriptionV1 where
  tags : Tags
  named_tags : NamedTags
  depth : ValueWithUnits
  shape : WellShapeDescription
  bottom_shape : WellBottomShapeDescription
  min_volume : ValueWithUnits
  max_volume : ValueWithUnits
  top_height : ValueWithUnits
  deriving DecidableEq, Repr

def TubeDescriptionV1.toJson (x : TubeDescriptionV1) : Json :=
  .obj [("type", .str "Tube"), ("schema_version", .int 1),
    ("tags", dumpList Json.str x.tags),
    ("named_tags", dumpEntries TagValue.toJson x.named_tags),
    ("depth", x.depth.toJson), ("shape", x.shape.toJson),
    ("bottom_shape", x.bottom_shape.toJson),
    ("min_volume", x.min_volume.toJson), ("max_volume", x.max_volume.toJson),
    ("top_height", x.top_height.toJson)]

def TubeDescriptionV1.parse (j : Json) : Except PErr TubeDescriptionV1 :=
  pBind (checkLitStr j "type" "Tube") fun _ =>
  pBind (checkLitInt j "schema_version" 1) fun _ =>
  pBind (parseListFieldDflt Json.asStr j "tags") fun tags =>
  pBind (parseEntriesFieldDflt TagValue.parse j "named_tags") fun named_tags =>
  pBind (parseField ValueWithUnits.parse j "depth") fun depth =>
  pBind (parseField WellShapeDescription.parse j "shape") fun shape =>
  pBind (parseField WellBottomShapeDescription.parse j "bottom_shape") fun bottom_shape =>
  pBind (parseField ValueWithUnits.parse j "min_volume") fun min_volume =>
  pBind (parseField ValueWithUnits.parse j "max_volume") fun max_volume =>
  pBind (parseField ValueWithUnits.parse j "top_height") fun top_height =>
  .ok ⟨tags, named_tags, depth, shape, bottom_shape, min_volume, max_volume, top_height⟩

@[simp]
theorem tubeDescriptionV1_rt (x : TubeDescriptionV1) :
    TubeDescriptionV1.parse x.toJson = .ok x := by
  simp [TubeDescriptionV1.parse, TubeDescriptionV1.toJson, checkLitStr, checkLitInt,
    parseField, reqField, parseListFieldDflt, parseEntriesFieldDflt,
    Json.getField, List.lookup, dumpList, dumpEntries]

@[simp]
theorem tubeDescriptionV1_ne_null (x : TubeDescriptionV1) : x.toJson ≠ .null := by
  simp [TubeDescriptionV1.toJson]

/-- TubeDescriptorV1: data fields optional. -/
structure TubeDescriptorV1 where
  tags : Tags
  named_tags : NamedTags
  depth : Option ValueWithUnits
  shape : Option WellShapeDescriptor
  bottom_shape : Option WellBottomShapeDescriptor
  min_volume : Option ValueWithUnits
  max_volume : Option ValueWithUnits
  top_height : Option ValueWithUnits
  deriving DecidableEq, Repr

def TubeDescriptorV1.toJson (x : TubeDescriptorV1) : Json :=
  .obj [("type", .str "Tube"), ("schema_version", .int 1),
    ("tags", dumpList Json.str x.tags),
    ("named_tags", dumpEntries TagValue.toJson x.named_tags),
    ("depth", dumpOpt ValueWithUnits.toJson x.depth),
    ("shape", dumpOpt WellShapeDescriptor.toJson x.shape),
    ("bottom_shape", dumpOpt WellBottomShapeDescriptor.toJson x.bottom_shape),
    ("min_volume", dumpOpt ValueWithUnits.toJson x.min_volume),
    ("max_volume", dumpOpt ValueWithUnits.toJson x.max_volume),
    ("top_height", dumpOpt ValueWithUnits.toJson x.top_height)]

def TubeDescriptorV1.parse (j : Json) : Except PErr TubeDescriptorV1 :=
  pBind (checkLitStr j "type" "Tube") fun _ =>
  pBind (checkLitInt j "schema_version" 1) fun _ =>
  pBind (parseListFieldDflt Json.asStr j "tags") fun tags =>
  pBind (parseEntriesFieldDflt TagValue.parse j "named_tags") fun named_tags =>
  pBind (parseOptJson ValueWithUnits.parse j "depth") fun depth =>
  pBind (parseOptJson WellShapeDescriptor.parse j "shape") fun shape =>
  pBind (parseOptJson WellBottomShapeDescriptor.parse j "bottom_shape") fun bottom_shape =>
  pBind (parseOptJson ValueWithUnits.parse j "min_volume") fun min_volume =>
  pBind (parseOptJson ValueWithUnits.parse j "max_volume") fun max_volume =>
  pBind (parseOptJson ValueWithUnits.parse j "top_height") fun top_height =>
  .ok ⟨tags, named_tags, depth, shape, bottom_shape, min_volume, max_volume, top_height⟩

@[simp]
theorem tubeDescriptorV1_rt (x : TubeDescriptorV1) :
    TubeDescriptorV1.parse x.toJson = .ok x := by
  simp [TubeDescriptorV1.parse, TubeDescriptorV1.toJson, checkLitStr, checkLitInt,
    parseListFieldDflt, parseEntriesFieldDflt, Json.getField, List.lookup,
    dumpList, dumpEntries, parseOptJson, optField,
    nullToNone_dumpOpt ValueWithUnits.toJson,
    nullToNone_dumpOpt WellShapeDescriptor.toJson,
    nullToNone_dumpOpt WellBottomShapeDescriptor.toJson,
    parseOptVal_map ValueWithUnits.parse ValueWithUnits.toJson,
    parseOptVal_map WellShapeDescriptor.parse WellShapeDescriptor.toJson,
    parseOptVal_map WellBottomShapeDescriptor.parse WellBottomShapeDescriptor.toJson]

@[simp]
theorem tubeDescriptorV1_ne_null (x : TubeDescriptorV1) : x.toJson ≠ .null := by
  simp [TubeDescriptorV1.toJson]

/-- LidDescriptionV1 (descriptions/labware/lid/v1.py); extends
BaseLabwareDescription (tags, named_tags, x/y/z_length). -/
structure LidDescriptionV1 where
  tags : Tags
  named_tags : NamedTags
  x_length : ValueWithUnits
  y_length : ValueWithUnits
  z_length : ValueWithUnits
  stackable : Bool
  deriving DecidableEq, Repr

def LidDescriptionV1.toJson (x : LidDescriptionV1) : Json :=
  .obj [("type", .str "Lid"), ("schema_version", .int 1),
    ("tags", dumpList Json.str x.tags),
    ("named_tags", dumpEntries TagValue.toJson x.named_tags),
    ("x_length", x.x_length.toJson), ("y_length", x.y_length.toJson),
    ("z_length", x.z_length.toJson), ("stackable", .bool x.stackable)]

def LidDescriptionV1.parse (j : Json) : Except PErr LidDescriptionV1 :=
  pBind (checkLitStr j "type" "Lid") fun _ =>
  pBind (checkLitInt j "schema_version" 1) fun _ =>
  pBind (parseListFieldDflt Json.asStr j "tags") fun tags =>
  pBind (parseEntriesFieldDflt TagValue.parse j "named_tags") fun named_tags =>
  pBind (parseField ValueWithUnits.parse j "x_length") fun x_length =>
  pBind (parseField ValueWithUnits.parse j "y_length") fun y_length =>
  pBind (parseField ValueWithUnits.parse j "z_length") fun z_length =>
  pBind (parseField Json.asBool j "stackable") fun stackable =>
  .ok ⟨tags, named_tags, x_length, y_length, z_length, stackable⟩

@[simp]
theorem lidDescriptionV1_rt (x : LidDescriptionV1) :
    LidDescriptionV1.parse x.toJson = .ok x := by
  simp [LidDescriptionV1.parse, LidDescriptionV1.toJson, checkLitStr, checkLitInt,
    parseField, reqField, parseListFieldDflt, parseEntriesFieldDflt,
    Json.getField, List.lookup, dumpList, dumpEntries, Json.asBool]

@[simp]
theorem lidDescriptionV1_ne_null (x : LidDescriptionV1) : x.toJson ≠ .null := by
  simp [LidDescriptionV1.toJson]

@[simp]
theorem lidDescriptionV1_tag (x : LidDescriptionV1) :
    x.toJson.getField "type" = some (.str "Lid") := rfl

/-- LidDescriptorV1: data fields optional. -/
structure LidDescriptorV1 where
  tags : Tags
  named_tags : NamedTags
  x_length : Option ValueWithUnits
  y_length : Option ValueWithUnits
  z_length : Option ValueWithUnits
  stackable : Option Bool
  deriving DecidableEq, Repr

def LidDescriptorV1.toJson (x : LidDescriptorV1) : Json :=
  .obj [("type", .str "Lid"), ("schema_version", .int 1),
    ("tags", dumpList Json.str x.tags),
    ("named_tags", dumpEntries TagValue.toJson x.named_tags),
    ("x_length", dumpOpt ValueWithUnits.toJson x.x_length),
    ("y_length", dumpOpt ValueWithUnits.toJson x.y_length),
    ("z_length", dumpOpt ValueWithUnits.toJson x.z_length),
    ("stackable", dumpOpt Json.bool x.stackable)]

def LidDescriptorV1.parse (j : Json) : Except PErr LidDescriptorV1 :=
  pBind (checkLitStr j "type" "Lid") fun _ =>
  pBind (checkLitInt j "schema_version" 1) fun _ =>
  pBind (parseListFieldDflt Json.asStr j "tags") fun tags =>
  pBind (parseEntriesFieldDflt TagValue.parse j "named_tags") fun named_tags =>
  pBind (parseOptJson ValueWithUnits.parse j "x_length") fun x_length =>
  pBind (parseOptJson ValueWithUnits.parse j "y_length") fun y_length =>
  pBind (parseOptJson ValueWithUnits.parse j "z_length") fun z_length =>
  pBind (parseOptJson Json.asBool j "stackable") fun stackable =>
  .ok ⟨tags, named_tags, x_length, y_length, z_length, stackable⟩

@[simp]
theorem lidDescriptorV1_rt (x : LidDescriptorV1) :
    LidDescriptorV1.parse x.toJson = .ok x := by
  simp [LidDescriptorV1.parse, LidDescriptorV1.toJson, checkLitStr, checkLitInt,
    parseListFieldDflt, parseEntriesFieldDflt, Json.getField, List.lookup,
    dumpList, dumpEntries, parseOptJson, optField,
    nullToNone_dumpOpt ValueWithUnits.toJson, nullToNone_dumpOpt Json.bool,
    parseOptVal_map ValueWithUnits.parse ValueWithUnits.toJson,
    parseOptVal_map Json.asBool Json.bool, Json.asBool]

@[simp]
theorem lidDescriptorV1_ne_null (x : LidDescriptorV1) : x.toJson ≠ .null := by
  simp [LidDescriptorV1.toJson]

@[simp]
theorem lidDescriptorV1_tag (x : LidDescriptorV1) :
    x.toJson.getField "type" = some (.str "Lid") := rfl

/-- WellPlateDescriptionV1 (descriptions/labware/well_plate/v1.py);
lid_offset and lid are the one sanctioned optional pair on a Description. -/
structure WellPlateDescriptionV1 where
  tags : Tags
  named_tags : NamedTags
  x_length : ValueWithUnits
  y_length : ValueWithUnits
  z_length : ValueWithUnits
  grid : GridDescriptionV1
  well : WellDescriptionV1
  lid_offset : Option ValueWithUnits
  lid : Option LidDescriptionV1
  deriving DecidableEq, Repr

/-- The PositiveInt validators reached through the grid. -/
def WellPlateDescriptionV1.validb (x : WellPlateDescriptionV1) : Bool :=
  x.grid.validb

def WellPlateDescriptionV1.toJson (x : WellPlateDescriptionV1) : Json :=
  .obj [("type", .str "WellPlate"), ("schema_version", .int 1),
    ("tags", dumpList Json.str x.tags),
    ("named_tags", dumpEntries TagValue.toJson x.named_tags),
    ("x_length", x.x_length.toJson), ("y_length", x.y_length.toJson),
    ("z_length", x.z_length.toJson),
    ("grid", x.grid.toJson), ("well", x.well.toJson),
    ("lid_offset", dumpOpt ValueWithUnits.toJson x.lid_offset),
    ("lid", dumpOpt LidDescriptionV1.toJson x.lid)]

def WellPlateDescriptionV1.parse (j : Json) : Except PErr WellPlateDescriptionV1 :=
  pBind (checkLitStr j "type" "WellPlate") fun _ =>
  pBind (checkLitInt j "schema_version" 1) fun _ =>
  pBind (parseListFieldDflt Json.asStr j "tags") fun tags =>
  pBind (parseEntriesFieldDflt TagValue.parse j "named_tags") fun named_tags =>
  pBind (parseField ValueWithUnits.parse j "x_length") fun x_length =>
  pBind (parseField ValueWithUnits.parse j "y_length") fun y_length =>
  pBind (parseField ValueWithUnits.parse j "z_length") fun z_length =>
  pBind (parseField GridDescriptionV1.parse j "grid") fun grid =>
  pBind (parseField WellDescriptionV1.parse j "well") fun well =>
  pBind (parseOptJson ValueWithUnits.parse j "lid_offset") fun lid_offset =>
  pBind (parseOptJson LidDescriptionV1.parse j "lid") fun lid =>
  .ok ⟨tags, named_tags, x_length, y_length, z_length, grid, well, lid_offset, lid⟩

@[simp]
theorem wellPlateDescriptionV1_rt (x : WellPlateDescriptionV1)
    (hv : x.validb = true) :
    WellPlateDescriptionV1.parse x.toJson = .ok x := by
  rw [WellPlateDescriptionV1.validb] at hv
  simp [WellPlateDescriptionV1.parse, WellPlateDescriptionV1.toJson, checkLitStr,
    checkLitInt, parseField, reqField, parseListFieldDflt, parseEntriesFieldDflt,
    Json.getField, List.lookup, dumpList, dumpEntries, parseOptJson, optField,
    nullToNone_dumpOpt ValueWithUnits.toJson, nullToNone_dumpOpt LidDescriptionV1.toJson,
    parseOptVal_map ValueWithUnits.parse ValueWithUnits.toJson,
    parseOptVal_map LidDescriptionV1.parse LidDescriptionV1.toJson, hv]

@[simp]
theorem wellPlateDescriptionV1_ne_null (x : WellPlateDescriptionV1) :
    x.toJson ≠ .null := by
  simp [WellPlateDescriptionV1.toJson]

@[simp]
theorem wellPlateDescriptionV1_tag (x : WellPlateDescriptionV1) :
    x.toJson.getField "type" = some (.str "WellPlate") := rfl

/-- WellPlateDescriptorV1: data fields optional. -/
structure WellPlateDescriptorV1 where
  tags : Tags
  named_tags : NamedTags
  x_length : Option ValueWithUnits
  y_length : Option ValueWithUnits
  z_length : Option ValueWithUnits
  grid : Option GridDescriptorV1
  well : Option WellDescriptorV1
  lid_offset : Option ValueWithUnits
  lid : Option LidDescriptorV1
  deriving DecidableEq, Repr

/-- The PositiveInt validators reached through the optional grid. -/
def WellPlateDescriptorV1.validb (x : WellPlateDescriptorV1) : Bool :=
  match x.grid with | none => true | some g => g.validb

def WellPlateDescriptorV1.toJson (x : WellPlateDescriptorV1) : Json :=
  .obj [("type", .str "WellPlate"), ("schema_version", .int 1),
    ("tags", dumpList Json.str x.tags),
    ("named_tags", dumpEntries TagValue.toJson x.named_tags),
    ("x_length", dumpOpt ValueWithUnits.toJson x.x_length),
    ("y_length", dumpOpt ValueWithUnits.toJson x.y_length),
    ("z_length", dumpOpt ValueWithUnits.toJson x.z_length),
    ("grid", dumpOpt GridDescriptorV1.toJson x.grid),
    ("well", dumpOpt WellDescriptorV1.toJson x.well),
    ("lid_offset", dumpOpt ValueWithUnits.toJson x.lid_offset),
    ("lid", dumpOpt LidDescriptorV1.toJson x.lid)]

def WellPlateDescriptorV1.parse (j : Json) : Except PErr WellPlateDescriptorV1 :=
  pBind (checkLitStr j "type" "WellPlate") fun _ =>
  pBind (checkLitInt j "schema_version" 1) fun _ =>
  pBind (parseListFieldDflt Json.asStr j "tags") fun tags =>
  pBind (parseEntriesFieldDflt TagValue.parse j "named_tags") fun named_tags =>
  pBind (parseOptJson ValueWithUnits.parse j "x_length") fun x_length =>
  pBind (parseOptJson ValueWithUnits.parse j "y_length") fun y_length =>
  pBind (parseOptJson ValueWithUnits.parse j "z_length") fun z_length =>
  pBind (parseOptJson GridDescriptorV1.parse j "grid") fun grid =>
  pBind (parseOptJson WellDescriptorV1.parse j "well") fun well =>
  pBind (parseOptJson ValueWithUnits.parse j "lid_offset") fun lid_offset =>
  pBind (parseOptJson LidDescriptorV1.parse j "lid") fun lid =>
  .ok ⟨tags, named_tags, x_length, y_length, z_length, grid, well, lid_offset, lid⟩

@[simp]
theorem wellPlateDescriptorV1_rt (x : WellPlateDescriptorV1)
    (hv : x.validb = true) :
    WellPlateDescriptorV1.parse x.toJson = .ok x := by
  rw [WellPlateDescriptorV1.validb] at hv
  have hg : ∀ g ∈ x.grid, GridDescriptorV1.parse g.toJson = .ok g := by
    intro g hgm
    apply gridDescriptorV1_rt
    cases h : x.grid <;> rw [h] at hv hgm <;> simp_all
  simp [WellPlateDescriptorV1.parse, WellPlateDescriptorV1.toJson, checkLitStr,
    checkLitInt, parseListFieldDflt, parseEntriesFieldDflt, Json.getField, List.lookup,
    dumpList, dumpEntries, parseOptJson, optField,
    nullToNone_dumpOpt ValueWithUnits.toJson, nullToNone_dumpOpt GridDescriptorV1.toJson,
    nullToNone_dumpOpt WellDescriptorV1.toJson, nullToNone_dumpOpt LidDescriptorV1.toJson,
    parseOptVal_map ValueWithUnits.parse ValueWithUnits.toJson,
    parseOptVal_map_of GridDescriptorV1.parse GridDescriptorV1.toJson x.grid hg,
    parseOptVal_map WellDescriptorV1.parse WellDescriptorV1.toJson,
    parseOptVal_map LidDescriptorV1.parse LidDescriptorV1.toJson]

@[simp]
theorem wellPlateDescriptorV1_ne_null (x : WellPlateDescriptorV1) :
    x.toJson ≠ .null := by
  simp [WellPlateDescriptorV1.toJson]

@[simp]
theorem wellPlateDescriptorV1_tag (x : WellPlateDescriptorV1) :
    x.toJson.getField "type" = some (.str "WellPlate") := rfl

/-- PipetteTipBoxDescriptionV2 (descriptions/labware/pipette_tip_box/v2.py);
pipette_tip_layout defaults to PipetteTipLayoutV1.full (8 rows, 12 columns). -/
structure PipetteTipBoxDescriptionV2 where
  tags : Tags
  named_tags : NamedTags
  x_length : ValueWithUnits
  y_length : ValueWithUnits
  z_length : ValueWithUnits
  grid : GridDescriptionV1
  pipette_tip : PipetteTipDescriptionV1
  pipette_tip_layout : PipetteTipLayoutV1
  deriving DecidableEq, Repr

/-- The PositiveInt validators reached through the grid. -/
def PipetteTipBoxDescriptionV2.validb (x : PipetteTipBoxDescriptionV2) : Bool :=
  x.grid.validb

def PipetteTipBoxDescriptionV2.toJson (x : PipetteTipBoxDescriptionV2) : Json :=
  .obj [("type", .str "PipetteTipBox"), ("schema_version", .int 2),
    ("tags", dumpList Json.str x.tags),
    ("named_tags", dumpEntries TagValue.toJson x.named_tags),
    ("x_length", x.x_length.toJson), ("y_length", x.y_length.toJson),
    ("z_length", x.z_length.toJson),
    ("grid", x.grid.toJson), ("pipette_tip", x.pipette_tip.toJson),
    ("pipette_tip_layout", x.pipette_tip_layout.toJson)]

def PipetteTipBoxDescriptionV2.parse (j : Json) : Except PErr PipetteTipBoxDescriptionV2 :=
  pBind (checkLitStr j "type" "PipetteTipBox") fun _ =>
  pBind (checkLitInt j "schema_version" 2) fun _ =>
  pBind (parseListFieldDflt Json.asStr j "tags") fun tags =>
  pBind (parseEntriesFieldDflt TagValue.parse j "named_tags") fun named_tags =>
  pBind (parseField ValueWithUnits.parse j "x_length") fun x_length =>
  pBind (parseField ValueWithUnits.parse j "y_length") fun y_length =>
  pBind (parseField ValueWithUnits.parse j "z_length") fun z_length =>
  pBind (parseField GridDescriptionV1.parse j "grid") fun grid =>
  pBind (parseField PipetteTipDescriptionV1.parse j "pipette_tip") fun pipette_tip =>
  pBind (parseFieldDflt PipetteTipLayoutV1.parse j "pipette_tip_layout"
    (PipetteTipLayoutV1.full 8 12)) fun pipette_tip_layout =>
  .ok ⟨tags, named_tags, x_length, y_length, z_length, grid, pipette_tip,
    pipette_tip_layout⟩

@[simp]
theorem pipetteTipBoxDescriptionV2_rt (x : PipetteTipBoxDescriptionV2)
    (hv : x.validb = true) :
    PipetteTipBoxDescriptionV2.parse x.toJson = .ok x := by
  rw [PipetteTipBoxDescriptionV2.validb] at hv
  simp [PipetteTipBoxDescriptionV2.parse, PipetteTipBoxDescriptionV2.toJson, checkLitStr,
    checkLitInt, parseField, reqField, parseFieldDflt, parseListFieldDflt,
    parseEntriesFieldDflt, Json.getField, List.lookup, dumpList, dumpEntries, hv]

@[simp]
theorem pipetteTipBoxDescriptionV2_ne_null (x : PipetteTipBoxDescriptionV2) :
    x.toJson ≠ .null := by
  simp [PipetteTipBoxDescriptionV2.toJson]

@[simp]
theorem pipetteTipBoxDescriptionV2_tag (x : PipetteTipBoxDescriptionV2) :
    x.toJson.getField "type" = some (.str "PipetteTipBox") := rfl

/-- PipetteTipBoxDescriptorV2: data fields optional. -/
structure PipetteTipBoxDescriptorV2 where
  tags : Tags
  named_tags : NamedTags
  x_length : Option ValueWithUnits
  y_length : Option ValueWithUnits
  z_length : Option ValueWithUnits
  grid : Option GridDescriptorV1
  pipette_tip : Option PipetteTipDescriptorV1
  pipette_tip_layout : Option PipetteTipLayoutV1
  deriving DecidableEq, Repr

/-- The PositiveInt validators reached through the optional grid. -/
def PipetteTipBoxDescriptorV2.validb (x : PipetteTipBoxDescriptorV2) : Bool :=
  match x.grid with | none => true | some g => g.validb

def PipetteTipBoxDescriptorV2.toJson (x : PipetteTipBoxDescriptorV2) : Json :=
  .obj [("type", .str "PipetteTipBox"), ("schema_version", .int 2),
    ("tags", dumpList Json.str x.tags),
    ("named_tags", dumpEntries TagValue.toJson x.named_tags),
    ("x_length", dumpOpt ValueWithUnits.toJson x.x_length),
    ("y_length", dumpOpt ValueWithUnits.toJson x.y_length),
    ("z_length", dumpOpt ValueWithUnits.toJson x.z_length),
    ("grid", dumpOpt GridDescriptorV1.toJson x.grid),
    ("pipette_tip", dumpOpt PipetteTipDescriptorV1.toJson x.pipette_tip),
    ("pipette_tip_layout", dumpOpt PipetteTipLayoutV1.toJson x.pipette_tip_layout)]

def PipetteTipBoxDescriptorV2.parse (j : Json) : Except PErr PipetteTipBoxDescriptorV2 :=
  pBind (checkLitStr j "type" "PipetteTipBox") fun _ =>
  pBind (checkLitInt j "schema_version" 2) fun _ =>
  pBind (parseListFieldDflt Json.asStr j "tags") fun tags =>
  pBind (parseEntriesFieldDflt TagValue.parse j "named_tags") fun named_tags =>
  pBind (parseOptJson ValueWithUnits.parse j "x_length") fun x_length =>
  pBind (parseOptJson ValueWithUnits.parse j "y_length") fun y_length =>
  pBind (parseOptJson ValueWithUnits.parse j "z_length") fun z_length =>
  pBind (parseOptJson GridDescriptorV1.parse j "grid") fun grid =>
  pBind (parseOptJson PipetteTipDescriptorV1.parse j "pipette_tip") fun pipette_tip =>
  pBind (parseOptJson PipetteTipLayoutV1.parse j "pipette_tip_layout") fun
    pipette_tip_layout =>
  .ok ⟨tags, named_tags, x_length, y_length, z_length, grid, pipette_tip,
    pipette_tip_layout⟩

@[simp]
theorem pipetteTipBoxDescriptorV2_rt (x : PipetteTipBoxDescriptorV2)
    (hv : x.validb = true) :
    PipetteTipBoxDescriptorV2.parse x.toJson = .ok x := by
  rw [PipetteTipBoxDescriptorV2.validb] at hv
  have hg : ∀ g ∈ x.grid, GridDescriptorV1.parse g.toJson = .ok g := by
    intro g hgm
    apply gridDescriptorV1_rt
    cases h : x.grid <;> rw [h] at hv hgm <;> simp_all
  simp [PipetteTipBoxDescriptorV2.parse, PipetteTipBoxDescriptorV2.toJson, checkLitStr,
    checkLitInt, parseListFieldDflt, parseEntriesFieldDflt, Json.getField, List.lookup,
    dumpList, dumpEntries, parseOptJson, optField,
    nullToNone_dumpOpt ValueWithUnits.toJson, nullToNone_dumpOpt GridDescriptorV1.toJson,
    nullToNone_dumpOpt PipetteTipDescriptorV1.toJson,
    nullToNone_dumpOpt PipetteTipLayoutV1.toJson,
    parseOptVal_map ValueWithUnits.parse ValueWithUnits.toJson,
    parseOptVal_map_of GridDescriptorV1.parse GridDescriptorV1.toJson x.grid hg,
    parseOptVal_map PipetteTipDescriptorV1.parse PipetteTipDescriptorV1.toJson,
    parseOptVal_map PipetteTipLayoutV1.parse PipetteTipLayoutV1.toJson]

@[simp]
theorem pipetteTipBoxDescriptorV2_ne_null (x : PipetteTipBoxDescriptorV2) :
    x.toJson ≠ .null := by
  simp [PipetteTipBoxDescriptorV2.toJson]

@[simp]
theorem pipetteTipBoxDescriptorV2_tag (x : PipetteTipBoxDescriptorV2) :
    x.toJson.getField "type" = some (.str "PipetteTipBox") := rfl

/-- TubeHolderDescriptionV1 (descriptions/labware/tube_holder/v1.py). -/
structure TubeHolderDescriptionV1 where
  tags : Tags
  named_tags : NamedTags
  x_length : ValueWithUnits
  y_length : ValueWithUnits
  z_length : ValueWithUnits
  grid : GridDescriptionV1
  tube : TubeDescriptionV1
  deriving DecidableEq, Repr

/-- The PositiveInt validators reached through the grid. -/
def TubeHolderDescriptionV1.validb (x : TubeHolderDescriptionV1) : Bool :=
  x.grid.validb

def TubeHolderDescriptionV1.toJson (x : TubeHolderDescriptionV1) : Json :=
  .obj [("type", .str "TubeHolder"), ("schema_version", .int 1),
    ("tags", dumpList Json.str x.tags),
    ("named_tags", dumpEntries TagValue.toJson x.named_tags),
    ("x_length", x.x_length.toJson), ("y_length", x.y_length.toJson),
    ("z_length", x.z_length.toJson),
    ("grid", x.grid.toJson), ("tube", x.tube.toJson)]

def TubeHolderDescriptionV1.parse (j : Json) : Except PErr TubeHolderDescriptionV1 :=
  pBind (checkLitStr j "type" "TubeHolder") fun _ =>
  pBind (checkLitInt j "schema_version" 1) fun _ =>
  pBind (parseListFieldDflt Json.asStr j "tags") fun tags =>
  pBind (parseEntriesFieldDflt TagValue.parse j "named_tags") fun named_tags =>
  pBind (parseField ValueWithUnits.parse j "x_length") fun x_length =>
  pBind (parseField ValueWithUnits.parse j "y_length") fun y_length =>
  pBind (parseField ValueWithUnits.parse j "z_length") fun z_length =>
  pBind (parseField GridDescriptionV1.parse j "grid") fun grid =>
  pBind (parseField TubeDescriptionV1.parse j "tube") fun tube =>
  .ok ⟨tags, named_tags, x_length, y_length, z_length, grid, tube⟩

@[simp]
theorem tubeHolderDescriptionV1_rt (x : TubeHolderDescriptionV1)
    (hv : x.validb = true) :
    TubeHolderDescriptionV1.parse x.toJson = .ok x := by
  rw [TubeHolderDescriptionV1.validb] at hv
  simp [TubeHolderDescriptionV1.parse, TubeHolderDescriptionV1.toJson, checkLitStr,
    checkLitInt, parseField, reqField, parseListFieldDflt, parseEntriesFieldDflt,
    Json.getField, List.lookup, dumpList, dumpEntries, hv]

@[simp]
theorem tubeHolderDescriptionV1_ne_null (x : TubeHolderDescriptionV1) :
    x.toJson ≠ .null := by
  simp [TubeHolderDescriptionV1.toJson]

@[simp]
theorem tubeHolderDescriptionV1_tag (x : TubeHolderDescriptionV1) :
    x.toJson.getField "type" = some (.str "TubeHolder") := rfl

/-- TubeHolderDescriptorV1: data fields optional. -/
structure TubeHolderDescriptorV1 where
  tags : Tags
  named_tags : NamedTags
  x_length : Option ValueWithUnits
  y_length : Option ValueWithUnits
  z_length : Option ValueWithUnits
  grid : Option GridDescriptorV1
  tube : Option TubeDescriptorV1
  deriving DecidableEq, Repr

/-- The PositiveInt validators reached through the optional grid. -/
def TubeHolderDescriptorV1.validb (x : TubeHolderDescriptorV1) : Bool :=
  match x.grid with | none => true | some g => g.validb

def TubeHolderDescriptorV1.toJson (x : TubeHolderDescriptorV1) : Json :=
  .obj [("type", .str "TubeHolder"), ("schema_version", .int 1),
    ("tags", dumpList Json.str x.tags),
    ("named_tags", dumpEntries TagValue.toJson x.named_tags),
    ("x_length", dumpOpt ValueWithUnits.toJson x.x_length),
    ("y_length", dumpOpt ValueWithUnits.toJson x.y_length),
    ("z_length", dumpOpt ValueWithUnits.toJson x.z_length),
    ("grid", dumpOpt GridDescriptorV1.toJson x.grid),
    ("tube", dumpOpt TubeDescriptorV1.toJson x.tube)]

def TubeHolderDescriptorV1.parse (j : Json) : Except PErr TubeHolderDescriptorV1 :=
  pBind (checkLitStr j "type" "TubeHolder") fun _ =>
  pBind (checkLitInt j "schema_version" 1) fun _ =>
  pBind (parseListFieldDflt Json.asStr j "tags") fun tags =>
  pBind (parseEntriesFieldDflt TagValue.parse j "named_tags") fun named_tags =>
  pBind (parseOptJson ValueWithUnits.parse j "x_length") fun x_length =>
  pBind (parseOptJson ValueWithUnits.parse j "y_length") fun y_length =>
  pBind (parseOptJson ValueWithUnits.parse j "z_length") fun z_length =>
  pBind (parseOptJson GridDescriptorV1.parse j "grid") fun grid =>
  pBind (parseOptJson TubeDescriptorV1.parse j "tube") fun tube =>
  .ok ⟨tags, named_tags, x_length, y_length, z_length, grid, tube⟩

@[simp]
theorem tubeHolderDescriptorV1_rt (x : TubeHolderDescriptorV1)
    (hv : x.validb = true) :
    TubeHolderDescriptorV1.parse x.toJson = .ok x := by
  rw [TubeHolderDescriptorV1.validb] at hv
  have hg : ∀ g ∈ x.grid, GridDescriptorV1.parse g.toJson = .ok g := by
    intro g hgm
    apply gridDescriptorV1_rt
    cases h : x.grid <;> rw [h] at hv hgm <;> simp_all
  simp [TubeHolderDescriptorV1.parse, TubeHolderDescriptorV1.toJson, checkLitStr,
    checkLitInt, parseListFieldDflt, parseEntriesFieldDflt, Json.getField, List.lookup,
    dumpList, dumpEntries, parseOptJson, optField,
    nullToNone_dumpOpt ValueWithUnits.toJson, nullToNone_dumpOpt GridDescriptorV1.toJson,
    nullToNone_dumpOpt TubeDescriptorV1.toJson,
    parseOptVal_map ValueWithUnits.parse ValueWithUnits.toJson,
    parseOptVal_map_of GridDescriptorV1.parse GridDescriptorV1.toJson x.grid hg,
    parseOptVal_map TubeDescriptorV1.parse TubeDescriptorV1.toJson]

@[simp]
theorem tubeHolderDescriptorV1_ne_null (x : TubeHolderDescriptorV1) :
    x.toJson ≠ .null := by
  simp [TubeHolderDescriptorV1.toJson]

@[simp]
theorem tubeHolderDescriptorV1_tag (x : TubeHolderDescriptorV1) :
    x.toJson.getField "type" = some (.str "TubeHolder") := rfl

/-- TrashDescriptionV1 (descriptions/labware/trash/v1.py). -/
structure TrashDescriptionV1 where
  tags : Tags
  named_tags : NamedTags
  x_length : ValueWithUnits
  y_length : ValueWithUnits
  z_length : ValueWithUnits
  well : WellDescriptionV1
  deriving DecidableEq, Repr

def TrashDescriptionV1.toJson (x : TrashDescriptionV1) : Json :=
  .obj [("type", .str "Trash"), ("schema_version", .int 1),
    ("tags", dumpList Json.str x.tags),
    ("named_tags", dumpEntries TagValue.toJson x.named_tags),
    ("x_length", x.x_length.toJson), ("y_length", x.y_length.toJson),
    ("z_length", x.z_length.toJson), ("well", x.well.toJson)]

def TrashDescriptionV1.parse (j : Json) : Except PErr TrashDescriptionV1 :=
  pBind (checkLitStr j "type" "Trash") fun _ =>
  pBind (checkLitInt j "schema_version" 1) fun _ =>
  pBind (parseListFieldDflt Json.asStr j "tags") fun tags =>
  pBind (parseEntriesFieldDflt TagValue.parse j "named_tags") fun named_tags =>
  pBind (parseField ValueWithUnits.parse j "x_length") fun x_length =>
  pBind (parseField ValueWithUnits.parse j "y_length") fun y_length =>
  pBind (parseField ValueWithUnits.parse j "z_length") fun z_length =>
  pBind (parseField WellDescriptionV1.parse j "well") fun well =>
  .ok ⟨tags, named_tags, x_length, y_length, z_length, well⟩

@[simp]
theorem trashDescriptionV1_rt (x : TrashDescriptionV1) :
    TrashDescriptionV1.parse x.toJson = .ok x := by
  simp [TrashDescriptionV1.parse, TrashDescriptionV1.toJson, checkLitStr, checkLitInt,
    parseField, reqField, parseListFieldDflt, parseEntriesFieldDflt,
    Json.getField, List.lookup, dumpList, dumpEntries]

@[simp]
theorem trashDescriptionV1_ne_null (x : TrashDescriptionV1) : x.toJson ≠ .null := by
  simp [TrashDescriptionV1.toJson]

@[simp]
theorem trashDescriptionV1_tag (x : TrashDescriptionV1) :
    x.toJson.getField "type" = some (.str "Trash") := rfl

/-- TrashDescriptorV1: data fields optional. -/
structure TrashDescriptorV1 where
  tags : Tags
  named_tags : NamedTags
  x_length : Option ValueWithUnits
  y_length : Option ValueWithUnits
  z_length : Option ValueWithUnits
  well : Option WellDescriptorV1
  deriving DecidableEq, Repr

def TrashDescriptorV1.toJson (x : TrashDescriptorV1) : Json :=
  .obj [("type", .str "Trash"), ("schema_version", .int 1),
    ("tags", dumpList Json.str x.tags),
    ("named_tags", dumpEntries TagValue.toJson x.named_tags),
    ("x_length", dumpOpt ValueWithUnits.toJson x.x_length),
    ("y_length", dumpOpt ValueWithUnits.toJson x.y_length),
    ("z_length", dumpOpt ValueWithUnits.toJson x.z_length),
    ("well", dumpOpt WellDescriptorV1.toJson x.well)]

def TrashDescriptorV1.parse (j : Json) : Except PErr TrashDescriptorV1 :=
  pBind (checkLitStr j "type" "Trash") fun _ =>
  pBind (checkLitInt j "schema_version" 1) fun _ =>
  pBind (parseListFieldDflt Json.asStr j "tags") fun tags =>
  pBind (parseEntriesFieldDflt TagValue.parse j "named_tags") fun named_tags =>
  pBind (parseOptJson ValueWithUnits.parse j "x_length") fun x_length =>
  pBind (parseOptJson ValueWithUnits.parse j "y_length") fun y_length =>
  pBind (parseOptJson ValueWithUnits.parse j "z_length") fun z_length =>
  pBind (parseOptJson WellDescriptorV1.parse j "well") fun well =>
  .ok ⟨tags, named_tags, x_length, y_length, z_length, well⟩

@[simp]
theorem trashDescriptorV1_rt (x : TrashDescriptorV1) :
    TrashDescriptorV1.parse x.toJson = .ok x := by
  simp [TrashDescriptorV1.parse, TrashDescriptorV1.toJson, checkLitStr, checkLitInt,
    parseListFieldDflt, parseEntriesFieldDflt, Json.getField, List.lookup,
    dumpList, dumpEntries, parseOptJson, optField,
    nullToNone_dumpOpt ValueWithUnits.toJson, nullToNone_dumpOpt WellDescriptorV1.toJson,
    parseOptVal_map ValueWithUnits.parse ValueWithUnits.toJson,
    parseOptVal_map WellDescriptorV1.parse WellDescriptorV1.toJson]

@[simp]
theorem trashDescriptorV1_ne_null (x : TrashDescriptorV1) : x.toJson ≠ .null := by
  simp [TrashDescriptorV1.toJson]

@[simp]
theorem trashDescriptorV1_tag (x : TrashDescriptorV1) :
    x.toJson.getField "type" = some (.str "Trash") := rfl

/-- LabwareDescription discriminated union (descriptions/labware/union.py). -/
inductive LabwareDescription where
  | lid (l : LidDescriptionV1) : LabwareDescription
  | box (b : PipetteTipBoxDescriptionV2) : LabwareDescription
  | trash (t : TrashDescriptionV1) : LabwareDescription
  | tubeHolder (h : TubeHolderDescriptionV1) : LabwareDescription
  | wellPlate (p : WellPlateDescriptionV1) : LabwareDescription
  deriving DecidableEq, Repr

/-- The PositiveInt validators of the chosen member. -/
def LabwareDescription.validb : LabwareDescription → Bool
  | .lid _ => true
  | .box b => b.validb
  | .trash _ => true
  | .tubeHolder h => h.validb
  | .wellPlate p => p.validb

def LabwareDescription.toJson : LabwareDescription → Json
  | .lid l => l.toJson
  | .box b => b.toJson
  | .trash t => t.toJson
  | .tubeHolder h => h.toJson
  | .wellPlate p => p.toJson

def LabwareDescription.parse (j : Json) : Except PErr LabwareDescription :=
  match j.getField "type" with
  | some (.str "Lid") => pBind (LidDescriptionV1.parse j) fun l => .ok (.lid l)
  | some (.str "PipetteTipBox") =>
    pBind (PipetteTipBoxDescriptionV2.parse j) fun b => .ok (.box b)
  | some (.str "Trash") => pBind (TrashDescriptionV1.parse j) fun t => .ok (.trash t)
  | some (.str "TubeHolder") =>
    pBind (TubeHolderDescriptionV1.parse j) fun h => .ok (.tubeHolder h)
  | some (.str "WellPlate") =>
    pBind (WellPlateDescriptionV1.parse j) fun p => .ok (.wellPlate p)
  | _ => .error .validation

@[simp]
theorem labwareDescription_rt (x : LabwareDescription) (hv : x.validb = true) :
    LabwareDescription.parse x.toJson = .ok x := by
  cases x <;>
    simp_all [LabwareDescription.parse, LabwareDescription.toJson,
      LabwareDescription.validb]

@[simp]
theorem labwareDescription_ne_null (x : LabwareDescription) : x.toJson ≠ .null := by
  cases x <;> simp [LabwareDescription.toJson]

/-- LabwareDescriptor discriminated union. -/
inductive LabwareDescriptor where
  | lid (l : LidDescriptorV1) : LabwareDescriptor
  | box (b : PipetteTipBoxDescriptorV2) : LabwareDescriptor
  | trash (t : TrashDescriptorV1) : LabwareDescriptor
  | tubeHolder (h : TubeHolderDescriptorV1) : LabwareDescriptor
  | wellPlate (p : WellPlateDescriptorV1) : LabwareDescriptor
  deriving DecidableEq, Repr

/-- The PositiveInt validators of the chosen member. -/
def LabwareDescriptor.validb : LabwareDescriptor → Bool
  | .lid _ => true
  | .box b => b.validb
  | .trash _ => true
  | .tubeHolder h => h.validb
  | .wellPlate p => p.validb

def LabwareDescriptor.toJson : LabwareDescriptor → Json
  | .lid l => l.toJson
  | .box b => b.toJson
  | .trash t => t.toJson
  | .tubeHolder h => h.toJson
  | .wellPlate p => p.toJson

def LabwareDescriptor.parse (j : Json) : Except PErr LabwareDescriptor :=
  match j.getField "type" with
  | some (.str "Lid") => pBind (LidDescriptorV1.parse j) fun l => .ok (.lid l)
  | some (.str "PipetteTipBox") =>
    pBind (PipetteTipBoxDescriptorV2.parse j) fun b => .ok (.box b)
  | some (.str "Trash") => pBind (TrashDescriptorV1.parse j) fun t => .ok (.trash t)
  | some (.str "TubeHolder") =>
    pBind (TubeHolderDescriptorV1.parse j) fun h => .ok (.tubeHolder h)
  | some (.str "WellPlate") =>
    pBind (WellPlateDescriptorV1.parse j) fun p => .ok (.wellPlate p)
  | _ => .error .validation

@[simp]
theorem labwareDescriptor_rt (x : LabwareDescriptor) (hv : x.validb = true) :
    LabwareDescriptor.parse x.toJson = .ok x := by
  cases x <;>
    simp_all [LabwareDescriptor.parse, LabwareDescriptor.toJson, LabwareDescriptor.validb]

@[simp]
theorem labwareDescriptor_ne_null (x : LabwareDescriptor) : x.toJson ≠ .null := by
  cases x <;> simp [LabwareDescriptor.toJson]

/-- SingleChannelPipetteDescriptorV1 (descriptions/tool/pipette/...): serial
number plus the BasePipetteDescriptor volume and speed bounds, all optional. -/
structure SingleChannelPipetteDescriptorV1 where
  serial_number : Option String
  min_volume : Option ValueWithUnits
  max_volume : Option ValueWithUnits
  max_speed : Option ValueWithUnits
  deriving DecidableEq, Repr

def SingleChannelPipetteDescriptorV1.toJson (x : SingleChannelPipetteDescriptorV1) : Json :=
  .obj [("type", .str "SingleChannelPipette"), ("schema_version", .int 1),
    ("serial_number", dumpOpt Json.str x.serial_number),
    ("min_volume", dumpOpt ValueWithUnits.toJson x.min_volume),
    ("max_volume", dumpOpt ValueWithUnits.toJson x.max_volume),
    ("max_speed", dumpOpt ValueWithUnits.toJson x.max_speed)]

def SingleChannelPipetteDescriptorV1.parse (j : Json) :
    Except PErr SingleChannelPipetteDescriptorV1 :=
  pBind (checkLitStr j "type" "SingleChannelPipette") fun _ =>
  pBind (checkLitInt j "schema_version" 1) fun _ =>
  pBind (parseOptJson Json.asStr j "serial_number") fun serial_number =>
  pBind (parseOptJson ValueWithUnits.parse j "min_volume") fun min_volume =>
  pBind (parseOptJson ValueWithUnits.parse j "max_volume") fun max_volume =>
  pBind (parseOptJson ValueWithUnits.parse j "max_speed") fun max_speed =>
  .ok ⟨serial_number, min_volume, max_volume, max_speed⟩

@[simp]
theorem singleChannelPipetteDescriptorV1_rt (x : SingleChannelPipetteDescriptorV1) :
    SingleChannelPipetteDescriptorV1.parse x.toJson = .ok x := by
  simp [SingleChannelPipetteDescriptorV1.parse, SingleChannelPipetteDescriptorV1.toJson,
    checkLitStr, checkLitInt, Json.getField, List.lookup, parseOptJson, optField,
    nullToNone_dumpOpt Json.str, nullToNone_dumpOpt ValueWithUnits.toJson,
    parseOptVal_map Json.asStr Json.str,
    parseOptVal_map ValueWithUnits.parse ValueWithUnits.toJson, Json.asStr]

@[simp]
theorem singleChannelPipetteDescriptorV1_ne_null (x : SingleChannelPipetteDescriptorV1) :
    x.toJson ≠ .null := by
  simp [SingleChannelPipetteDescriptorV1.toJson]

@[simp]
theorem singleChannelPipetteDescriptorV1_tag (x : SingleChannelPipetteDescriptorV1) :
    x.toJson.getField "type" = some (.str "SingleChannelPipette") := rfl

/-- EightChannelPipetteDescriptorV1. -/
structure EightChannelPipetteDescriptorV1 where
  serial_number : Option String
  min_volume : Option ValueWithUnits
  max_volume : Option ValueWithUnits
  max_speed : Option ValueWithUnits
  deriving DecidableEq, Repr

def EightChannelPipetteDescriptorV1.toJson (x : EightChannelPipetteDescriptorV1) : Json :=
  .obj [("type", .str "EightChannelPipette"), ("schema_version", .int 1),
    ("serial_number", dumpOpt Json.str x.serial_number),
    ("min_volume", dumpOpt ValueWithUnits.toJson x.min_volume),
    ("max_volume", dumpOpt ValueWithUnits.toJson x.max_volume),
    ("max_speed", dumpOpt ValueWithUnits.toJson x.max_speed)]

def EightChannelPipetteDescriptorV1.parse (j : Json) :
    Except PErr EightChannelPipetteDescriptorV1 :=
  pBind (checkLitStr j "type" "EightChannelPipette") fun _ =>
  pBind (checkLitInt j "schema_version" 1) fun _ =>
  pBind (parseOptJson Json.asStr j "serial_number") fun serial_number =>
  pBind (parseOptJson ValueWithUnits.parse j "min_volume") fun min_volume =>
  pBind (parseOptJson ValueWithUnits.parse j "max_volume") fun max_volume =>
  pBind (parseOptJson ValueWithUnits.parse j "max_speed") fun max_speed =>
  .ok ⟨serial_number, min_volume, max_volume, max_speed⟩

@[simp]
theorem eightChannelPipetteDescriptorV1_rt (x : EightChannelPipetteDescriptorV1) :
    EightChannelPipetteDescriptorV1.parse x.toJson = .ok x := by
  simp [EightChannelPipetteDescriptorV1.parse, EightChannelPipetteDescriptorV1.toJson,
    checkLitStr, checkLitInt, Json.getField, List.lookup, parseOptJson, optField,
    nullToNone_dumpOpt Json.str, nullToNone_dumpOpt ValueWithUnits.toJson,
    parseOptVal_map Json.asStr Json.str,
    parseOptVal_map ValueWithUnits.parse ValueWithUnits.toJson, Json.asStr]

@[simp]
theorem eightChannelPipetteDescriptorV1_ne_null (x : EightChannelPipetteDescriptorV1) :
    x.toJson ≠ .null := by
  simp [EightChannelPipetteDescriptorV1.toJson]

@[simp]
theorem eightChannelPipetteDescriptorV1_tag (x : EightChannelPipetteDescriptorV1) :
    x.toJson.getField "type" = some (.str "EightChannelPipette") := rfl

/-- ProbeDescriptorV1: serial number only. -/
structure ProbeDescriptorV1 where
  serial_number : Option String
  deriving DecidableEq, Repr

def ProbeDescriptorV1.toJson (x : ProbeDescriptorV1) : Json :=
  .obj [("type", .str "Probe"), ("schema_version", .int 1),
    ("serial_number", dumpOpt Json.str x.serial_number)]

def ProbeDescriptorV1.parse (j : Json) : Except PErr ProbeDescriptorV1 :=
  pBind (checkLitStr j "type" "Probe") fun _ =>
  pBind (checkLitInt j "schema_version" 1) fun _ =>
  pBind (parseOptJson Json.asStr j "serial_number") fun serial_number =>
  .ok ⟨serial_number⟩

@[simp]
theorem probeDescriptorV1_rt (x : ProbeDescriptorV1) :
    ProbeDescriptorV1.parse x.toJson = .ok x := by
  simp [ProbeDescriptorV1.parse, ProbeDescriptorV1.toJson, checkLitStr, checkLitInt,
    Json.getField, List.lookup, parseOptJson, optField, nullToNone_dumpOpt Json.str,
    parseOptVal_map Json.asStr Json.str, Json.asStr]

@[simp]
theorem probeDescriptorV1_ne_null (x : ProbeDescriptorV1) : x.toJson ≠ .null := by
  simp [ProbeDescriptorV1.toJson]

@[simp]
theorem probeDescriptorV1_tag (x : ProbeDescriptorV1) :
    x.toJson.getField "type" = some (.str "Probe") := rfl

/-- GripperDescriptorV1: serial number only. -/
structure GripperDescriptorV1 where
  serial_number : Option String
  deriving DecidableEq, Repr

def GripperDescriptorV1.toJson (x : GripperDescriptorV1) : Json :=
  .obj [("type", .str "Gripper"), ("schema_version", .int 1),
    ("serial_number", dumpOpt Json.str x.serial_number)]

def GripperDescriptorV1.parse (j : Json) : Except PErr GripperDescriptorV1 :=
  pBind (checkLitStr j "type" "Gripper") fun _ =>
  pBind (checkLitInt j "schema_version" 1) fun _ =>
  pBind (parseOptJson Json.asStr j "serial_number") fun serial_number =>
  .ok ⟨serial_number⟩

@[simp]
theorem gripperDescriptorV1_rt (x : GripperDescriptorV1) :
    GripperDescriptorV1.parse x.toJson = .ok x := by
  simp [GripperDescriptorV1.parse, GripperDescriptorV1.toJson, checkLitStr, checkLitInt,
    Json.getField, List.lookup, parseOptJson, optField, nullToNone_dumpOpt Json.str,
    parseOptVal_map Json.asStr Json.str, Json.asStr]

@[simp]
theorem gripperDescriptorV1_ne_null (x : GripperDescriptorV1) : x.toJson ≠ .null := by
  simp [GripperDescriptorV1.toJson]

@[simp]
theorem gripperDescriptorV1_tag (x : GripperDescriptorV1) :
    x.toJson.getField "type" = some (.str "Gripper") := rfl

/-- ToolDescriptor discriminated union (descriptions/tool/union.py). -/
inductive ToolDescriptor where
  | single (s : SingleChannelPipetteDescriptorV1) : ToolDescriptor
  | eight (e : EightChannelPipetteDescriptorV1) : ToolDescriptor
  | probe (p : ProbeDescriptorV1) : ToolDescriptor
  | gripper (g : GripperDescriptorV1) : ToolDescriptor
  deriving DecidableEq, Repr

def ToolDescriptor.toJson : ToolDescriptor → Json
  | .single s => s.toJson
  | .eight e => e.toJson
  | .probe p => p.toJson
  | .gripper g => g.toJson

def ToolDescriptor.parse (j : Json) : Except PErr ToolDescriptor :=
  match j.getField "type" with
  | some (.str "SingleChannelPipette") =>
    pBind (SingleChannelPipetteDescriptorV1.parse j) fun s => .ok (.single s)
  | some (.str "EightChannelPipette") =>
    pBind (EightChannelPipetteDescriptorV1.parse j) fun e => .ok (.eight e)
  | some (.str "Probe") => pBind (ProbeDescriptorV1.parse j) fun p => .ok (.probe p)
  | some (.str "Gripper") => pBind (GripperDescriptorV1.parse j) fun g => .ok (.gripper g)
  | _ => .error .validation

@[simp]
theorem toolDescriptor_rt (x : ToolDescriptor) :
    ToolDescriptor.parse x.toJson = .ok x := by
  cases x <;> simp [ToolDescriptor.parse, ToolDescriptor.toJson]

@[simp]
theorem toolDescriptor_ne_null (x : ToolDescriptor) : x.toJson ≠ .null := by
  cases x <;> simp [ToolDescriptor.toJson]

/-- ToolHolderDescriptorV1 (descriptions/tool_holder/v1.py): literals only. -/
structure ToolHolderDescriptorV1 where
  deriving DecidableEq, Repr

def ToolHolderDescriptorV1.toJson (_ : ToolHolderDescriptorV1) : Json :=
  .obj [("type", .str "ToolHolder"), ("schema_version", .int 1)]

def ToolHolderDescriptorV1.parse (j : Json) : Except PErr ToolHolderDescriptorV1 :=
  pBind (checkLitStr j "type" "ToolHolder") fun _ =>
  pBind (checkLitInt j "schema_version" 1) fun _ =>
  .ok ⟨⟩

@[simp]
theorem toolHolderDescriptorV1_rt (x : ToolHolderDescriptorV1) :
    ToolHolderDescriptorV1.parse x.toJson = .ok x := rfl

@[simp]
theorem toolHolderDescriptorV1_ne_null (x : ToolHolderDescriptorV1) :
    x.toJson ≠ .null := by
  simp [ToolHolderDescriptorV1.toJson]

/-- LabwareHolderDescriptorV1 (descriptions/labware_holder/v1.py): literals
only. -/
structure LabwareHolderDescriptorV1 where
  deriving DecidableEq, Repr

def LabwareHolderDescriptorV1.toJson (_ : LabwareHolderDescriptorV1) : Json :=
  .obj [("type", .str "LabwareHolder"), ("schema_version", .int 1)]

def LabwareHolderDescriptorV1.parse (j : Json) : Except PErr LabwareHolderDescriptorV1 :=
  pBind (checkLitStr j "type" "LabwareHolder") fun _ =>
  pBind (checkLitInt j "schema_version" 1) fun _ =>
  .ok ⟨⟩

@[simp]
theorem labwareHolderDescriptorV1_rt (x : LabwareHolderDescriptorV1) :
    LabwareHolderDescriptorV1.parse x.toJson = .ok x := rfl

@[simp]
theorem labwareHolderDescriptorV1_ne_null (x : LabwareHolderDescriptorV1) :
    x.toJson ≠ .null := by
  simp [LabwareHolderDescriptorV1.toJson]

/-- RobotDescriptorV1 (descriptions/robot/v1.py): serial number plus three
keyed maps of attached hardware. -/
structure RobotDescriptorV1 where
  serial_number : Option String
  tools : List (String × ToolDescriptor)
  tool_holders : List (String × ToolHolderDescriptorV1)
  labware_holders : List (String × LabwareHolderDescriptorV1)
  deriving DecidableEq, Repr

def RobotDescriptorV1.toJson (x : RobotDescriptorV1) : Json :=
  .obj [("type", .str "Robot"), ("schema_version", .int 1),
    ("serial_number", dumpOpt Json.str x.serial_number),
    ("tools", dumpEntries ToolDescriptor.toJson x.tools),
    ("tool_holders", dumpEntries ToolHolderDescriptorV1.toJson x.tool_holders),
    ("labware_holders", dumpEntries LabwareHolderDescriptorV1.toJson x.labware_holders)]

def RobotDescriptorV1.parse (j : Json) : Except PErr RobotDescriptorV1 :=
  pBind (checkLitStr j "type" "Robot") fun _ =>
  pBind (checkLitInt j "schema_version" 1) fun _ =>
  pBind (parseOptJson Json.asStr j "serial_number") fun serial_number =>
  pBind (parseEntriesFieldDflt ToolDescriptor.parse j "tools") fun tools =>
  pBind (parseEntriesFieldDflt ToolHolderDescriptorV1.parse j "tool_holders") fun
    tool_holders =>
  pBind (parseEntriesFieldDflt LabwareHolderDescriptorV1.parse j "labware_holders") fun
    labware_holders =>
  .ok ⟨serial_number, tools, tool_holders, labware_holders⟩

@[simp]
theorem robotDescriptorV1_rt (x : RobotDescriptorV1) :
    RobotDescriptorV1.parse x.toJson = .ok x := by
  simp [RobotDescriptorV1.parse, RobotDescriptorV1.toJson, checkLitStr, checkLitInt,
    Json.getField, List.lookup, parseOptJson, optField, nullToNone_dumpOpt Json.str,
    parseOptVal_map Json.asStr Json.str, Json.asStr,
    parseEntriesFieldDflt, dumpEntries,
    parseEntries_map ToolDescriptor.parse ToolDescriptor.toJson,
    parseEntries_map ToolHolderDescriptorV1.parse ToolHolderDescriptorV1.toJson,
    parseEntries_map LabwareHolderDescriptorV1.parse LabwareHolderDescriptorV1.toJson]

@[simp]
theorem robotDescriptorV1_ne_null (x : RobotDescriptorV1) : x.toJson ≠ .null := by
  simp [RobotDescriptorV1.toJson]

/-- PipetteTipGroupDescriptorV1 (descriptions/pipette_tip_group/v1.py). -/
structure PipetteTipGroupDescriptorV1 where
  row_count : Int
  column_count : Int
  pipette_tip_tags : Tags
  pipette_tip_named_tags : NamedTags
  deriving DecidableEq, Repr

/-- The PositiveInt validators of PipetteTipGroupDescriptorV1. -/
def PipetteTipGroupDescriptorV1.validb (x : PipetteTipGroupDescriptorV1) : Bool :=
  decide (0 < x.row_count) && decide (0 < x.column_count)

def PipetteTipGroupDescriptorV1.toJson (x : PipetteTipGroupDescriptorV1) : Json :=
  .obj [("type", .str "PipetteTipGroup"), ("schema_version", .int 1),
    ("row_count", .int x.row_count), ("column_count", .int x.column_count),
    ("pipette_tip_tags", dumpList Json.str x.pipette_tip_tags),
    ("pipette_tip_named_tags", dumpEntries TagValue.toJson x.pipette_tip_named_tags)]

def PipetteTipGroupDescriptorV1.parse (j : Json) : Except PErr PipetteTipGroupDescriptorV1 :=
  pBind (checkLitStr j "type" "PipetteTipGroup") fun _ =>
  pBind (checkLitInt j "schema_version" 1) fun _ =>
  pBind (parseField Json.asPosInt j "row_count") fun row_count =>
  pBind (parseField Json.asPosInt j "column_count") fun column_count =>
  pBind (parseListFieldDflt Json.asStr j "pipette_tip_tags") fun pipette_tip_tags =>
  pBind (parseEntriesFieldDflt TagValue.parse j "pipette_tip_named_tags") fun
    pipette_tip_named_tags =>
  .ok ⟨row_count, column_count, pipette_tip_tags, pipette_tip_named_tags⟩

@[simp]
theorem pipetteTipGroupDescriptorV1_rt (x : PipetteTipGroupDescriptorV1)
    (hv : x.validb = true) :
    PipetteTipGroupDescriptorV1.parse x.toJson = .ok x := by
  rw [PipetteTipGroupDescriptorV1.validb, Bool.and_eq_true, decide_eq_true_eq,
    decide_eq_true_eq] at hv
  simp [PipetteTipGroupDescriptorV1.parse, PipetteTipGroupDescriptorV1.toJson,
    checkLitStr, checkLitInt, parseField, reqField, parseListFieldDflt,
    parseEntriesFieldDflt, Json.getField, List.lookup, dumpList, dumpEntries,
    Json.asPosInt, hv.1, hv.2]

@[simp]
theorem pipetteTipGroupDescriptorV1_ne_null (x : PipetteTipGroupDescriptorV1) :
    x.toJson ≠ .null := by
  simp [PipetteTipGroupDescriptorV1.toJson]

/-- LabwareHolderNameV1 (labware_holder/labware_holder_name/v1.py). -/
structure LabwareHolderNameV1 where
  robot_id : String
  name : String
  deriving DecidableEq, Repr

def LabwareHolderNameV1.toJson (x : LabwareHolderNameV1) : Json :=
  .obj [("type", .str "LabwareHolderName"), ("schema_version", .int 1),
    ("robot_id", .str x.robot_id), ("name", .str x.name)]

def LabwareHolderNameV1.parse (j : Json) : Except PErr LabwareHolderNameV1 :=
  pBind (checkLitStr j "type" "LabwareHolderName") fun _ =>
  pBind (checkLitInt j "schema_version" 1) fun _ =>
  pBind (parseField Json.asStr j "robot_id") fun robot_id =>
  pBind (parseField Json.asStr j "name") fun name =>
  .ok ⟨robot_id, name⟩

@[simp]
theorem labwareHolderNameV1_rt (x : LabwareHolderNameV1) :
    LabwareHolderNameV1.parse x.toJson = .ok x := rfl

@[simp]
theorem labwareHolderNameV1_tag (x : LabwareHolderNameV1) :
    x.toJson.getField "type" = some (.str "LabwareHolderName") := rfl

/-- LabwareIdV1 (labware_holder/labware_id/v1.py). -/
structure LabwareIdV1 where
  id : String
  deriving DecidableEq, Repr

def LabwareIdV1.toJson (x : LabwareIdV1) : Json :=
  .obj [("type", .str "LabwareId"), ("schema_version", .int 1), ("id", .str x.id)]

def LabwareIdV1.parse (j : Json) : Except PErr LabwareIdV1 :=
  pBind (checkLitStr j "type" "LabwareId") fun _ =>
  pBind (checkLitInt j "schema_version" 1) fun _ =>
  pBind (parseField Json.asStr j "id") fun id =>
  .ok ⟨id⟩

@[simp]
theorem labwareIdV1_rt (x : LabwareIdV1) : LabwareIdV1.parse x.toJson = .ok x := rfl

@[simp]
theorem labwareIdV1_tag (x : LabwareIdV1) :
    x.toJson.getField "type" = some (.str "LabwareId") := rfl

/-- LabwareHolder discriminated union (labware_holder/union.py). -/
inductive LabwareHolder where
  | byName (n : LabwareHolderNameV1) : LabwareHolder
  | byId (i : LabwareIdV1) : LabwareHolder
  deriving DecidableEq, Repr

def LabwareHolder.toJson : LabwareHolder → Json
  | .byName n => n.toJson
  | .byId i => i.toJson

def LabwareHolder.parse (j : Json) : Except PErr LabwareHolder :=
  match j.getField "type" with
  | some (.str "LabwareHolderName") =>
    pBind (LabwareHolderNameV1.parse j) fun n => .ok (.byName n)
  | some (.str "LabwareId") => pBind (LabwareIdV1.parse j) fun i => .ok (.byId i)
  | _ => .error .validation

@[simp]
theorem labwareHolder_rt (x : LabwareHolder) : LabwareHolder.parse x.toJson = .ok x := by
  cases x <;> simp [LabwareHolder.parse, LabwareHolder.toJson]

@[simp]
theorem labwareHolder_ne_null (x : LabwareHolder) : x.toJson ≠ .null := by
  cases x <;> simp [LabwareHolder.toJson, LabwareHolderNameV1.toJson, LabwareIdV1.toJson]

/-- LocationAsLabwareIndexV1 (location/location_as_labware_index/v1.py);
well_part is a required string. -/
structure LocationAsLabwareIndexV1 where
  labware_id : String
  location_index : Int
  well_part : String
  deriving DecidableEq, Repr

def LocationAsLabwareIndexV1.toJson (x : LocationAsLabwareIndexV1) : Json :=
  .obj [("type", .str "LocationAsLabwareIndex"), ("schema_version", .int 1),
    ("labware_id", .str x.labware_id), ("location_index", .int x.location_index),
    ("well_part", .str x.well_part)]

def LocationAsLabwareIndexV1.parse (j : Json) : Except PErr LocationAsLabwareIndexV1 :=
  pBind (checkLitStr j "type" "LocationAsLabwareIndex") fun _ =>
  pBind (checkLitInt j "schema_version" 1) fun _ =>
  pBind (parseField Json.asStr j "labware_id") fun labware_id =>
  pBind (parseField Json.asInt j "location_index") fun location_index =>
  pBind (parseField Json.asStr j "well_part") fun well_part =>
  .ok ⟨labware_id, location_index, well_part⟩

@[simp]
theorem locationAsLabwareIndexV1_rt (x : LocationAsLabwareIndexV1) :
    LocationAsLabwareIndexV1.parse x.toJson = .ok x := rfl

@[simp]
theorem locationAsLabwareIndexV1_tag (x : LocationAsLabwareIndexV1) :
    x.toJson.getField "type" = some (.str "LocationAsLabwareIndex") := rfl

/-- LocationAsNodeIdV1. -/
structure LocationAsNodeIdV1 where
  node_id : String
  deriving DecidableEq, Repr

def LocationAsNodeIdV1.toJson (x : LocationAsNodeIdV1) : Json :=
  .obj [("type", .str "LocationAsNodeId"), ("schema_version", .int 1),
    ("node_id", .str x.node_id)]

def LocationAsNodeIdV1.parse (j : Json) : Except PErr LocationAsNodeIdV1 :=
  pBind (checkLitStr j "type" "LocationAsNodeId") fun _ =>
  pBind (checkLitInt j "schema_version" 1) fun _ =>
  pBind (parseField Json.asStr j "node_id") fun node_id =>
  .ok ⟨node_id⟩

@[simp]
theorem locationAsNodeIdV1_rt (x : LocationAsNodeIdV1) :
    LocationAsNodeIdV1.parse x.toJson = .ok x := rfl

@[simp]
theorem locationAsNodeIdV1_tag (x : LocationAsNodeIdV1) :
    x.toJson.getField "type" = some (.str "LocationAsNodeId") := rfl

/-- LocationRelativeToCurrentPositionV1. -/
structure LocationRelativeToCurrentPositionV1 where
  matrix : TcMatrix
  deriving DecidableEq, Repr

def LocationRelativeToCurrentPositionV1.toJson
    (x : LocationRelativeToCurrentPositionV1) : Json :=
  .obj [("type", .str "LocationRelativeToCurrentPosition"), ("schema_version", .int 1),
    ("matrix", dumpMatrix x.matrix)]

def LocationRelativeToCurrentPositionV1.parse (j : Json) :
    Except PErr LocationRelativeToCurrentPositionV1 :=
  pBind (checkLitStr j "type" "LocationRelativeToCurrentPosition") fun _ =>
  pBind (checkLitInt j "schema_version" 1) fun _ =>
  pBind (parseField parseMatrix j "matrix") fun matrix =>
  .ok ⟨matrix⟩

@[simp]
theorem locationRelativeToCurrentPositionV1_rt (x : LocationRelativeToCurrentPositionV1) :
    LocationRelativeToCurrentPositionV1.parse x.toJson = .ok x := by
  simp [LocationRelativeToCurrentPositionV1.parse,
    LocationRelativeToCurrentPositionV1.toJson, checkLitStr, checkLitInt,
    parseField, reqField, Json.getField, List.lookup]

@[simp]
theorem locationRelativeToCurrentPositionV1_tag (x : LocationRelativeToCurrentPositionV1) :
    x.toJson.getField "type" = some (.str "LocationRelativeToCurrentPosition") := rfl

/-- LocationRelativeToLabwareV1. -/
structure LocationRelativeToLabwareV1 where
  labware_id : String
  matrix : TcMatrix
  deriving DecidableEq, Repr

def LocationRelativeToLabwareV1.toJson (x : LocationRelativeToLabwareV1) : Json :=
  .obj [("type", .str "LocationRelativeToLabware"), ("schema_version", .int 1),
    ("labware_id", .str x.labware_id), ("matrix", dumpMatrix x.matrix)]

def LocationRelativeToLabwareV1.parse (j : Json) :
    Except PErr LocationRelativeToLabwareV1 :=
  pBind (checkLitStr j "type" "LocationRelativeToLabware") fun _ =>
  pBind (checkLitInt j "schema_version" 1) fun _ =>
  pBind (parseField Json.asStr j "labware_id") fun labware_id =>
  pBind (parseField parseMatrix j "matrix") fun matrix =>
  .ok ⟨labware_id, matrix⟩

@[simp]
theorem locationRelativeToLabwareV1_rt (x : LocationRelativeToLabwareV1) :
    LocationRelativeToLabwareV1.parse x.toJson = .ok x := by
  simp [LocationRelativeToLabwareV1.parse, LocationRelativeToLabwareV1.toJson,
    checkLitStr, checkLitInt, parseField, reqField, Json.getField, List.lookup,
    Json.asStr]

@[simp]
theorem locationRelativeToLabwareV1_tag (x : LocationRelativeToLabwareV1) :
    x.toJson.getField "type" = some (.str "LocationRelativeToLabware") := rfl

/-- LocationAsLabwareHolderV1. -/
structure LocationAsLabwareHolderV1 where
  robot_id : String
  labware_holder_name : String
  deriving DecidableEq, Repr

def LocationAsLabwareHolderV1.toJson (x : LocationAsLabwareHolderV1) : Json :=
  .obj [("type", .str "LocationAsLabwareHolder"), ("schema_version", .int 1),
    ("robot_id", .str x.robot_id), ("labware_holder_name", .str x.labware_holder_name)]

def LocationAsLabwareHolderV1.parse (j : Json) :
    Except PErr LocationAsLabwareHolderV1 :=
  pBind (checkLitStr j "type" "LocationAsLabwareHolder") fun _ =>
  pBind (checkLitInt j "schema_version" 1) fun _ =>
  pBind (parseField Json.asStr j "robot_id") fun robot_id =>
  pBind (parseField Json.asStr j "labware_holder_name") fun labware_holder_name =>
  .ok ⟨robot_id, labware_holder_name⟩

@[simp]
theorem locationAsLabwareHolderV1_rt (x : LocationAsLabwareHolderV1) :
    LocationAsLabwareHolderV1.parse x.toJson = .ok x := rfl

@[simp]
theorem locationAsLabwareHolderV1_tag (x : LocationAsLabwareHolderV1) :
    x.toJson.getField "type" = some (.str "LocationAsLabwareHolder") := rfl

/-- LocationRelativeToRobotV1. -/
structure LocationRelativeToRobotV1 where
  robot_id : String
  matrix : TcMatrix
  deriving DecidableEq, Repr

def LocationRelativeToRobotV1.toJson (x : LocationRelativeToRobotV1) : Json :=
  .obj [("type", .str "LocationRelativeToRobot"), ("schema_version", .int 1),
    ("robot_id", .str x.robot_id), ("matrix", dumpMatrix x.matrix)]

def LocationRelativeToRobotV1.parse (j : Json) : Except PErr LocationRelativeToRobotV1 :=
  pBind (checkLitStr j "type" "LocationRelativeToRobot") fun _ =>
  pBind (checkLitInt j "schema_version" 1) fun _ =>
  pBind (parseField Json.asStr j "robot_id") fun robot_id =>
  pBind (parseField parseMatrix j "matrix") fun matrix =>
  .ok ⟨robot_id, matrix⟩

@[simp]
theorem locationRelativeToRobotV1_rt (x : LocationRelativeToRobotV1) :
    LocationRelativeToRobotV1.parse x.toJson = .ok x := by
  simp [LocationRelativeToRobotV1.parse, LocationRelativeToRobotV1.toJson,
    checkLitStr, checkLitInt, parseField, reqField, Json.getField, List.lookup,
    Json.asStr]

@[simp]
theorem locationRelativeToRobotV1_tag (x : LocationRelativeToRobotV1) :
    x.toJson.getField "type" = some (.str "LocationRelativeToRobot") := rfl

/-- LocationRelativeToWorldV1. -/
structure LocationRelativeToWorldV1 where
  matrix : TcMatrix
  deriving DecidableEq, Repr

def LocationRelativeToWorldV1.toJson (x : LocationRelativeToWorldV1) : Json :=
  .obj [("type", .str "LocationRelativeToWorld"), ("schema_version", .int 1),
    ("matrix", dumpMatrix x.matrix)]

def LocationRelativeToWorldV1.parse (j : Json) : Except PErr LocationRelativeToWorldV1 :=
  pBind (checkLitStr j "type" "LocationRelativeToWorld") fun _ =>
  pBind (checkLitInt j "schema_version" 1) fun _ =>
  pBind (parseField parseMatrix j "matrix") fun matrix =>
  .ok ⟨matrix⟩

@[simp]
theorem locationRelativeToWorldV1_rt (x : LocationRelativeToWorldV1) :
    LocationRelativeToWorldV1.parse x.toJson = .ok x := by
  simp [LocationRelativeToWorldV1.parse, LocationRelativeToWorldV1.toJson,
    checkLitStr, checkLitInt, parseField, reqField, Json.getField, List.lookup]

@[simp]
theorem locationRelativeToWorldV1_tag (x : LocationRelativeToWorldV1) :
    x.toJson.getField "type" = some (.str "LocationRelativeToWorld") := rfl

/-- Location discriminated union (location/union.py). -/
inductive Location where
  | asLabwareIndex (l : LocationAsLabwareIndexV1) : Location
  | asNodeId (l : LocationAsNodeIdV1) : Location
  | relToCurrent (l : LocationRelativeToCurrentPositionV1) : Location
  | relToLabware (l : LocationRelativeToLabwareV1) : Location
  | asLabwareHolder (l : LocationAsLabwareHolderV1) : Location
  | relToRobot (l : LocationRelativeToRobotV1) : Location
  | relToWorld (l : LocationRelativeToWorldV1) : Location
  deriving DecidableEq, Repr

def Location.toJson : Location → Json
  | .asLabwareIndex l => l.toJson
  | .asNodeId l => l.toJson
  | .relToCurrent l => l.toJson
  | .relToLabware l => l.toJson
  | .asLabwareHolder l => l.toJson
  | .relToRobot l => l.toJson
  | .relToWorld l => l.toJson

def Location.parse (j : Json) : Except PErr Location :=
  match j.getField "type" with
  | some (.str "LocationAsLabwareIndex") =>
    pBind (LocationAsLabwareIndexV1.parse j) fun l => .ok (.asLabwareIndex l)
  | some (.str "LocationAsNodeId") =>
    pBind (LocationAsNodeIdV1.parse j) fun l => .ok (.asNodeId l)
  | some (.str "LocationRelativeToCurrentPosition") =>
    pBind (LocationRelativeToCurrentPositionV1.parse j) fun l => .ok (.relToCurrent l)
  | some (.str "LocationRelativeToLabware") =>
    pBind (LocationRelativeToLabwareV1.parse j) fun l => .ok (.relToLabware l)
  | some (.str "LocationAsLabwareHolder") =>
    pBind (LocationAsLabwareHolderV1.parse j) fun l => .ok (.asLabwareHolder l)
  | some (.str "LocationRelativeToRobot") =>
    pBind (LocationRelativeToRobotV1.parse j) fun l => .ok (.relToRobot l)
  | some (.str "LocationRelativeToWorld") =>
    pBind (LocationRelativeToWorldV1.parse j) fun l => .ok (.relToWorld l)
  | _ => .error .validation

@[simp]
theorem location_rt (x : Location) : Location.parse x.toJson = .ok x := by
  cases x <;> simp [Location.parse, Location.toJson]

@[simp]
theorem location_ne_null (x : Location) : x.toJson ≠ .null := by
  cases x <;> simp [Location.toJson, LocationAsLabwareIndexV1.toJson,
    LocationAsNodeIdV1.toJson, LocationRelativeToCurrentPositionV1.toJson,
    LocationRelativeToLabwareV1.toJson, LocationAsLabwareHolderV1.toJson,
    LocationRelativeToRobotV1.toJson, LocationRelativeToWorldV1.toJson]

/-- The inline location union of the calibrate commands
(LocationAsLabwareIndexV1 | LocationRelativeToLabwareV1). -/
inductive CalibrationLocation where
  | asIndex (l : LocationAsLabwareIndexV1) : CalibrationLocation
  | relToLabware (l : LocationRelativeToLabwareV1) : CalibrationLocation
  deriving DecidableEq, Repr

def CalibrationLocation.toJson : CalibrationLocation → Json
  | .asIndex l => l.toJson
  | .relToLabware l => l.toJson

def CalibrationLocation.parse (j : Json) : Except PErr CalibrationLocation :=
  match j.getField "type" with
  | some (.str "LocationAsLabwareIndex") =>
    pBind (LocationAsLabwareIndexV1.parse j) fun l => .ok (.asIndex l)
  | some (.str "LocationRelativeToLabware") =>
    pBind (LocationRelativeToLabwareV1.parse j) fun l => .ok (.relToLabware l)
  | _ => .error .validation

@[simp]
theorem calibrationLocation_rt (x : CalibrationLocation) :
    CalibrationLocation.parse x.toJson = .ok x := by
  cases x <;> simp [CalibrationLocation.parse, CalibrationLocation.toJson]

@[simp]
theorem calibrationLocation_ne_null (x : CalibrationLocation) : x.toJson ≠ .null := by
  cases x <;> simp [CalibrationLocation.toJson, LocationAsLabwareIndexV1.toJson,
    LocationRelativeToLabwareV1.toJson]
/-- ASPIRATE_V1 (commands/aspirate/v1.py). -/
structure ASPIRATE_V1 where
  robot_id : String
  volume : ValueWithUnits
  speed : ValueWithUnits
  deriving DecidableEq, Repr

def ASPIRATE_V1.toJson (x : ASPIRATE_V1) : Json :=
  .obj [("type", .str "ASPIRATE"),
    ("schema_version", .int 1),
    ("robot_id", .str x.robot_id),
    ("volume", x.volume.toJson),
    ("speed", x.speed.toJson)]

def ASPIRATE_V1.parse (j : Json) : Except PErr ASPIRATE_V1 :=
  pBind (checkLitStr j "type" "ASPIRATE") fun _ =>
  pBind (checkLitInt j "schema_version" 1) fun _ =>
  pBind (parseField Json.asStr j "robot_id") fun robot_id =>
  pBind (parseField ValueWithUnits.parse j "volume") fun volume =>
  pBind (parseField ValueWithUnits.parse j "speed") fun speed =>
  .ok ⟨robot_id, volume, speed⟩

@[simp]
theorem aspirateV1_rt (x : ASPIRATE_V1) :
    ASPIRATE_V1.parse x.toJson = .ok x := by
  simp [ASPIRATE_V1.parse, ASPIRATE_V1.toJson, checkLitStr, checkLitInt,
    Json.getField, List.lookup, parseField, reqField, Json.asStr]

@[simp]
theorem aspirateV1_tag (x : ASPIRATE_V1) :
    x.toJson.getField "type" = some (.str "ASPIRATE") := rfl

/-- ADD_LABWARE_V1 (commands/add_labware/v1.py). -/
structure ADD_LABWARE_V1 where
  id : String
  descriptor : LabwareDescriptor
  lid_id : Option String
  deriving DecidableEq, Repr

/-- The PositiveInt validators reached through the nested descriptor. -/
def ADD_LABWARE_V1.validb (x : ADD_LABWARE_V1) : Bool :=
  x.descriptor.validb

def ADD_LABWARE_V1.toJson (x : ADD_LABWARE_V1) : Json :=
  .obj [("type", .str "ADD_LABWARE"),
    ("schema_version", .int 1),
    ("id", .str x.id),
    ("descriptor", x.descriptor.toJson),
    ("lid_id", dumpOpt Json.str x.lid_id)]

def ADD_LABWARE_V1.parse (j : Json) : Except PErr ADD_LABWARE_V1 :=
  pBind (checkLitStr j "type" "ADD_LABWARE") fun _ =>
  pBind (checkLitInt j "schema_version" 1) fun _ =>
  pBind (parseField Json.asStr j "id") fun id =>
  pBind (parseField LabwareDescriptor.parse j "descriptor") fun descriptor =>
  pBind (parseOptJson Json.asStr j "lid_id") fun lid_id =>
  .ok ⟨id, descriptor, lid_id⟩

@[simp]
theorem addLabwareV1_rt (x : ADD_LABWARE_V1) (hv : x.validb = true) :
    ADD_LABWARE_V1.parse x.toJson = .ok x := by
  rw [ADD_LABWARE_V1.validb] at hv
  simp [ADD_LABWARE_V1.parse, ADD_LABWARE_V1.toJson, checkLitStr, checkLitInt,
    Json.getField, List.lookup, parseField, reqField, Json.asStr, parseOptJson, optField, nullToNone_dumpOpt Json.str, parseOptVal_map Json.asStr Json.str, hv]

@[simp]
theorem addLabwareV1_tag (x : ADD_LABWARE_V1) :
    x.toJson.getField "type" = some (.str "ADD_LABWARE") := rfl

/-- ADD_PIPETTE_TIP_GROUP_V1 (commands/add_pipette_tip_group/v1.py). -/
structure ADD_PIPETTE_TIP_GROUP_V1 where
  id : String
  descriptor : PipetteTipGroupDescriptorV1
  deriving DecidableEq, Repr

/-- The PositiveInt validators reached through the nested descriptor. -/
def ADD_PIPETTE_TIP_GROUP_V1.validb (x : ADD_PIPETTE_TIP_GROUP_V1) : Bool :=
  x.descriptor.validb

def ADD_PIPETTE_TIP_GROUP_V1.toJson (x : ADD_PIPETTE_TIP_GROUP_V1) : Json :=
  .obj [("type", .str "ADD_PIPETTE_TIP_GROUP"),
    ("schema_version", .int 1),
    ("id", .str x.id),
    ("descriptor", x.descriptor.toJson)]

def ADD_PIPETTE_TIP_GROUP_V1.parse (j : Json) : Except PErr ADD_PIPETTE_TIP_GROUP_V1 :=
  pBind (checkLitStr j "type" "ADD_PIPETTE_TIP_GROUP") fun _ =>
  pBind (checkLitInt j "schema_version" 1) fun _ =>
  pBind (parseField Json.asStr j "id") fun id =>
  pBind (parseField PipetteTipGroupDescriptorV1.parse j "descriptor") fun descriptor =>
  .ok ⟨id, descriptor⟩

@[simp]
theorem addPipetteTipGroupV1_rt (x : ADD_PIPETTE_TIP_GROUP_V1) (hv : x.validb = true) :
    ADD_PIPETTE_TIP_GROUP_V1.parse x.toJson = .ok x := by
  rw [ADD_PIPETTE_TIP_GROUP_V1.validb] at hv
  simp [ADD_PIPETTE_TIP_GROUP_V1.parse, ADD_PIPETTE_TIP_GROUP_V1.toJson, checkLitStr, checkLitInt,
    Json.getField, List.lookup, parseField, reqField, Json.asStr, hv]

@[simp]
theorem addPipetteTipGroupV1_tag (x : ADD_PIPETTE_TIP_GROUP_V1) :
    x.toJson.getField "type" = some (.str "ADD_PIPETTE_TIP_GROUP") := rfl

/-- ADD_ROBOT_V1 (commands/add_robot/v1.py). -/
structure ADD_ROBOT_V1 where
  id : String
  descriptor : RobotDescriptorV1
  deriving DecidableEq, Repr

def ADD_ROBOT_V1.toJson (x : ADD_ROBOT_V1) : Json :=
  .obj [("type", .str "ADD_ROBOT"),
    ("schema_version", .int 1),
    ("id", .str x.id),
    ("descriptor", x.descriptor.toJson)]

def ADD_ROBOT_V1.parse (j : Json) : Except PErr ADD_ROBOT_V1 :=
  pBind (checkLitStr j "type" "ADD_ROBOT") fun _ =>
  pBind (checkLitInt j "schema_version" 1) fun _ =>
  pBind (parseField Json.asStr j "id") fun id =>
  pBind (parseField RobotDescriptorV1.parse j "descriptor") fun descriptor =>
  .ok ⟨id, descriptor⟩

@[simp]
theorem addRobotV1_rt (x : ADD_ROBOT_V1) :
    ADD_ROBOT_V1.parse x.toJson = .ok x := by
  simp [ADD_ROBOT_V1.parse, ADD_ROBOT_V1.toJson, checkLitStr, checkLitInt,
    Json.getField, List.lookup, parseField, reqField, Json.asStr]

@[simp]
theorem addRobotV1_tag (x : ADD_ROBOT_V1) :
    x.toJson.getField "type" = some (.str "ADD_ROBOT") := rfl

/-- ADD_TOOL_V1 (commands/add_tool/v1.py). -/
structure ADD_TOOL_V1 where
  robot_id : String
  id : String
  descriptor : ToolDescriptor
  deriving DecidableEq, Repr

def ADD_TOOL_V1.toJson (x : ADD_TOOL_V1) : Json :=
  .obj [("type", .str "ADD_TOOL"),
    ("schema_version", .int 1),
    ("robot_id", .str x.robot_id),
    ("id", .str x.id),
    ("descriptor", x.descriptor.toJson)]

def ADD_TOOL_V1.parse (j : Json) : Except PErr ADD_TOOL_V1 :=
  pBind (checkLitStr j "type" "ADD_TOOL") fun _ =>
  pBind (checkLitInt j "schema_version" 1) fun _ =>
  pBind (parseField Json.asStr j "robot_id") fun robot_id =>
  pBind (parseField Json.asStr j "id") fun id =>
  pBind (parseField ToolDescriptor.parse j "descriptor") fun descriptor =>
  .ok ⟨robot_id, id, descriptor⟩

@[simp]
theorem addToolV1_rt (x : ADD_TOOL_V1) :
    ADD_TOOL_V1.parse x.toJson = .ok x := by
  simp [ADD_TOOL_V1.parse, ADD_TOOL_V1.toJson, checkLitStr, checkLitInt,
    Json.getField, List.lookup, parseField, reqField, Json.asStr]

@[simp]
theorem addToolV1_tag (x : ADD_TOOL_V1) :
    x.toJson.getField "type" = some (.str "ADD_TOOL") := rfl

/-- CALIBRATE_LABWARE_WELL_DEPTH_V1 (commands/calibrate_labware_well_depth/v1.py). -/
structure CALIBRATE_LABWARE_WELL_DEPTH_V1 where
  robot_id : String
  location : CalibrationLocation
  persistent : Bool
  modify_all_wells : Bool
  deriving DecidableEq, Repr

def CALIBRATE_LABWARE_WELL_DEPTH_V1.toJson (x : CALIBRATE_LABWARE_WELL_DEPTH_V1) : Json :=
  .obj [("type", .str "CALIBRATE_LABWARE_WELL_DEPTH"),
    ("schema_version", .int 1),
    ("robot_id", .str x.robot_id),
    ("location", x.location.toJson),
    ("persistent", .bool x.persistent),
    ("modify_all_wells", .bool x.modify_all_wells)]

def CALIBRATE_LABWARE_WELL_DEPTH_V1.parse (j : Json) : Except PErr CALIBRATE_LABWARE_WELL_DEPTH_V1 :=
  pBind (checkLitStr j "type" "CALIBRATE_LABWARE_WELL_DEPTH") fun _ =>
  pBind (checkLitInt j "schema_version" 1) fun _ =>
  pBind (parseField Json.asStr j "robot_id") fun robot_id =>
  pBind (parseField CalibrationLocation.parse j "location") fun location =>
  pBind (parseField Json.asBool j "persistent") fun persistent =>
  pBind (parseFieldDflt Json.asBool j "modify_all_wells" true) fun modify_all_wells =>
  .ok ⟨robot_id, location, persistent, modify_all_wells⟩

@[simp]
theorem calibrateLabwareWellDepthV1_rt (x : CALIBRATE_LABWARE_WELL_DEPTH_V1) :
    CALIBRATE_LABWARE_WELL_DEPTH_V1.parse x.toJson = .ok x := by
  simp [CALIBRATE_LABWARE_WELL_DEPTH_V1.parse, CALIBRATE_LABWARE_WELL_DEPTH_V1.toJson, checkLitStr, checkLitInt,
    Json.getField, List.lookup, parseField, reqField, Json.asStr, Json.asBool, parseFieldDflt]

@[simp]
theorem calibrateLabwareWellDepthV1_tag (x : CALIBRATE_LABWARE_WELL_DEPTH_V1) :
    x.toJson.getField "type" = some (.str "CALIBRATE_LABWARE_WELL_DEPTH") := rfl

/-- CALIBRATE_LABWARE_HEIGHT_V1 (commands/calibrate_labware_height/v1.py). -/
structure CALIBRATE_LABWARE_HEIGHT_V1 where
  robot_id : String
  location : CalibrationLocation
  persistent : Bool
  deriving DecidableEq, Repr

def CALIBRATE_LABWARE_HEIGHT_V1.toJson (x : CALIBRATE_LABWARE_HEIGHT_V1) : Json :=
  .obj [("type", .str "CALIBRATE_LABWARE_HEIGHT"),
    ("schema_version", .int 1),
    ("robot_id", .str x.robot_id),
    ("location", x.location.toJson),
    ("persistent", .bool x.persistent)]

def CALIBRATE_LABWARE_HEIGHT_V1.parse (j : Json) : Except PErr CALIBRATE_LABWARE_HEIGHT_V1 :=
  pBind (checkLitStr j "type" "CALIBRATE_LABWARE_HEIGHT") fun _ =>
  pBind (checkLitInt j "schema_version" 1) fun _ =>
  pBind (parseField Json.asStr j "robot_id") fun robot_id =>
  pBind (parseField CalibrationLocation.parse j "location") fun location =>
  pBind (parseField Json.asBool j "persistent") fun persistent =>
  .ok ⟨robot_id, location, persistent⟩

@[simp]
theorem calibrateLabwareHeightV1_rt (x : CALIBRATE_LABWARE_HEIGHT_V1) :
    CALIBRATE_LABWARE_HEIGHT_V1.parse x.toJson = .ok x := by
  simp [CALIBRATE_LABWARE_HEIGHT_V1.parse, CALIBRATE_LABWARE_HEIGHT_V1.toJson, checkLitStr, checkLitInt,
    Json.getField, List.lookup, parseField, reqField, Json.asStr, Json.asBool]

@[simp]
theorem calibrateLabwareHeightV1_tag (x : CALIBRATE_LABWARE_HEIGHT_V1) :
    x.toJson.getField "type" = some (.str "CALIBRATE_LABWARE_HEIGHT") := rfl

/-- CALIBRATE_TOOL_FOR_PROBING_V1 (commands/calibrate_tool_for_probing/v1.py). -/
structure CALIBRATE_TOOL_FOR_PROBING_V1 where
  robot_id : String
  z_only : Bool
  persistent : Bool
  deriving DecidableEq, Repr

def CALIBRATE_TOOL_FOR_PROBING_V1.toJson (x : CALIBRATE_TOOL_FOR_PROBING_V1) : Json :=
  .obj [("type", .str "CALIBRATE_TOOL_FOR_PROBING"),
    ("schema_version", .int 1),
    ("robot_id", .str x.robot_id),
    ("z_only", .bool x.z_only),
    ("persistent", .bool x.persistent)]

def CALIBRATE_TOOL_FOR_PROBING_V1.parse (j : Json) : Except PErr CALIBRATE_TOOL_FOR_PROBING_V1 :=
  pBind (checkLitStr j "type" "CALIBRATE_TOOL_FOR_PROBING") fun _ =>
  pBind (checkLitInt j "schema_version" 1) fun _ =>
  pBind (parseField Json.asStr j "robot_id") fun robot_id =>
  pBind (parseField Json.asBool j "z_only") fun z_only =>
  pBind (parseFieldDflt Json.asBool j "persistent" false) fun persistent =>
  .ok ⟨robot_id, z_only, persistent⟩

@[simp]
theorem calibrateToolForProbingV1_rt (x : CALIBRATE_TOOL_FOR_PROBING_V1) :
    CALIBRATE_TOOL_FOR_PROBING_V1.parse x.toJson = .ok x := by
  simp [CALIBRATE_TOOL_FOR_PROBING_V1.parse, CALIBRATE_TOOL_FOR_PROBING_V1.toJson, checkLitStr, checkLitInt,
    Json.getField, List.lookup, parseField, reqField, Json.asStr, Json.asBool, parseFieldDflt]

@[simp]
theorem calibrateToolForProbingV1_tag (x : CALIBRATE_TOOL_FOR_PROBING_V1) :
    x.toJson.getField "type" = some (.str "CALIBRATE_TOOL_FOR_PROBING") := rfl

/-- COMMENT_V1 (commands/comment/v1.py). -/
structure COMMENT_V1 where
  text : String
  deriving DecidableEq, Repr

def COMMENT_V1.toJson (x : COMMENT_V1) : Json :=
  .obj [("type", .str "COMMENT"),
    ("schema_version", .int 1),
    ("text", .str x.text)]

def COMMENT_V1.parse (j : Json) : Except PErr COMMENT_V1 :=
  pBind (checkLitStr j "type" "COMMENT") fun _ =>
  pBind (checkLitInt j "schema_version" 1) fun _ =>
  pBind (parseField Json.asStr j "text") fun text =>
  .ok ⟨text⟩

@[simp]
theorem commentV1_rt (x : COMMENT_V1) :
    COMMENT_V1.parse x.toJson = .ok x := by
  simp [COMMENT_V1.parse, COMMENT_V1.toJson, checkLitStr, checkLitInt,
    Json.getField, List.lookup, parseField, reqField, Json.asStr]

@[simp]
theorem commentV1_tag (x : COMMENT_V1) :
    x.toJson.getField "type" = some (.str "COMMENT") := rfl

/-- CREATE_LABWARE_V1 (commands/create_labware/v1.py). -/
structure CREATE_LABWARE_V1 where
  robot_id : String
  description : LabwareDescription
  holder : LabwareHolder
  deriving DecidableEq, Repr

/-- The PositiveInt validators reached through the nested descriptor. -/
def CREATE_LABWARE_V1.validb (x : CREATE_LABWARE_V1) : Bool :=
  x.description.validb

def CREATE_LABWARE_V1.toJson (x : CREATE_LABWARE_V1) : Json :=
  .obj [("type", .str "CREATE_LABWARE"),
    ("schema_version", .int 1),
    ("robot_id", .str x.robot_id),
    ("description", x.description.toJson),
    ("holder", x.holder.toJson)]

def CREATE_LABWARE_V1.parse (j : Json) : Except PErr CREATE_LABWARE_V1 :=
  pBind (checkLitStr j "type" "CREATE_LABWARE") fun _ =>
  pBind (checkLitInt j "schema_version" 1) fun _ =>
  pBind (parseField Json.asStr j "robot_id") fun robot_id =>
  pBind (parseField LabwareDescription.parse j "description") fun description =>
  pBind (parseField LabwareHolder.parse j "holder") fun holder =>
  .ok ⟨robot_id, description, holder⟩

@[simp]
theorem createLabwareV1_rt (x : CREATE_LABWARE_V1) (hv : x.validb = true) :
    CREATE_LABWARE_V1.parse x.toJson = .ok x := by
  rw [CREATE_LABWARE_V1.validb] at hv
  simp [CREATE_LABWARE_V1.parse, CREATE_LABWARE_V1.toJson, checkLitStr, checkLitInt,
    Json.getField, List.lookup, parseField, reqField, Json.asStr, hv]

@[simp]
theorem createLabwareV1_tag (x : CREATE_LABWARE_V1) :
    x.toJson.getField "type" = some (.str "CREATE_LABWARE") := rfl

/-- DELETE_LABWARE_V1 (commands/delete_labware/v1.py). -/
structure DELETE_LABWARE_V1 where
  robot_id : String
  labware_id : String
  deriving DecidableEq, Repr

def DELETE_LABWARE_V1.toJson (x : DELETE_LABWARE_V1) : Json :=
  .obj [("type", .str "DELETE_LABWARE"),
    ("schema_version", .int 1),
    ("robot_id", .str x.robot_id),
    ("labware_id", .str x.labware_id)]

def DELETE_LABWARE_V1.parse (j : Json) : Except PErr DELETE_LABWARE_V1 :=
  pBind (checkLitStr j "type" "DELETE_LABWARE") fun _ =>
  pBind (checkLitInt j "schema_version" 1) fun _ =>
  pBind (parseField Json.asStr j "robot_id") fun robot_id =>
  pBind (parseField Json.asStr j "labware_id") fun labware_id =>
  .ok ⟨robot_id, labware_id⟩

@[simp]
theorem deleteLabwareV1_rt (x : DELETE_LABWARE_V1) :
    DELETE_LABWARE_V1.parse x.toJson = .ok x := by
  simp [DELETE_LABWARE_V1.parse, DELETE_LABWARE_V1.toJson, checkLitStr, checkLitInt,
    Json.getField, List.lookup, parseField, reqField, Json.asStr]

@[simp]
theorem deleteLabwareV1_tag (x : DELETE_LABWARE_V1) :
    x.toJson.getField "type" = some (.str "DELETE_LABWARE") := rfl

/-- DISCARD_PIPETTE_TIP_GROUP_V1 (commands/discard_pipette_tip_group/v1.py). -/
structure DISCARD_PIPETTE_TIP_GROUP_V1 where
  robot_id : String
  deriving DecidableEq, Repr

def DISCARD_PIPETTE_TIP_GROUP_V1.toJson (x : DISCARD_PIPETTE_TIP_GROUP_V1) : Json :=
  .obj [("type", .str "DISCARD_PIPETTE_TIP_GROUP"),
    ("schema_version", .int 1),
    ("robot_id", .str x.robot_id)]

def DISCARD_PIPETTE_TIP_GROUP_V1.parse (j : Json) : Except PErr DISCARD_PIPETTE_TIP_GROUP_V1 :=
  pBind (checkLitStr j "type" "DISCARD_PIPETTE_TIP_GROUP") fun _ =>
  pBind (checkLitInt j "schema_version" 1) fun _ =>
  pBind (parseField Json.asStr j "robot_id") fun robot_id =>
  .ok ⟨robot_id⟩

@[simp]
theorem discardPipetteTipGroupV1_rt (x : DISCARD_PIPETTE_TIP_GROUP_V1) :
    DISCARD_PIPETTE_TIP_GROUP_V1.parse x.toJson = .ok x := by
  simp [DISCARD_PIPETTE_TIP_GROUP_V1.parse, DISCARD_PIPETTE_TIP_GROUP_V1.toJson, checkLitStr, checkLitInt,
    Json.getField, List.lookup, parseField, reqField, Json.asStr]

@[simp]
theorem discardPipetteTipGroupV1_tag (x : DISCARD_PIPETTE_TIP_GROUP_V1) :
    x.toJson.getField "type" = some (.str "DISCARD_PIPETTE_TIP_GROUP") := rfl

/-- DISPENSE_V1 (commands/dispense/v1.py). -/
structure DISPENSE_V1 where
  robot_id : String
  volume : ValueWithUnits
  speed : ValueWithUnits
  deriving DecidableEq, Repr

def DISPENSE_V1.toJson (x : DISPENSE_V1) : Json :=
  .obj [("type", .str "DISPENSE"),
    ("schema_version", .int 1),
    ("robot_id", .str x.robot_id),
    ("volume", x.volume.toJson),
    ("speed", x.speed.toJson)]

def DISPENSE_V1.parse (j : Json) : Except PErr DISPENSE_V1 :=
  pBind (checkLitStr j "type" "DISPENSE") fun _ =>
  pBind (checkLitInt j "schema_version" 1) fun _ =>
  pBind (parseField Json.asStr j "robot_id") fun robot_id =>
  pBind (parseField ValueWithUnits.parse j "volume") fun volume =>
  pBind (parseField ValueWithUnits.parse j "speed") fun speed =>
  .ok ⟨robot_id, volume, speed⟩

@[simp]
theorem dispenseV1_rt (x : DISPENSE_V1) :
    DISPENSE_V1.parse x.toJson = .ok x := by
  simp [DISPENSE_V1.parse, DISPENSE_V1.toJson, checkLitStr, checkLitInt,
    Json.getField, List.lookup, parseField, reqField, Json.asStr]

@[simp]
theorem dispenseV1_tag (x : DISPENSE_V1) :
    x.toJson.getField "type" = some (.str "DISPENSE") := rfl

/-- MOVE_GRIPPER_V1 (commands/move_gripper/v1.py). -/
structure MOVE_GRIPPER_V1 where
  robot_id : String
  gripper_state_type : Int
  finger_separation : Option ValueWithUnits
  deriving DecidableEq, Repr

def MOVE_GRIPPER_V1.toJson (x : MOVE_GRIPPER_V1) : Json :=
  .obj [("type", .str "MOVE_GRIPPER"),
    ("schema_version", .int 1),
    ("robot_id", .str x.robot_id),
    ("gripper_state_type", .int x.gripper_state_type),
    ("finger_separation", dumpOpt ValueWithUnits.toJson x.finger_separation)]

def MOVE_GRIPPER_V1.parse (j : Json) : Except PErr MOVE_GRIPPER_V1 :=
  pBind (checkLitStr j "type" "MOVE_GRIPPER") fun _ =>
  pBind (checkLitInt j "schema_version" 1) fun _ =>
  pBind (parseField Json.asStr j "robot_id") fun robot_id =>
  pBind (parseField Json.asInt j "gripper_state_type") fun gripper_state_type =>
  pBind (parseOptJson ValueWithUnits.parse j "finger_separation") fun finger_separation =>
  .ok ⟨robot_id, gripper_state_type, finger_separation⟩

@[simp]
theorem moveGripperV1_rt (x : MOVE_GRIPPER_V1) :
    MOVE_GRIPPER_V1.parse x.toJson = .ok x := by
  simp [MOVE_GRIPPER_V1.parse, MOVE_GRIPPER_V1.toJson, checkLitStr, checkLitInt,
    Json.getField, List.lookup, parseField, reqField, Json.asStr, Json.asInt, parseOptJson, optField, nullToNone_dumpOpt ValueWithUnits.toJson, parseOptVal_map ValueWithUnits.parse ValueWithUnits.toJson]

@[simp]
theorem moveGripperV1_tag (x : MOVE_GRIPPER_V1) :
    x.toJson.getField "type" = some (.str "MOVE_GRIPPER") := rfl

/-- MOVE_TO_LOCATION_V1 (commands/move_to_location/v1.py). -/
structure MOVE_TO_LOCATION_V1 where
  robot_id : String
  location : Location
  location_offset : TcMatrix
  flange : Option Location
  flange_offset : TcMatrix
  path_type : Option Int
  trajectory_type : Option Int
  deriving DecidableEq, Repr

def MOVE_TO_LOCATION_V1.toJson (x : MOVE_TO_LOCATION_V1) : Json :=
  .obj [("type", .str "MOVE_TO_LOCATION"),
    ("schema_version", .int 1),
    ("robot_id", .str x.robot_id),
    ("location", x.location.toJson),
    ("location_offset", dumpMatrix x.location_offset),
    ("flange", dumpOpt Location.toJson x.flange),
    ("flange_offset", dumpMatrix x.flange_offset),
    ("path_type", dumpOpt Json.int x.path_type),
    ("trajectory_type", dumpOpt Json.int x.trajectory_type)]

def MOVE_TO_LOCATION_V1.parse (j : Json) : Except PErr MOVE_TO_LOCATION_V1 :=
  pBind (checkLitStr j "type" "MOVE_TO_LOCATION") fun _ =>
  pBind (checkLitInt j "schema_version" 1) fun _ =>
  pBind (parseField Json.asStr j "robot_id") fun robot_id =>
  pBind (parseField Location.parse j "location") fun location =>
  pBind (parseFieldDflt parseMatrix j "location_offset" identity_transform) fun location_offset =>
  pBind (parseOptJson Location.parse j "flange") fun flange =>
  pBind (parseFieldDflt parseMatrix j "flange_offset" identity_transform) fun flange_offset =>
  pBind (parseOptJson Json.asInt j "path_type") fun path_type =>
  pBind (parseOptJson Json.asInt j "trajectory_type") fun trajectory_type =>
  .ok ⟨robot_id, location, location_offset, flange, flange_offset, path_type, trajectory_type⟩

@[simp]
theorem moveToLocationV1_rt (x : MOVE_TO_LOCATION_V1) :
    MOVE_TO_LOCATION_V1.parse x.toJson = .ok x := by
  simp [MOVE_TO_LOCATION_V1.parse, MOVE_TO_LOCATION_V1.toJson, checkLitStr, checkLitInt,
    Json.getField, List.lookup, parseField, reqField, Json.asStr, parseFieldDflt, parseOptJson, optField, nullToNone_dumpOpt Location.toJson, parseOptVal_map Location.parse Location.toJson, nullToNone_dumpOpt Json.int, parseOptVal_map Json.asInt Json.int, Json.asInt]

@[simp]
theorem moveToLocationV1_tag (x : MOVE_TO_LOCATION_V1) :
    x.toJson.getField "type" = some (.str "MOVE_TO_LOCATION") := rfl

/-- MOVE_TO_JOINT_POSE_V1 (commands/move_to_joint_pose/v1.py). -/
structure MOVE_TO_JOINT_POSE_V1 where
  robot_id : String
  joint_positions : List ValueWithUnits
  relative : Bool
  deriving DecidableEq, Repr

def MOVE_TO_JOINT_POSE_V1.toJson (x : MOVE_TO_JOINT_POSE_V1) : Json :=
  .obj [("type", .str "MOVE_TO_JOINT_POSE"),
    ("schema_version", .int 1),
    ("robot_id", .str x.robot_id),
    ("joint_positions", dumpList ValueWithUnits.toJson x.joint_positions),
    ("relative", .bool x.relative)]

def MOVE_TO_JOINT_POSE_V1.parse (j : Json) : Except PErr MOVE_TO_JOINT_POSE_V1 :=
  pBind (checkLitStr j "type" "MOVE_TO_JOINT_POSE") fun _ =>
  pBind (checkLitInt j "schema_version" 1) fun _ =>
  pBind (parseField Json.asStr j "robot_id") fun robot_id =>
  pBind (parseListField ValueWithUnits.parse j "joint_positions") fun joint_positions =>
  pBind (parseField Json.asBool j "relative") fun relative =>
  .ok ⟨robot_id, joint_positions, relative⟩

@[simp]
theorem moveToJointPoseV1_rt (x : MOVE_TO_JOINT_POSE_V1) :
    MOVE_TO_JOINT_POSE_V1.parse x.toJson = .ok x := by
  simp [MOVE_TO_JOINT_POSE_V1.parse, MOVE_TO_JOINT_POSE_V1.toJson, checkLitStr, checkLitInt,
    Json.getField, List.lookup, parseField, reqField, Json.asStr, parseListField, dumpList, Json.asBool]

@[simp]
theorem moveToJointPoseV1_tag (x : MOVE_TO_JOINT_POSE_V1) :
    x.toJson.getField "type" = some (.str "MOVE_TO_JOINT_POSE") := rfl

/-- PAUSE_V1 (commands/pause/v1.py). -/
structure PAUSE_V1 where
  deriving DecidableEq, Repr

def PAUSE_V1.toJson (x : PAUSE_V1) : Json :=
  .obj [("type", .str "PAUSE"),
    ("schema_version", .int 1)]

def PAUSE_V1.parse (j : Json) : Except PErr PAUSE_V1 :=
  pBind (checkLitStr j "type" "PAUSE") fun _ =>
  pBind (checkLitInt j "schema_version" 1) fun _ =>
  .ok ⟨⟩

@[simp]
theorem pauseV1_rt (x : PAUSE_V1) :
    PAUSE_V1.parse x.toJson = .ok x := by
  simp [PAUSE_V1.parse, PAUSE_V1.toJson, checkLitStr, checkLitInt,
    Json.getField, List.lookup]

@[simp]
theorem pauseV1_tag (x : PAUSE_V1) :
    x.toJson.getField "type" = some (.str "PAUSE") := rfl

/-- PICK_UP_LABWARE_V1 (commands/pick_up_labware/v1.py). -/
structure PICK_UP_LABWARE_V1 where
  robot_id : String
  labware_id : String
  grasp_type : String
  offset_transform : TcMatrix
  deriving DecidableEq, Repr

def PICK_UP_LABWARE_V1.toJson (x : PICK_UP_LABWARE_V1) : Json :=
  .obj [("type", .str "PICK_UP_LABWARE"),
    ("schema_version", .int 1),
    ("robot_id", .str x.robot_id),
    ("labware_id", .str x.labware_id),
    ("grasp_type", .str x.grasp_type),
    ("offset_transform", dumpMatrix x.offset_transform)]

def PICK_UP_LABWARE_V1.parse (j : Json) : Except PErr PICK_UP_LABWARE_V1 :=
  pBind (checkLitStr j "type" "PICK_UP_LABWARE") fun _ =>
  pBind (checkLitInt j "schema_version" 1) fun _ =>
  pBind (parseField Json.asStr j "robot_id") fun robot_id =>
  pBind (parseField Json.asStr j "labware_id") fun labware_id =>
  pBind (parseFieldDflt Json.asStr j "grasp_type" "UNSPECIFIED") fun grasp_type =>
  pBind (parseFieldDflt parseMatrix j "offset_transform" identity_transform) fun offset_transform =>
  .ok ⟨robot_id, labware_id, grasp_type, offset_transform⟩

@[simp]
theorem pickUpLabwareV1_rt (x : PICK_UP_LABWARE_V1) :
    PICK_UP_LABWARE_V1.parse x.toJson = .ok x := by
  simp [PICK_UP_LABWARE_V1.parse, PICK_UP_LABWARE_V1.toJson, checkLitStr, checkLitInt,
    Json.getField, List.lookup, parseField, reqField, Json.asStr, parseFieldDflt]

@[simp]
theorem pickUpLabwareV1_tag (x : PICK_UP_LABWARE_V1) :
    x.toJson.getField "type" = some (.str "PICK_UP_LABWARE") := rfl

/-- PICK_UP_PIPETTE_TIP_V1 (commands/pick_up_pipette_tip/v1.py). -/
structure PICK_UP_PIPETTE_TIP_V1 where
  robot_id : String
  location : Location
  deriving DecidableEq, Repr

def PICK_UP_PIPETTE_TIP_V1.toJson (x : PICK_UP_PIPETTE_TIP_V1) : Json :=
  .obj [("type", .str "PICK_UP_PIPETTE_TIP"),
    ("schema_version", .int 1),
    ("robot_id", .str x.robot_id),
    ("location", x.location.toJson)]

def PICK_UP_PIPETTE_TIP_V1.parse (j : Json) : Except PErr PICK_UP_PIPETTE_TIP_V1 :=
  pBind (checkLitStr j "type" "PICK_UP_PIPETTE_TIP") fun _ =>
  pBind (checkLitInt j "schema_version" 1) fun _ =>
  pBind (parseField Json.asStr j "robot_id") fun robot_id =>
  pBind (parseField Location.parse j "location") fun location =>
  .ok ⟨robot_id, location⟩

@[simp]
theorem pickUpPipetteTipV1_rt (x : PICK_UP_PIPETTE_TIP_V1) :
    PICK_UP_PIPETTE_TIP_V1.parse x.toJson = .ok x := by
  simp [PICK_UP_PIPETTE_TIP_V1.parse, PICK_UP_PIPETTE_TIP_V1.toJson, checkLitStr, checkLitInt,
    Json.getField, List.lookup, parseField, reqField, Json.asStr]

@[simp]
theorem pickUpPipetteTipV1_tag (x : PICK_UP_PIPETTE_TIP_V1) :
    x.toJson.getField "type" = some (.str "PICK_UP_PIPETTE_TIP") := rfl

/-- PUT_DOWN_LABWARE_V1 (commands/put_down_labware/v1.py). -/
structure PUT_DOWN_LABWARE_V1 where
  robot_id : String
  holder : LabwareHolder
  offset_transform : TcMatrix
  deriving DecidableEq, Repr

def PUT_DOWN_LABWARE_V1.toJson (x : PUT_DOWN_LABWARE_V1) : Json :=
  .obj [("type", .str "PUT_DOWN_LABWARE"),
    ("schema_version", .int 1),
    ("robot_id", .str x.robot_id),
    ("holder", x.holder.toJson),
    ("offset_transform", dumpMatrix x.offset_transform)]

def PUT_DOWN_LABWARE_V1.parse (j : Json) : Except PErr PUT_DOWN_LABWARE_V1 :=
  pBind (checkLitStr j "type" "PUT_DOWN_LABWARE") fun _ =>
  pBind (checkLitInt j "schema_version" 1) fun _ =>
  pBind (parseField Json.asStr j "robot_id") fun robot_id =>
  pBind (parseField LabwareHolder.parse j "holder") fun holder =>
  pBind (parseFieldDflt parseMatrix j "offset_transform" identity_transform) fun offset_transform =>
  .ok ⟨robot_id, holder, offset_transform⟩

@[simp]
theorem putDownLabwareV1_rt (x : PUT_DOWN_LABWARE_V1) :
    PUT_DOWN_LABWARE_V1.parse x.toJson = .ok x := by
  simp [PUT_DOWN_LABWARE_V1.parse, PUT_DOWN_LABWARE_V1.toJson, checkLitStr, checkLitInt,
    Json.getField, List.lookup, parseField, reqField, Json.asStr, parseFieldDflt]

@[simp]
theorem putDownLabwareV1_tag (x : PUT_DOWN_LABWARE_V1) :
    x.toJson.getField "type" = some (.str "PUT_DOWN_LABWARE") := rfl

/-- PUT_DOWN_PIPETTE_TIP_V1 (commands/put_down_pipette_tip/v1.py). -/
structure PUT_DOWN_PIPETTE_TIP_V1 where
  robot_id : String
  location : Location
  deriving DecidableEq, Repr

def PUT_DOWN_PIPETTE_TIP_V1.toJson (x : PUT_DOWN_PIPETTE_TIP_V1) : Json :=
  .obj [("type", .str "PUT_DOWN_PIPETTE_TIP"),
    ("schema_version", .int 1),
    ("robot_id", .str x.robot_id),
    ("location", x.location.toJson)]

def PUT_DOWN_PIPETTE_TIP_V1.parse (j : Json) : Except PErr PUT_DOWN_PIPETTE_TIP_V1 :=
  pBind (checkLitStr j "type" "PUT_DOWN_PIPETTE_TIP") fun _ =>
  pBind (checkLitInt j "schema_version" 1) fun _ =>
  pBind (parseField Json.asStr j "robot_id") fun robot_id =>
  pBind (parseField Location.parse j "location") fun location =>
  .ok ⟨robot_id, location⟩

@[simp]
theorem putDownPipetteTipV1_rt (x : PUT_DOWN_PIPETTE_TIP_V1) :
    PUT_DOWN_PIPETTE_TIP_V1.parse x.toJson = .ok x := by
  simp [PUT_DOWN_PIPETTE_TIP_V1.parse, PUT_DOWN_PIPETTE_TIP_V1.toJson, checkLitStr, checkLitInt,
    Json.getField, List.lookup, parseField, reqField, Json.asStr]

@[simp]
theorem putDownPipetteTipV1_tag (x : PUT_DOWN_PIPETTE_TIP_V1) :
    x.toJson.getField "type" = some (.str "PUT_DOWN_PIPETTE_TIP") := rfl

/-- REMOVE_LABWARE_LID_V1 (commands/remove_labware_lid/v1.py). -/
structure REMOVE_LABWARE_LID_V1 where
  robot_id : String
  labware_id : String
  storage_holder : Option LabwareHolder
  deriving DecidableEq, Repr

def REMOVE_LABWARE_LID_V1.toJson (x : REMOVE_LABWARE_LID_V1) : Json :=
  .obj [("type", .str "REMOVE_LABWARE_LID"),
    ("schema_version", .int 1),
    ("robot_id", .str x.robot_id),
    ("labware_id", .str x.labware_id),
    ("storage_holder", dumpOpt LabwareHolder.toJson x.storage_holder)]

def REMOVE_LABWARE_LID_V1.parse (j : Json) : Except PErr REMOVE_LABWARE_LID_V1 :=
  pBind (checkLitStr j "type" "REMOVE_LABWARE_LID") fun _ =>
  pBind (checkLitInt j "schema_version" 1) fun _ =>
  pBind (parseField Json.asStr j "robot_id") fun robot_id =>
  pBind (parseField Json.asStr j "labware_id") fun labware_id =>
  pBind (parseOptJson LabwareHolder.parse j "storage_holder") fun storage_holder =>
  .ok ⟨robot_id, labware_id, storage_holder⟩

@[simp]
theorem removeLabwareLidV1_rt (x : REMOVE_LABWARE_LID_V1) :
    REMOVE_LABWARE_LID_V1.parse x.toJson = .ok x := by
  simp [REMOVE_LABWARE_LID_V1.parse, REMOVE_LABWARE_LID_V1.toJson, checkLitStr, checkLitInt,
    Json.getField, List.lookup, parseField, reqField, Json.asStr, parseOptJson, optField, nullToNone_dumpOpt LabwareHolder.toJson, parseOptVal_map LabwareHolder.parse LabwareHolder.toJson]

@[simp]
theorem removeLabwareLidV1_tag (x : REMOVE_LABWARE_LID_V1) :
    x.toJson.getField "type" = some (.str "REMOVE_LABWARE_LID") := rfl

/-- REPLACE_LABWARE_LID_V1 (commands/replace_labware_lid/v1.py). -/
structure REPLACE_LABWARE_LID_V1 where
  robot_id : String
  labware_id : String
  lid_id : String
  deriving DecidableEq, Repr

def REPLACE_LABWARE_LID_V1.toJson (x : REPLACE_LABWARE_LID_V1) : Json :=
  .obj [("type", .str "REPLACE_LABWARE_LID"),
    ("schema_version", .int 1),
    ("robot_id", .str x.robot_id),
    ("labware_id", .str x.labware_id),
    ("lid_id", .str x.lid_id)]

def REPLACE_LABWARE_LID_V1.parse (j : Json) : Except PErr REPLACE_LABWARE_LID_V1 :=
  pBind (checkLitStr j "type" "REPLACE_LABWARE_LID") fun _ =>
  pBind (checkLitInt j "schema_version" 1) fun _ =>
  pBind (parseField Json.asStr j "robot_id") fun robot_id =>
  pBind (parseField Json.asStr j "labware_id") fun labware_id =>
  pBind (parseField Json.asStr j "lid_id") fun lid_id =>
  .ok ⟨robot_id, labware_id, lid_id⟩

@[simp]
theorem replaceLabwareLidV1_rt (x : REPLACE_LABWARE_LID_V1) :
    REPLACE_LABWARE_LID_V1.parse x.toJson = .ok x := by
  simp [REPLACE_LABWARE_LID_V1.parse, REPLACE_LABWARE_LID_V1.toJson, checkLitStr, checkLitInt,
    Json.getField, List.lookup, parseField, reqField, Json.asStr]

@[simp]
theorem replaceLabwareLidV1_tag (x : REPLACE_LABWARE_LID_V1) :
    x.toJson.getField "type" = some (.str "REPLACE_LABWARE_LID") := rfl

/-- RETRIEVE_PIPETTE_TIP_GROUP_V1 (commands/retrieve_pipette_tip_group/v1.py). -/
structure RETRIEVE_PIPETTE_TIP_GROUP_V1 where
  robot_id : String
  id : String
  deriving DecidableEq, Repr

def RETRIEVE_PIPETTE_TIP_GROUP_V1.toJson (x : RETRIEVE_PIPETTE_TIP_GROUP_V1) : Json :=
  .obj [("type", .str "RETRIEVE_PIPETTE_TIP_GROUP"),
    ("schema_version", .int 1),
    ("robot_id", .str x.robot_id),
    ("id", .str x.id)]

def RETRIEVE_PIPETTE_TIP_GROUP_V1.parse (j : Json) : Except PErr RETRIEVE_PIPETTE_TIP_GROUP_V1 :=
  pBind (checkLitStr j "type" "RETRIEVE_PIPETTE_TIP_GROUP") fun _ =>
  pBind (checkLitInt j "schema_version" 1) fun _ =>
  pBind (parseField Json.asStr j "robot_id") fun robot_id =>
  pBind (parseField Json.asStr j "id") fun id =>
  .ok ⟨robot_id, id⟩

@[simp]
theorem retrievePipetteTipGroupV1_rt (x : RETRIEVE_PIPETTE_TIP_GROUP_V1) :
    RETRIEVE_PIPETTE_TIP_GROUP_V1.parse x.toJson = .ok x := by
  simp [RETRIEVE_PIPETTE_TIP_GROUP_V1.parse, RETRIEVE_PIPETTE_TIP_GROUP_V1.toJson, checkLitStr, checkLitInt,
    Json.getField, List.lookup, parseField, reqField, Json.asStr]

@[simp]
theorem retrievePipetteTipGroupV1_tag (x : RETRIEVE_PIPETTE_TIP_GROUP_V1) :
    x.toJson.getField "type" = some (.str "RETRIEVE_PIPETTE_TIP_GROUP") := rfl

/-- RETRIEVE_TOOL_V1 (commands/retrieve_tool/v1.py). -/
structure RETRIEVE_TOOL_V1 where
  robot_id : String
  id : String
  deriving DecidableEq, Repr

def RETRIEVE_TOOL_V1.toJson (x : RETRIEVE_TOOL_V1) : Json :=
  .obj [("type", .str "RETRIEVE_TOOL"),
    ("schema_version", .int 1),
    ("robot_id", .str x.robot_id),
    ("id", .str x.id)]

def RETRIEVE_TOOL_V1.parse (j : Json) : Except PErr RETRIEVE_TOOL_V1 :=
  pBind (checkLitStr j "type" "RETRIEVE_TOOL") fun _ =>
  pBind (checkLitInt j "schema_version" 1) fun _ =>
  pBind (parseField Json.asStr j "robot_id") fun robot_id =>
  pBind (parseField Json.asStr j "id") fun id =>
  .ok ⟨robot_id, id⟩

@[simp]
theorem retrieveToolV1_rt (x : RETRIEVE_TOOL_V1) :
    RETRIEVE_TOOL_V1.parse x.toJson = .ok x := by
  simp [RETRIEVE_TOOL_V1.parse, RETRIEVE_TOOL_V1.toJson, checkLitStr, checkLitInt,
    Json.getField, List.lookup, parseField, reqField, Json.asStr]

@[simp]
theorem retrieveToolV1_tag (x : RETRIEVE_TOOL_V1) :
    x.toJson.getField "type" = some (.str "RETRIEVE_TOOL") := rfl

/-- RETURN_PIPETTE_TIP_GROUP_V1 (commands/return_pipette_tip_group/v1.py). -/
structure RETURN_PIPETTE_TIP_GROUP_V1 where
  robot_id : String
  deriving DecidableEq, Repr

def RETURN_PIPETTE_TIP_GROUP_V1.toJson (x : RETURN_PIPETTE_TIP_GROUP_V1) : Json :=
  .obj [("type", .str "RETURN_PIPETTE_TIP_GROUP"),
    ("schema_version", .int 1),
    ("robot_id", .str x.robot_id)]

def RETURN_PIPETTE_TIP_GROUP_V1.parse (j : Json) : Except PErr RETURN_PIPETTE_TIP_GROUP_V1 :=
  pBind (checkLitStr j "type" "RETURN_PIPETTE_TIP_GROUP") fun _ =>
  pBind (checkLitInt j "schema_version" 1) fun _ =>
  pBind (parseField Json.asStr j "robot_id") fun robot_id =>
  .ok ⟨robot_id⟩

@[simp]
theorem returnPipetteTipGroupV1_rt (x : RETURN_PIPETTE_TIP_GROUP_V1) :
    RETURN_PIPETTE_TIP_GROUP_V1.parse x.toJson = .ok x := by
  simp [RETURN_PIPETTE_TIP_GROUP_V1.parse, RETURN_PIPETTE_TIP_GROUP_V1.toJson, checkLitStr, checkLitInt,
    Json.getField, List.lookup, parseField, reqField, Json.asStr]

@[simp]
theorem returnPipetteTipGroupV1_tag (x : RETURN_PIPETTE_TIP_GROUP_V1) :
    x.toJson.getField "type" = some (.str "RETURN_PIPETTE_TIP_GROUP") := rfl

/-- RETURN_TOOL_V1 (commands/return_tool/v1.py). -/
structure RETURN_TOOL_V1 where
  robot_id : String
  deriving DecidableEq, Repr

def RETURN_TOOL_V1.toJson (x : RETURN_TOOL_V1) : Json :=
  .obj [("type", .str "RETURN_TOOL"),
    ("schema_version", .int 1),
    ("robot_id", .str x.robot_id)]

def RETURN_TOOL_V1.parse (j : Json) : Except PErr RETURN_TOOL_V1 :=
  pBind (checkLitStr j "type" "RETURN_TOOL") fun _ =>
  pBind (checkLitInt j "schema_version" 1) fun _ =>
  pBind (parseField Json.asStr j "robot_id") fun robot_id =>
  .ok ⟨robot_id⟩

@[simp]
theorem returnToolV1_rt (x : RETURN_TOOL_V1) :
    RETURN_TOOL_V1.parse x.toJson = .ok x := by
  simp [RETURN_TOOL_V1.parse, RETURN_TOOL_V1.toJson, checkLitStr, checkLitInt,
    Json.getField, List.lookup, parseField, reqField, Json.asStr]

@[simp]
theorem returnToolV1_tag (x : RETURN_TOOL_V1) :
    x.toJson.getField "type" = some (.str "RETURN_TOOL") := rfl

/-- SWAP_TO_TOOL_V1 (commands/swap_to_tool/v1.py). -/
structure SWAP_TO_TOOL_V1 where
  robot_id : String
  id : String
  deriving DecidableEq, Repr

def SWAP_TO_TOOL_V1.toJson (x : SWAP_TO_TOOL_V1) : Json :=
  .obj [("type", .str "SWAP_TO_TOOL"),
    ("schema_version", .int 1),
    ("robot_id", .str x.robot_id),
    ("id", .str x.id)]

def SWAP_TO_TOOL_V1.parse (j : Json) : Except PErr SWAP_TO_TOOL_V1 :=
  pBind (checkLitStr j "type" "SWAP_TO_TOOL") fun _ =>
  pBind (checkLitInt j "schema_version" 1) fun _ =>
  pBind (parseField Json.asStr j "robot_id") fun robot_id =>
  pBind (parseField Json.asStr j "id") fun id =>
  .ok ⟨robot_id, id⟩

@[simp]
theorem swapToToolV1_rt (x : SWAP_TO_TOOL_V1) :
    SWAP_TO_TOOL_V1.parse x.toJson = .ok x := by
  simp [SWAP_TO_TOOL_V1.parse, SWAP_TO_TOOL_V1.toJson, checkLitStr, checkLitInt,
    Json.getField, List.lookup, parseField, reqField, Json.asStr]

@[simp]
theorem swapToToolV1_tag (x : SWAP_TO_TOOL_V1) :
    x.toJson.getField "type" = some (.str "SWAP_TO_TOOL") := rfl

/-- SEND_WEBHOOK_V1 (commands/send_webhook/v1.py). -/
structure SEND_WEBHOOK_V1 where
  pause_execution : Bool
  ignore_external_error : Bool
  url : String
  payload : Option String
  deriving DecidableEq, Repr

def SEND_WEBHOOK_V1.toJson (x : SEND_WEBHOOK_V1) : Json :=
  .obj [("type", .str "SEND_WEBHOOK"),
    ("schema_version", .int 1),
    ("pause_execution", .bool x.pause_execution),
    ("ignore_external_error", .bool x.ignore_external_error),
    ("url", .str x.url),
    ("payload", dumpOpt Json.str x.payload)]

def SEND_WEBHOOK_V1.parse (j : Json) : Except PErr SEND_WEBHOOK_V1 :=
  pBind (checkLitStr j "type" "SEND_WEBHOOK") fun _ =>
  pBind (checkLitInt j "schema_version" 1) fun _ =>
  pBind (parseField Json.asBool j "pause_execution") fun pause_execution =>
  pBind (parseFieldDflt Json.asBool j "ignore_external_error" false) fun ignore_external_error =>
  pBind (parseField Json.asStr j "url") fun url =>
  pBind (parseOptJson Json.asStr j "payload") fun payload =>
  .ok ⟨pause_execution, ignore_external_error, url, payload⟩

@[simp]
theorem sendWebhookV1_rt (x : SEND_WEBHOOK_V1) :
    SEND_WEBHOOK_V1.parse x.toJson = .ok x := by
  simp [SEND_WEBHOOK_V1.parse, SEND_WEBHOOK_V1.toJson, checkLitStr, checkLitInt,
    Json.getField, List.lookup, parseField, reqField, Json.asBool, parseFieldDflt, Json.asStr, parseOptJson, optField, nullToNone_dumpOpt Json.str, parseOptVal_map Json.asStr Json.str]

@[simp]
theorem sendWebhookV1_tag (x : SEND_WEBHOOK_V1) :
    x.toJson.getField "type" = some (.str "SEND_WEBHOOK") := rfl

/-- WAIT_V1 (commands/wait/v1.py). -/
structure WAIT_V1 where
  robot_id : String
  duration : ValueWithUnits
  deriving DecidableEq, Repr

def WAIT_V1.toJson (x : WAIT_V1) : Json :=
  .obj [("type", .str "WAIT"),
    ("schema_version", .int 1),
    ("robot_id", .str x.robot_id),
    ("duration", x.duration.toJson)]

def WAIT_V1.parse (j : Json) : Except PErr WAIT_V1 :=
  pBind (checkLitStr j "type" "WAIT") fun _ =>
  pBind (checkLitInt j "schema_version" 1) fun _ =>
  pBind (parseField Json.asStr j "robot_id") fun robot_id =>
  pBind (parseField ValueWithUnits.parse j "duration") fun duration =>
  .ok ⟨robot_id, duration⟩

@[simp]
theorem waitV1_rt (x : WAIT_V1) :
    WAIT_V1.parse x.toJson = .ok x := by
  simp [WAIT_V1.parse, WAIT_V1.toJson, checkLitStr, checkLitInt,
    Json.getField, List.lookup, parseField, reqField, Json.asStr]

@[simp]
theorem waitV1_tag (x : WAIT_V1) :
    x.toJson.getField "type" = some (.str "WAIT") := rfl

/-- TCode command union (commands/union.py). -/
inductive TCode where
  | aspirate (c : ASPIRATE_V1) : TCode
  | add_labware (c : ADD_LABWARE_V1) : TCode
  | add_pipette_tip_group (c : ADD_PIPETTE_TIP_GROUP_V1) : TCode
  | add_robot (c : ADD_ROBOT_V1) : TCode
  | add_tool (c : ADD_TOOL_V1) : TCode
  | calibrate_labware_well_depth (c : CALIBRATE_LABWARE_WELL_DEPTH_V1) : TCode
  | calibrate_labware_height (c : CALIBRATE_LABWARE_HEIGHT_V1) : TCode
  | calibrate_tool_for_probing (c : CALIBRATE_TOOL_FOR_PROBING_V1) : TCode
  | comment (c : COMMENT_V1) : TCode
  | create_labware (c : CREATE_LABWARE_V1) : TCode
  | delete_labware (c : DELETE_LABWARE_V1) : TCode
  | discard_pipette_tip_group (c : DISCARD_PIPETTE_TIP_GROUP_V1) : TCode
  | dispense (c : DISPENSE_V1) : TCode
  | move_gripper (c : MOVE_GRIPPER_V1) : TCode
  | move_to_location (c : MOVE_TO_LOCATION_V1) : TCode
  | move_to_joint_pose (c : MOVE_TO_JOINT_POSE_V1) : TCode
  | pause (c : PAUSE_V1) : TCode
  | pick_up_labware (c : PICK_UP_LABWARE_V1) : TCode
  | pick_up_pipette_tip (c : PICK_UP_PIPETTE_TIP_V1) : TCode
  | put_down_labware (c : PUT_DOWN_LABWARE_V1) : TCode
  | put_down_pipette_tip (c : PUT_DOWN_PIPETTE_TIP_V1) : TCode
  | remove_labware_lid (c : REMOVE_LABWARE_LID_V1) : TCode
  | replace_labware_lid (c : REPLACE_LABWARE_LID_V1) : TCode
  | retrieve_pipette_tip_group (c : RETRIEVE_PIPETTE_TIP_GROUP_V1) : TCode
  | retrieve_tool (c : RETRIEVE_TOOL_V1) : TCode
  | return_pipette_tip_group (c : RETURN_PIPETTE_TIP_GROUP_V1) : TCode
  | return_tool (c : RETURN_TOOL_V1) : TCode
  | swap_to_tool (c : SWAP_TO_TOOL_V1) : TCode
  | send_webhook (c : SEND_WEBHOOK_V1) : TCode
  | wait (c : WAIT_V1) : TCode
  deriving DecidableEq, Repr

/-- The PositiveInt validators of the chosen command. -/
def TCode.validb : TCode → Bool
  | .aspirate c => true
  | .add_labware c => c.validb
  | .add_pipette_tip_group c => c.validb
  | .add_robot c => true
  | .add_tool c => true
  | .calibrate_labware_well_depth c => true
  | .calibrate_labware_height c => true
  | .calibrate_tool_for_probing c => true
  | .comment c => true
  | .create_labware c => c.validb
  | .delete_labware c => true
  | .discard_pipette_tip_group c => true
  | .dispense c => true
  | .move_gripper c => true
  | .move_to_location c => true
  | .move_to_joint_pose c => true
  | .pause c => true
  | .pick_up_labware c => true
  | .pick_up_pipette_tip c => true
  | .put_down_labware c => true
  | .put_down_pipette_tip c => true
  | .remove_labware_lid c => true
  | .replace_labware_lid c => true
  | .retrieve_pipette_tip_group c => true
  | .retrieve_tool c => true
  | .return_pipette_tip_group c => true
  | .return_tool c => true
  | .swap_to_tool c => true
  | .send_webhook c => true
  | .wait c => true

def TCode.toJson : TCode → Json
  | .aspirate c => c.toJson
  | .add_labware c => c.toJson
  | .add_pipette_tip_group c => c.toJson
  | .add_robot c => c.toJson
  | .add_tool c => c.toJson
  | .calibrate_labware_well_depth c => c.toJson
  | .calibrate_labware_height c => c.toJson
  | .calibrate_tool_for_probing c => c.toJson
  | .comment c => c.toJson
  | .create_labware c => c.toJson
  | .delete_labware c => c.toJson
  | .discard_pipette_tip_group c => c.toJson
  | .dispense c => c.toJson
  | .move_gripper c => c.toJson
  | .move_to_location c => c.toJson
  | .move_to_joint_pose c => c.toJson
  | .pause c => c.toJson
  | .pick_up_labware c => c.toJson
  | .pick_up_pipette_tip c => c.toJson
  | .put_down_labware c => c.toJson
  | .put_down_pipette_tip c => c.toJson
  | .remove_labware_lid c => c.toJson
  | .replace_labware_lid c => c.toJson
  | .retrieve_pipette_tip_group c => c.toJson
  | .retrieve_tool c => c.toJson
  | .return_pipette_tip_group c => c.toJson
  | .return_tool c => c.toJson
  | .swap_to_tool c => c.toJson
  | .send_webhook c => c.toJson
  | .wait c => c.toJson

def TCode.parse (j : Json) : Except PErr TCode :=
  match j.getField "type" with
  | some (.str t) =>
    if t = "ASPIRATE" then pBind (ASPIRATE_V1.parse j) fun c => .ok (.aspirate c)
    else if t = "ADD_LABWARE" then pBind (ADD_LABWARE_V1.parse j) fun c => .ok (.add_labware c)
    else if t = "ADD_PIPETTE_TIP_GROUP" then pBind (ADD_PIPETTE_TIP_GROUP_V1.parse j) fun c => .ok (.add_pipette_tip_group c)
    else if t = "ADD_ROBOT" then pBind (ADD_ROBOT_V1.parse j) fun c => .ok (.add_robot c)
    else if t = "ADD_TOOL" then pBind (ADD_TOOL_V1.parse j) fun c => .ok (.add_tool c)
    else if t = "CALIBRATE_LABWARE_WELL_DEPTH" then pBind (CALIBRATE_LABWARE_WELL_DEPTH_V1.parse j) fun c => .ok (.calibrate_labware_well_depth c)
    else if t = "CALIBRATE_LABWARE_HEIGHT" then pBind (CALIBRATE_LABWARE_HEIGHT_V1.parse j) fun c => .ok (.calibrate_labware_height c)
    else if t = "CALIBRATE_TOOL_FOR_PROBING" then pBind (CALIBRATE_TOOL_FOR_PROBING_V1.parse j) fun c => .ok (.calibrate_tool_for_probing c)
    else if t = "COMMENT" then pBind (COMMENT_V1.parse j) fun c => .ok (.comment c)
    else if t = "CREATE_LABWARE" then pBind (CREATE_LABWARE_V1.parse j) fun c => .ok (.create_labware c)
    else if t = "DELETE_LABWARE" then pBind (DELETE_LABWARE_V1.parse j) fun c => .ok (.delete_labware c)
    else if t = "DISCARD_PIPETTE_TIP_GROUP" then pBind (DISCARD_PIPETTE_TIP_GROUP_V1.parse j) fun c => .ok (.discard_pipette_tip_group c)
    else if t = "DISPENSE" then pBind (DISPENSE_V1.parse j) fun c => .ok (.dispense c)
    else if t = "MOVE_GRIPPER" then pBind (MOVE_GRIPPER_V1.parse j) fun c => .ok (.move_gripper c)
    else if t = "MOVE_TO_LOCATION" then pBind (MOVE_TO_LOCATION_V1.parse j) fun c => .ok (.move_to_location c)
    else if t = "MOVE_TO_JOINT_POSE" then pBind (MOVE_TO_JOINT_POSE_V1.parse j) fun c => .ok (.move_to_joint_pose c)
    else if t = "PAUSE" then pBind (PAUSE_V1.parse j) fun c => .ok (.pause c)
    else if t = "PICK_UP_LABWARE" then pBind (PICK_UP_LABWARE_V1.parse j) fun c => .ok (.pick_up_labware c)
    else if t = "PICK_UP_PIPETTE_TIP" then pBind (PICK_UP_PIPETTE_TIP_V1.parse j) fun c => .ok (.pick_up_pipette_tip c)
    else if t = "PUT_DOWN_LABWARE" then pBind (PUT_DOWN_LABWARE_V1.parse j) fun c => .ok (.put_down_labware c)
    else if t = "PUT_DOWN_PIPETTE_TIP" then pBind (PUT_DOWN_PIPETTE_TIP_V1.parse j) fun c => .ok (.put_down_pipette_tip c)
    else if t = "REMOVE_LABWARE_LID" then pBind (REMOVE_LABWARE_LID_V1.parse j) fun c => .ok (.remove_labware_lid c)
    else if t = "REPLACE_LABWARE_LID" then pBind (REPLACE_LABWARE_LID_V1.parse j) fun c => .ok (.replace_labware_lid c)
    else if t = "RETRIEVE_PIPETTE_TIP_GROUP" then pBind (RETRIEVE_PIPETTE_TIP_GROUP_V1.parse j) fun c => .ok (.retrieve_pipette_tip_group c)
    else if t = "RETRIEVE_TOOL" then pBind (RETRIEVE_TOOL_V1.parse j) fun c => .ok (.retrieve_tool c)
    else if t = "RETURN_PIPETTE_TIP_GROUP" then pBind (RETURN_PIPETTE_TIP_GROUP_V1.parse j) fun c => .ok (.return_pipette_tip_group c)
    else if t = "RETURN_TOOL" then pBind (RETURN_TOOL_V1.parse j) fun c => .ok (.return_tool c)
    else if t = "SWAP_TO_TOOL" then pBind (SWAP_TO_TOOL_V1.parse j) fun c => .ok (.swap_to_tool c)
    else if t = "SEND_WEBHOOK" then pBind (SEND_WEBHOOK_V1.parse j) fun c => .ok (.send_webhook c)
    else if t = "WAIT" then pBind (WAIT_V1.parse j) fun c => .ok (.wait c)
    else .error .validation
  | _ => .error .validation

set_option maxHeartbeats 2000000 in
@[simp]
theorem tcode_rt (x : TCode) (hv : x.validb = true) :
    TCode.parse x.toJson = .ok x := by
  cases x <;> simp_all [TCode.parse, TCode.toJson, TCode.validb]

@[simp]
theorem tcode_ne_null (x : TCode) : x.toJson ≠ .null := by
  cases x <;> simp [TCode.toJson, ASPIRATE_V1.toJson, ADD_LABWARE_V1.toJson, ADD_PIPETTE_TIP_GROUP_V1.toJson, ADD_ROBOT_V1.toJson, ADD_TOOL_V1.toJson, CALIBRATE_LABWARE_WELL_DEPTH_V1.toJson, CALIBRATE_LABWARE_HEIGHT_V1.toJson, CALIBRATE_TOOL_FOR_PROBING_V1.toJson, COMMENT_V1.toJson, CREATE_LABWARE_V1.toJson, DELETE_LABWARE_V1.toJson, DISCARD_PIPETTE_TIP_GROUP_V1.toJson, DISPENSE_V1.toJson, MOVE_GRIPPER_V1.toJson, MOVE_TO_LOCATION_V1.toJson, MOVE_TO_JOINT_POSE_V1.toJson, PAUSE_V1.toJson, PICK_UP_LABWARE_V1.toJson, PICK_UP_PIPETTE_TIP_V1.toJson, PUT_DOWN_LABWARE_V1.toJson, PUT_DOWN_PIPETTE_TIP_V1.toJson, REMOVE_LABWARE_LID_V1.toJson, REPLACE_LABWARE_LID_V1.toJson, RETRIEVE_PIPETTE_TIP_GROUP_V1.toJson, RETRIEVE_TOOL_V1.toJson, RETURN_PIPETTE_TIP_GROUP_V1.toJson, RETURN_TOOL_V1.toJson, SWAP_TO_TOOL_V1.toJson, SEND_WEBHOOK_V1.toJson, WAIT_V1.toJson]

/-- MetadataV1 (schemas/script/metadata/v1.py). -/
structure MetadataV1 where
  name : String
  timestamp : String
  tcode_api_version : String
  description : Option String
  deriving DecidableEq, Repr

def MetadataV1.toJson (x : MetadataV1) : Json :=
  .obj [("type", .str "Metadata"), ("schema_version", .int 1),
    ("name", .str x.name), ("timestamp", .str x.timestamp),
    ("tcode_api_version", .str x.tcode_api_version),
    ("description", dumpOpt Json.str x.description)]

def MetadataV1.parse (j : Json) : Except PErr MetadataV1 :=
  pBind (checkLitStr j "type" "Metadata") fun _ =>
  pBind (checkLitInt j "schema_version" 1) fun _ =>
  pBind (parseField Json.asStr j "name") fun name =>
  pBind (parseField Json.asStr j "timestamp") fun timestamp =>
  pBind (parseField Json.asStr j "tcode_api_version") fun tcode_api_version =>
  pBind (parseOptJson Json.asStr j "description") fun description =>
  .ok ⟨name, timestamp, tcode_api_version, description⟩

@[simp]
theorem metadataV1_rt (x : MetadataV1) : MetadataV1.parse x.toJson = .ok x := by
  simp [MetadataV1.parse, MetadataV1.toJson, checkLitStr, checkLitInt, parseField,
    reqField, Json.getField, List.lookup, parseOptJson, optField,
    nullToNone_dumpOpt Json.str, parseOptVal_map Json.asStr Json.str, Json.asStr]

/-- TCodeScriptV1 (schemas/script/tcode_script/v1.py). -/
structure TCodeScriptV1 where
  metadata : MetadataV1
  commands : List TCode
  deriving DecidableEq, Repr

/-- The PositiveInt validators reached through the command list: a script is
valid when every nested count field (grid dimensions and pipette tip group
dimensions) is positive, exactly the values pydantic's PositiveInt admits. -/
def TCodeScriptV1.validb (x : TCodeScriptV1) : Bool :=
  x.commands.all TCode.validb

def TCodeScriptV1.toJson (x : TCodeScriptV1) : Json :=
  .obj [("type", .str "TCodeScript"), ("schema_version", .int 1),
    ("metadata", x.metadata.toJson),
    ("commands", dumpList TCode.toJson x.commands)]

def TCodeScriptV1.parse (j : Json) : Except PErr TCodeScriptV1 :=
  pBind (checkLitStr j "type" "TCodeScript") fun _ =>
  pBind (checkLitInt j "schema_version" 1) fun _ =>
  pBind (parseField MetadataV1.parse j "metadata") fun metadata =>
  pBind (parseListFieldDflt TCode.parse j "commands") fun commands =>
  .ok ⟨metadata, commands⟩

/-- BaseSchemaVersionedModel.write (schemas/base.py): model_dump_json of the
script. -/
def TCodeScriptV1.write (x : TCodeScriptV1) : Json :=
  x.toJson

/-- BaseSchemaVersionedModel.read (schemas/base.py): model_validate_json of
the file contents. -/
def TCodeScriptV1.read (j : Json) : Except PErr TCodeScriptV1 :=
  TCodeScriptV1.parse j

/-- A concrete script exercising metadata, a plain command, a robot-specific
command and a descriptor-carrying command. -/
def sampleScript : TCodeScriptV1 :=
  ⟨⟨"demo", "2024-01-01T00:00:00", "1.2.3", none⟩,
   [.pause ⟨⟩,
    .aspirate ⟨"ID-R0", ⟨100, "uL"⟩, ⟨10, "uL/s"⟩⟩,
    .add_pipette_tip_group ⟨"ID-PTG0", ⟨8, 12, [], []⟩⟩,
    .comment ⟨"hello"⟩]⟩

/-- C3: for every valid script s, read (write s) returns exactly s: every
field, including the command list and all metadata (the timestamp included,
so in particular all fields other than the timestamp), is preserved. -/
theorem script_read_write_roundtrip (s : TCodeScriptV1) (hv : s.validb = true) :
    TCodeScriptV1.read (TCodeScriptV1.write s) = .ok s := by
  rw [TCodeScriptV1.validb, List.all_eq_true] at hv
  have hc : ∀ c ∈ s.commands, TCode.parse c.toJson = .ok c := by
    intro c hcm
    exact tcode_rt c (hv c hcm)
  simp [TCodeScriptV1.read, TCodeScriptV1.write, TCodeScriptV1.parse,
    TCodeScriptV1.toJson, checkLitStr, checkLitInt, parseField, reqField,
    parseListFieldDflt, Json.getField, List.lookup, dumpList,
    parseList_map TCode.parse TCode.toJson s.commands hc]

/-- C3 witness: the roundtrip on the concrete sample script. -/
theorem script_read_write_roundtrip_witness :
    sampleScript.validb = true ∧
      TCodeScriptV1.read (TCodeScriptV1.write sampleScript) = .ok sampleScript :=
  ⟨by decide, script_read_write_roundtrip sampleScript (by decide)⟩

/-- Errors of migrate_v1_to_v2: the explicit ValueError for a bad source
version, and Python KeyError for a missing dict key. -/
inductive MigrateError where
  | valueError : MigrateError
  | keyError (k : String) : MigrateError
  deriving DecidableEq, Repr

/-- Sequencing in the KeyError monad of migrate_v1_to_v2. -/
def mBind {α β : Type} (x : Except MigrateError α) (f : α → Except MigrateError β) :
    Except MigrateError β :=
  match x with
  | .ok v => f v
  | .error e => .error e

@[simp]
theorem mBind_ok {α β : Type} (v : α) (f : α → Except MigrateError β) :
    mBind (.ok v) f = f v := rfl

@[simp]
theorem mBind_error {α β : Type} (e : MigrateError) (f : α → Except MigrateError β) :
    mBind (.error e) f = .error e := rfl

/-- data[k] on a Python dict: the value, or KeyError. -/
def dictGet (data : List (String × Json)) (k : String) :
    Except MigrateError Json :=
  match data.lookup k with
  | some v => .ok v
  | none => .error (.keyError k)

/-- Python `value != 0` on a JSON-decoded value (bools and floats compare
numerically with 0 in Python). -/
def pyNeZero : Json → Bool
  | .int n => decide (n ≠ 0)
  | .float q => decide (q ≠ 0)
  | .bool b => b
  | _ => true

/-- migrate_v1_to_v2 (descriptions/labware/pipette_tip_box/v2.py lines
40-61), translated clause by clause: the version guard raises ValueError
when schema_version is present and differs from 0; grid, pipette_tip and
full are read with KeyError semantics; full maps None to null, True to a
dumped PipetteTipLayoutV1.full() and anything else to a dumped
PipetteTipLayoutV1.empty(); the output carries schema_version 1. -/
def migrate_v1_to_v2 (data : List (String × Json)) :
    Except MigrateError (List (String × Json)) :=
  match data.lookup "schema_version" with
  | some v =>
    if pyNeZero v then .error .valueError
    else migrateBody data
  | none => migrateBody data
where
  migrateBody (data : List (String × Json)) :
      Except MigrateError (List (String × Json)) :=
    mBind (dictGet data "grid") fun grid =>
    mBind (dictGet data "pipette_tip") fun pipette_tip =>
    mBind (dictGet data "full") fun full =>
    .ok [("type", .str "PipetteTipBox"), ("schema_version", .int 1),
      ("grid", grid), ("pipette_tip", pipette_tip),
      ("pipette_tip_layout",
        match full with
        | .null => .null
        | .bool true => (PipetteTipLayoutV1.full 8 12).toJson
        | _ => (PipetteTipLayoutV1.empty 8 12).toJson)]

/-- C6: the migration maps full=true / false / null to the full / empty /
null layout as specified, but it is not total over previously-valid v1
payloads: a payload carrying its own schema_version 1 (as every dumped v1
model does) is rejected with ValueError by the guard that only accepts
version 0 or a missing version, and the migrated output carries
schema_version 1, which the v2 model (Literal 2) rejects on
reconstruction. -/
theorem pipette_tip_box_migration_behaviour (g p : Json) :
    migrate_v1_to_v2 [("type", .str "PipetteTipBox"), ("schema_version", .int 1),
        ("grid", g), ("pipette_tip", p), ("full", .bool true)] =
      .error .valueError ∧
    migrate_v1_to_v2 [("type", .str "PipetteTipBox"), ("grid", g),
        ("pipette_tip", p), ("full", .bool true)] =
      .ok [("type", .str "PipetteTipBox"), ("schema_version", .int 1),
        ("grid", g), ("pipette_tip", p),
        ("pipette_tip_layout", (PipetteTipLayoutV1.full 8 12).toJson)] ∧
    migrate_v1_to_v2 [("type", .str "PipetteTipBox"), ("grid", g),
        ("pipette_tip", p), ("full", .null)] =
      .ok [("type", .str "PipetteTipBox"), ("schema_version", .int 1),
        ("grid", g), ("pipette_tip", p), ("pipette_tip_layout", .null)] ∧
    migrate_v1_to_v2 [("type", .str "PipetteTipBox"), ("grid", g),
        ("pipette_tip", p), ("full", .bool false)] =
      .ok [("type", .str "PipetteTipBox"), ("schema_version", .int 1),
        ("grid", g), ("pipette_tip", p),
        ("pipette_tip_layout", (PipetteTipLayoutV1.empty 8 12).toJson)] ∧
    PipetteTipBoxDescriptorV2.parse (.obj [("type", .str "PipetteTipBox"),
        ("schema_version", .int 1), ("grid", g), ("pipette_tip", p),
        ("pipette_tip_layout", (PipetteTipLayoutV1.full 8 12).toJson)]) =
      .error .validation :=
  ⟨rfl, rfl, rfl, rfl, rfl⟩
